/-
  Verification of the COSC444 motif-scanning project core
  (IUPAC motif compiler, sequence scanner, randomizer, statistical
  comparator, baseline orchestrator) against its design specification.

  The Python sources are shallowly embedded: dictionaries become
  association lists (insertion-ordered, as Python dicts are), strings
  become Lean `String`s, Python ints become `Int`/`Nat`, floats become
  `Rat` (and `Real` where a square root is mathematically exact),
  and `re` patterns are modelled by the fixed-width fragment of regular
  expressions that `iupac_to_regex` emits (literals, character classes
  and negated character classes).
-/
import Mathlib

set_option maxHeartbeats 1000000
set_option maxRecDepth 1000000

namespace MotifScan

/-! ## Association-list dictionaries (model of Python `dict`) -/

/-- Look a key up in an association list (first binding wins, as in a
Python `dict` where keys are unique). -/
def dget {α : Type} (d : List (String × α)) (k : String) : Option α :=
  (d.find? (fun p => p.1 = k)).map (fun p => p.2)

/-- `d.get(k, v0)` of a Python dict. -/
def dgetD {α : Type} (d : List (String × α)) (k : String) (v0 : α) : α :=
  (dget d k).getD v0

/-! ## `src/motifs/iupac.py` -/

/-- The `META_CHARS` string literal of `iupac_to_regex`
(`".^$*+?{}[]|()\\\\"`): regex metacharacters copied through untouched.
The backslash appears twice in the Python literal; membership is
unaffected. -/
def META_CHARS : List Char :=
  ['.', '^', '$', '*', '+', '?', '\x7b', '\x7d', '[', ']', '|', '(', ')', '\\', '\\']

/-- `DNA_IUPAC`: unambiguous + ambiguous DNA IUPAC codes; values are
strings listing the concrete bases represented by each code.  Keys are
the single-character strings of the Python dict, in its insertion
(canonical) order. -/
def DNA_IUPAC : List (Char × String) :=
  [('A', "A"), ('C', "C"), ('G', "G"), ('T', "T"), ('U', "U"),
   ('R', "AG"), ('Y', "CT"), ('S', "GC"), ('W', "AT"), ('K', "GT"),
   ('M', "AC"), ('B', "CGT"), ('D', "AGT"), ('H', "ACT"), ('V', "ACG"),
   ('N', "ACGT")]

/-- `PROTEIN_IUPAC`: standard 20 amino acids + ambiguous protein codes. -/
def PROTEIN_IUPAC : List (Char × String) :=
  [('A', "A"), ('C', "C"), ('D', "D"), ('E', "E"), ('F', "F"),
   ('G', "G"), ('H', "H"), ('I', "I"), ('K', "K"), ('L', "L"),
   ('M', "M"), ('N', "N"), ('P', "P"), ('Q', "Q"), ('R', "R"),
   ('S', "S"), ('T', "T"), ('V', "V"), ('W', "W"), ('Y', "Y"),
   ('B', "DN"), ('Z', "EQ"), ('X', "ACDEFGHIKLMNPQRSTVWY")]

/-- `table.get(ch.upper())` on an IUPAC table. -/
def tableGet (table : List (Char × String)) (c : Char) : Option String :=
  (table.find? (fun p => p.1 = c)).map (fun p => p.2)

/-- `kind.lower()` (character-wise ASCII lowercasing). -/
def strLower (s : String) : String :=
  String.mk (s.data.map Char.toLower)

/-- `_lookup_table(kind)`: the IUPAC table for `"dna"` / `"protein"`
(case-insensitive); `none` models the `ValueError` raised for any other
kind. -/
def lookup_table (kind : String) : Option (List (Char × String)) :=
  let k := strLower kind
  if k = "dna" then some DNA_IUPAC
  else if k = "protein" then some PROTEIN_IUPAC
  else none

/-- The per-character translation step of `iupac_to_regex`: copy regex
metacharacters and unknown symbols through, emit the literal letter for
an unambiguous code, and a character class for an ambiguous one. -/
def expandChar (table : List (Char × String)) (ch : Char) : String :=
  if ch ∈ META_CHARS then String.singleton ch
  else
    match tableGet table ch.toUpper with
    | none => String.singleton ch
    | some code => if code.length = 1 then code else "[" ++ code ++ "]"

/-- Left-to-right concatenation of the per-character expansions
(the `out_parts` accumulation and final `"".join`). -/
def expandAll (table : List (Char × String)) : List Char → String
  | [] => ""
  | c :: cs => expandChar table c ++ expandAll table cs

/-- `iupac_to_regex(pattern, kind)`; `none` models the `ValueError`
for an unknown kind. -/
def iupac_to_regex (pattern : String) (kind : String) : Option String :=
  (lookup_table kind).map (fun table => expandAll table pattern.data)

/-! ## Model of the fixed-width regex fragment used by the motifs
(`re.compile` / `re.finditer` on patterns produced by `iupac_to_regex`
from the repository's motif files: literals, `[...]` classes and
`[^...]` negated classes). -/

/-- One position of a fixed-width pattern. -/
inductive CClass : Type
  | lit (c : Char)
  | cls (cs : List Char)
  | ncls (cs : List Char)
deriving DecidableEq, Repr

/-- Does one pattern position accept a character? -/
def cmatch : CClass → Char → Bool
  | CClass.lit c, x => x = c
  | CClass.cls cs, x => cs.contains x
  | CClass.ncls cs, x => !(cs.contains x)

/-- Whole-string match of a fixed-width pattern (`re.fullmatch`). -/
def fullMatch : List CClass → List Char → Bool
  | [], [] => true
  | [], _ :: _ => false
  | _ :: _, [] => false
  | p :: ps, c :: cs => cmatch p c && fullMatch ps cs

/-- Does the pattern match starting exactly at the head of `s`
(prefix match)? -/
def matchesFrom : List CClass → List Char → Bool
  | [], _ => true
  | _ :: _, [] => false
  | p :: ps, c :: cs => cmatch p c && matchesFrom ps cs

/-- Does the pattern match at 0-based position `i` of `s`? -/
def matchesAt (pat : List CClass) (s : List Char) (i : Nat) : Bool :=
  decide (i ≤ s.length) && matchesFrom pat (s.drop i)

/-- Parse the body of a `[...]` class up to the closing `]`. -/
def parseClassBody : List Char → Option (List Char × List Char)
  | [] => none
  | c :: cs =>
      if c = ']' then some ([], cs)
      else
        match parseClassBody cs with
        | none => none
        | some (body, rest) => some (c :: body, rest)

/-- Fuelled parser for the regex fragment: literals, `[...]`, `[^...]`.
Any other metacharacter construct is outside the modelled fragment and
yields `none`. -/
def parseRegexF : Nat → List Char → Option (List CClass)
  | 0, _ => none
  | _ + 1, [] => some []
  | fuel + 1, c :: cs =>
      if c = '[' then
        match cs with
        | '^' :: cs2 =>
            match parseClassBody cs2 with
            | none => none
            | some (body, rest) =>
                match parseRegexF fuel rest with
                | none => none
                | some ps => some (CClass.ncls body :: ps)
        | _ =>
            match parseClassBody cs with
            | none => none
            | some (body, rest) =>
                match parseRegexF fuel rest with
                | none => none
                | some ps => some (CClass.cls body :: ps)
      else if c ∈ META_CHARS then none
      else
        match parseRegexF fuel cs with
        | none => none
        | some ps => some (CClass.lit c :: ps)

/-- `re.compile` on the modelled fragment. -/
def parseRegex (s : String) : Option (List CClass) :=
  parseRegexF (s.length + 1) s.data

/-- Compile a motif exactly as `load_motifs` does: IUPAC expansion
followed by `re.compile`. -/
def compileMotif (pattern : String) (kind : String) : Option (List CClass) :=
  match iupac_to_regex pattern kind with
  | none => none
  | some rx => parseRegex rx

/-! ## `src/scan/scanner.py` -/

/-- One match dictionary produced by `scan_sequence`
(the dict literal at scanner.py lines 52-58). -/
structure Match : Type where
  seq_id : String
  motif : String
  start : Nat
  «end» : Nat
  «match» : String
deriving DecidableEq, Repr

/-- A Python dict value (string or integer), used to state which keys
the scanner's match dictionaries carry. -/
inductive DVal : Type
  | s (v : String)
  | n (v : Nat)
deriving DecidableEq, Repr

/-- The match record as the Python dict literal builds it: its keys, in
insertion order, are exactly `seq_id, motif, start, end, match`. -/
def Match.toDict (m : Match) : List (String × DVal) :=
  [("seq_id", DVal.s m.seq_id), ("motif", DVal.s m.motif),
   ("start", DVal.n m.start), ("end", DVal.n m.«end»),
   ("match", DVal.s m.«match»)]

/-- All 0-based positions (in ascending order) at which the pattern
matches the sequence. -/
def matchStarts (pat : List CClass) (s : List Char) : List Nat :=
  (List.range (s.length + 1)).filter (fun i => matchesAt pat s i)

/-- Greedy left-to-right selection of non-overlapping match starts:
after accepting a match of width `w` at `i`, the next search resumes at
`i + w` (`i + 1` for a zero-width match, as `re` does). -/
def nonOverlap (w : Nat) : List Nat → Nat → List Nat
  | [], _ => []
  | i :: rest, pos =>
      if pos ≤ i then i :: nonOverlap w rest (i + max w 1)
      else nonOverlap w rest pos

/-- `pattern.finditer(sequence)`: 0-based start positions of the
non-overlapping matches, leftmost-first. -/
def finditer (pat : List CClass) (s : List Char) : List Nat :=
  nonOverlap pat.length (matchStarts pat s) 0

/-- `scan_sequence(seq_id, sequence, motif_map)`: for each motif (in
map order) append one match dict per `finditer` hit, converting the
0-based start to 1-based and keeping `match_obj.end()` as the 1-based
inclusive end. -/
def scan_sequence (seq_id : String) (sequence : String)
    (motif_map : List (String × List CClass)) : List Match :=
  (motif_map.map (fun np =>
    (finditer np.2 sequence.data).map (fun i =>
      Match.mk seq_id np.1 (i + 1) (i + np.2.length)
        (String.mk ((sequence.data.drop i).take np.2.length))))).flatten

/-! ## Spec-modelled strand/overlap scanner

`src/main.py` (line 15 of its legacy section) invokes
`scanner.scan_sequence(seq_id, seq, motifs, allow_overlap, revcomp)`,
but the five-parameter scanner it calls is not present under `src/`;
only this caller is.  It is therefore modelled from the spec (§4.2). -/

/-- Modelled from the spec: the symbol-wise complement table of the
reverse-complement scan (A↔T, C↔G, all other symbols passed through
unchanged). -/
def complement (c : Char) : Char :=
  if c = 'A' then 'T'
  else if c = 'T' then 'A'
  else if c = 'C' then 'G'
  else if c = 'G' then 'C'
  else c

/-- Modelled from the spec: the reverse complement of the full input
sequence (complement each symbol, then reverse). -/
def reverse_complement (s : String) : String :=
  String.mk ((s.data.map complement).reverse)

/-- A match of the strand-aware scanner: the scanner's match record
plus its strand tag (`"+"` or `"-"`). -/
structure StrandMatch : Type where
  base : Match
  strand : String
deriving DecidableEq, Repr

/-- Match starts under the overlap policy: every matching start
position when overlap is allowed, the greedy non-overlapping selection
otherwise. -/
def startsWithPolicy (pat : List CClass) (s : List Char)
    (allow_overlap : Bool) : List Nat :=
  if allow_overlap then matchStarts pat s else finditer pat s

/-- Modelled from the spec: scan one strand of a sequence with the
given overlap policy, tagging every match with `strand`. -/
def scanStrand (seq_id : String) (sequence : String)
    (motif_map : List (String × List CClass)) (allow_overlap : Bool)
    (strand : String) : List StrandMatch :=
  (motif_map.map (fun np =>
    (startsWithPolicy np.2 sequence.data allow_overlap).map (fun i =>
      StrandMatch.mk
        (Match.mk seq_id np.1 (i + 1) (i + np.2.length)
          (String.mk ((sequence.data.drop i).take np.2.length)))
        strand))).flatten

/-- Modelled from the spec: the five-parameter scanner invoked by
`src/main.py` line 15 (`scan_sequence(seq_id, seq, motifs,
allow_overlap, revcomp)`), absent from `src/`.  It scans the forward
strand, and when `include_reverse_complement` is set it additionally
scans the reverse complement of the full input with the same motif set
and overlap policy, emitting those matches tagged `"-"` after all
forward-strand matches. -/
def scan_sequence_full (seq_id : String) (sequence : String)
    (motif_map : List (String × List CClass)) (allow_overlap : Bool)
    (include_reverse_complement : Bool) : List StrandMatch :=
  scanStrand seq_id sequence motif_map allow_overlap "+" ++
    (if include_reverse_complement then
      scanStrand seq_id (reverse_complement sequence) motif_map allow_overlap "-"
    else [])

/-! ## `src/eval/randomize.py`

Python's `random.Random` is a seeded deterministic pseudo-random
source; `rng.shuffle` is the Fisher-Yates loop
`for i in reversed(range(1, len(x))): j = _randbelow(i+1); swap x[i] x[j]`.
The randomizer is embedded generically over any such source: a state
type `σ` with a draw function `rb st n = (j, st')`, `j` intended below
`n`.  The concrete source used by `run_baseline` (`pyRandbelow` /
`randomInit`) is a bit-exact model of CPython's `random.Random`:
MT19937 seeded by `init_by_array` over the seed's 32-bit words, with
`_randbelow` as top-bits rejection sampling. -/

/-- Swap two positions of a list (identity when an index is out of
range; `_randbelow(i+1)` keeps both in range in the real loop). -/
def listSwap {α : Type} (xs : List α) (i j : Nat) : List α :=
  match xs.get? i, xs.get? j with
  | some a, some b => (xs.set i b).set j a
  | _, _ => xs

/-- The Fisher-Yates loop of `rng.shuffle`, with the current index as
fuel: indices `i, i-1, ..., 1` remain to be processed. -/
def fisherYates {σ : Type} (rb : σ → Nat → Nat × σ) :
    List Char → Nat → σ → List Char × σ
  | xs, 0, st => (xs, st)
  | xs, i + 1, st =>
      let js := rb st (i + 2)
      fisherYates rb (listSwap xs (i + 1) js.1) i js.2

/-- `randomize_sequence(seq, rng)`: shuffle the characters with the
supplied source and re-join them.  (The `rng=None` default constructs
a fresh unseeded source from system entropy; the model requires the
caller to supply the source state.) -/
def randomize_sequence {σ : Type} (rb : σ → Nat → Nat × σ)
    (seq : String) (st : σ) : String × σ :=
  let r := fisherYates rb seq.data (seq.data.length - 1) st
  (String.mk r.1, r.2)

/-- `randomize_sequences(sequences, rng)`: shuffle every value, in map
order, threading the same source through all entries. -/
def randomize_sequences {σ : Type} (rb : σ → Nat → Nat × σ) :
    List (String × String) → σ → List (String × String) × σ
  | [], st => ([], st)
  | (k, v) :: rest, st =>
      let r := randomize_sequence rb v st
      let rs := randomize_sequences rb rest r.2
      ((k, r.1) :: rs.1, rs.2)

/-- The state of the modelled pseudo-random source (CPython's
`random.Random`, an MT19937 Mersenne Twister): the 624 32-bit state
words packed little-endian into one natural number, with the output
index. -/
abbrev RState : Type := Nat × Nat

/-- `2 ^ (32 * i)`, the place value of word `i`, by iterated
multiplication (keeps cold evaluation shallow). -/
def pw32 : Nat → Nat
  | 0 => 1
  | i + 1 => pw32 i * 2 ^ 32

/-- Word `i` of a packed MT19937 state. -/
def wGet (s i : Nat) : Nat := s / pw32 i % 2 ^ 32

/-- Overwrite word `i` of a packed MT19937 state with `v < 2^32`. -/
def wSet (s i v : Nat) : Nat :=
  s - wGet s i * pw32 i + v * pw32 i

/-- The body of `init_genrand`, recursing on the remaining iteration
count with the index as an explicit argument. -/
def initGenrandGo : Nat → Nat → Nat → Nat
  | 0, acc, _ => acc
  | c + 1, acc, i =>
      let prev := wGet acc (i - 1)
      initGenrandGo c
        (wSet acc i ((1812433253 * (prev ^^^ (prev >>> 30)) + i) % 2 ^ 32))
        (i + 1)

/-- MT19937 `init_genrand`: the base state-filling recurrence. -/
def initGenrand (seed : Nat) : Nat :=
  initGenrandGo 623 (seed % 2 ^ 32) 1

/-- The body of the first mixing loop of `init_by_array`, recursing on
the remaining iteration count with the wrapping indices `i`, `j` as
explicit arguments. -/
def mtSeed1Go (key : List Nat) : Nat → Nat → Nat → Nat → Nat × Nat × Nat
  | 0, acc, i, j => (acc, i, j)
  | c + 1, acc, i, j =>
      let prev := wGet acc (i - 1)
      let acc2 := wSet acc i ((((wGet acc i) ^^^
        ((prev ^^^ (prev >>> 30)) * 1664525 % 2 ^ 32)) +
        key.getD j 0 + j) % 2 ^ 32)
      if 624 ≤ i + 1 then
        mtSeed1Go key c (wSet acc2 0 (wGet acc2 623)) 1 ((j + 1) % key.length)
      else mtSeed1Go key c acc2 (i + 1) ((j + 1) % key.length)

/-- The first mixing loop of MT19937 `init_by_array`: fold the key
into the base state, `max(624, len(key))` iterations with wrapping
indices. -/
def mtSeedLoop1 (key : List Nat) (acc0 : Nat) : Nat × Nat × Nat :=
  mtSeed1Go key (max 624 key.length) acc0 1 0

/-- The body of the second mixing loop of `init_by_array`. -/
def mtSeed2Go : Nat → Nat → Nat → Nat × Nat
  | 0, acc, i => (acc, i)
  | c + 1, acc, i =>
      let prev := wGet acc (i - 1)
      let acc2 := wSet acc i ((((wGet acc i) ^^^
        ((prev ^^^ (prev >>> 30)) * 1566083941 % 2 ^ 32)) +
        2 ^ 32 - i % 2 ^ 32) % 2 ^ 32)
      if 624 ≤ i + 1 then mtSeed2Go c (wSet acc2 0 (wGet acc2 623)) 1
      else mtSeed2Go c acc2 (i + 1)

/-- The second mixing loop of MT19937 `init_by_array`: 623 decoupling
iterations continuing from the first loop's index. -/
def mtSeedLoop2 (st0 : Nat × Nat) : Nat × Nat :=
  mtSeed2Go 623 st0.1 st0.2

/-- MT19937 `init_by_array`, the seeding procedure `random.seed` uses
on an integer seed's 32-bit key words. -/
def initByArray (key : List Nat) : Nat :=
  let s1 := mtSeedLoop1 key (initGenrand 19650218)
  let s2 := mtSeedLoop2 (s1.1, s1.2.1)
  wSet s2.1 0 (2 ^ 31)

/-- The body of the twist, recursing on the remaining word count. -/
def mtTwistGo : Nat → Nat → Nat → Nat
  | 0, acc, _ => acc
  | c + 1, acc, i =>
      let y := wGet acc i / 2 ^ 31 * 2 ^ 31 + wGet acc ((i + 1) % 624) % 2 ^ 31
      mtTwistGo c
        (wSet acc i (wGet acc ((i + 397) % 624) ^^^ (y / 2) ^^^
          (if y % 2 = 1 then 0x9908b0df else 0)))
        (i + 1)

/-- One MT19937 twist of the whole state (in place, ascending, as the
reference implementation does). -/
def mtTwist (s : Nat) : Nat :=
  mtTwistGo 624 s 0

/-- MT19937 output tempering. -/
def mtTemper (y : Nat) : Nat :=
  let y1 := y ^^^ (y >>> 11)
  let y2 := y1 ^^^ ((y1 <<< 7) &&& 0x9d2c5680)
  let y3 := y2 ^^^ ((y2 <<< 15) &&& 0xefc60000)
  y3 ^^^ (y3 >>> 18)

/-- `genrand_uint32` / `getrandbits(32)`: twist when the index is
exhausted, then temper the next word. -/
def genrand32 (st : RState) : Nat × RState :=
  let s := if 624 ≤ st.2 then mtTwist st.1 else st.1
  let idx := if 624 ≤ st.2 then 0 else st.2
  (mtTemper (wGet s idx), (s, idx + 1))

/-- The little-endian 32-bit words of a natural number (fuelled by the
word count; 64 words cover every seed used here). -/
def natWords : Nat → Nat → List Nat
  | 0, _ => []
  | f + 1, n => if n = 0 then [] else n % 2 ^ 32 :: natWords f (n / 2 ^ 32)

/-- The key array `random.seed` derives from an integer seed. -/
def seedKey (n : Nat) : List Nat :=
  if n = 0 then [0] else natWords 64 n

/-- `int.bit_length`, fuelled. -/
def bitLen : Nat → Nat → Nat
  | 0, _ => 0
  | f + 1, n => if n = 0 then 0 else bitLen f (n / 2) + 1

/-- The rejection loop of `Random._randbelow_with_getrandbits`:
draw `bit_length(n)` top bits until the value falls below `n`.  The
fuel bounds the almost-surely-terminating retry loop; it is never
exhausted on the traces evaluated here. -/
def randbelowLoop : Nat → Nat → RState → Nat × RState
  | 0, _, st => (0, st)
  | f + 1, n, st =>
      let k := bitLen 64 n
      let r := genrand32 st
      let v := r.1 >>> (32 - k)
      if v < n then (v, r.2) else randbelowLoop f n r.2

/-- `random.Random._randbelow(n)` (`n = 0` never occurs in the
shuffle). -/
def pyRandbelow (st : RState) (n : Nat) : Nat × RState :=
  if n = 0 then (0, st) else randbelowLoop 64 n st

/-- `random.Random(seed)`: the MT19937 state seeded from the integer
seed's key words (`seed=None`, drawn from system entropy in Python, is
modelled as seeding with 0; no claim depends on it). -/
def randomInit (seed : Option Nat) : RState :=
  (initByArray (seedKey (seed.getD 0)), 624)

/-! ## `src/eval/metrics.py` -/

/-- `count_matches_by_motif(matches)`: occurrences per `'motif'` key,
keys in first-occurrence order as a Python dict accumulates them. -/
def count_matches_by_motif (ms : List Match) : List (String × Int) :=
  ms.foldl
    (fun counts m =>
      match dget counts m.motif with
      | some c => counts.map (fun p => if p.1 = m.motif then (p.1, c + 1) else p)
      | none => counts ++ [(m.motif, 1)])
    []

/-- `statistics.mean(trial_counts)` as an exact rational. -/
def pymean (l : List Int) : Rat :=
  (l.sum : Rat) / (l.length : Rat)

/-- The population variance computed by `statistics.pstdev`
(denominator `n`, not `n - 1`). -/
def pvariance (l : List Int) : Rat :=
  ((l.map (fun x => ((x : Rat) - pymean l) ^ 2)).sum) / (l.length : Rat)

/-- `min(trial_counts)` of a nonempty list. -/
def listMin : List Int → Int
  | [] => 0
  | x :: xs => xs.foldl min x

/-- `max(trial_counts)` of a nonempty list. -/
def listMax : List Int → Int
  | [] => 0
  | x :: xs => xs.foldl max x

/-- `summarize_trial_counts(trial_counts) -> (mean, std, min, max)`:
`(0.0, 0.0, 0, 0)` for empty input, `statistics.pstdev` only when more
than one element, `0.0` otherwise.  The standard deviation is the exact
real square root of the population variance. -/
noncomputable def summarize_trial_counts (l : List Int) :
    Rat × Real × Int × Int :=
  if l = [] then (0, 0, 0, 0)
  else
    (pymean l,
     if 1 < l.length then Real.sqrt (pvariance l : Real) else 0,
     listMin l, listMax l)

/-- The value of `compute_lift`: a float, `math.inf`, or `None`. -/
inductive LiftVal : Type
  | undefinedLift
  | infiniteLift
  | finiteLift (q : Rat)
deriving DecidableEq, Repr

/-- `compute_lift(real_count, mean_random)`: `None` when both are zero,
`math.inf` when only the mean is zero, the exact ratio otherwise. -/
def compute_lift (real_count : Int) (mean_random : Rat) : LiftVal :=
  if mean_random = 0 then
    if real_count = 0 then LiftVal.undefinedLift else LiftVal.infiniteLift
  else LiftVal.finiteLift ((real_count : Rat) / mean_random)

/-- `ComparisonMetrics`: summary comparison for one motif. -/
structure ComparisonMetrics : Type where
  motif : String
  real_count : Int
  mean_random : Rat
  std_random : Real
  min_random : Int
  max_random : Int
  lift : LiftVal

/-- Insert into a sorted list of strings (ascending code-point order,
as Python's `sorted` on `str`). -/
def insertSorted (x : String) : List String → List String
  | [] => [x]
  | y :: ys => if x < y then x :: y :: ys else y :: insertSorted x ys

/-- `sorted(set(...))`: deduplicate, then sort ascending. -/
def sortedUnion (ks : List String) : List String :=
  (ks.eraseDups).foldl (fun acc k => insertSorted k acc) []

/-- `build_comparison(real_counts, random_counts)`: one entry per motif
in the sorted union of the two key sets. -/
noncomputable def build_comparison (real_counts : List (String × Int))
    (random_counts : List (String × List Int)) :
    List (String × ComparisonMetrics) :=
  (sortedUnion (real_counts.map (fun p => p.1) ++
      random_counts.map (fun p => p.1))).map
    (fun motif =>
      let real := dgetD real_counts motif 0
      let trials := dgetD random_counts motif []
      let s := summarize_trial_counts trials
      (motif,
       ComparisonMetrics.mk motif real s.1 s.2.1 s.2.2.1 s.2.2.2
         (compute_lift real s.1)))

/-! ## `src/eval/baseline.py` -/

/-- `BaselineResult`: container for baseline statistics. -/
structure BaselineResult : Type where
  real_counts : List (String × Int)
  random_counts : List (String × List Int)
  comparison : List (String × ComparisonMetrics)

/-- The `all_motifs` bookkeeping of one trial: any motif of this
trial's counts not yet tracked is added with an empty list (no
back-fill of earlier trials). -/
def addMissing (rc : List (String × List Int)) (tc : List (String × Int)) :
    List (String × List Int) :=
  rc ++ (tc.filter (fun p => (dget rc p.1).isNone)).map (fun p => (p.1, []))

/-- The per-trial recording step: append this trial's count to every
tracked motif, zero if the motif was not seen in this trial. -/
def appendCounts (rc : List (String × List Int)) (tc : List (String × Int)) :
    List (String × List Int) :=
  rc.map (fun p => (p.1, p.2 ++ [dgetD tc p.1 0]))

/-- The `for _ in range(trials)` loop of `run_baseline`: shuffle the
original collection with the shared source, scan, count, track newly
seen motifs, record the trial's counts. -/
def runTrials (sequences : List (String × String))
    (scan_func : List (String × String) → List Match) :
    Nat → List (String × List Int) → RState →
      List (String × List Int) × RState
  | 0, rc, st => (rc, st)
  | t + 1, rc, st =>
      let r := randomize_sequences pyRandbelow sequences st
      let trial_counts := count_matches_by_motif (scan_func r.1)
      runTrials sequences scan_func t
        (appendCounts (addMissing rc trial_counts) trial_counts) r.2

/-- `run_baseline` after `rng = random.Random(seed)`: the real scan,
the randomized trials, and the final comparison, starting from an
explicit source state. -/
noncomputable def run_baseline_with (sequences : List (String × String))
    (scan_func : List (String × String) → List Match)
    (trials : Nat) (st : RState) : BaselineResult :=
  let real_counts := count_matches_by_motif (scan_func sequences)
  let random_counts0 := real_counts.map (fun p => (p.1, ([] : List Int)))
  let r := runTrials sequences scan_func trials random_counts0 st
  BaselineResult.mk real_counts r.1 (build_comparison real_counts r.1)

/-- `run_baseline(sequences, scan_func, trials, seed)`. -/
noncomputable def run_baseline (sequences : List (String × String))
    (scan_func : List (String × String) → List Match)
    (trials : Nat) (seed : Option Nat) : BaselineResult :=
  run_baseline_with sequences scan_func trials (randomInit seed)

/-! ## Concrete scanning callbacks used as inputs below -/

/-- A scanning callback reporting motif `"M"` exactly when the
collection maps `"s1"` to `"BA"` (a literal scan of `"s1"` for the
two-character motif `"BA"`). -/
def cexScanBA (ss : List (String × String)) : List Match :=
  if dget ss "s1" = some "BA" then [Match.mk "s1" "M" 1 2 "BA"] else []

/-- A scanning callback reporting one hit of motif `"A"` on every
collection. -/
def constScanA (_ : List (String × String)) : List Match :=
  [Match.mk "s1" "A" 1 1 "A"]

/-! ## The per-trial view of `run_baseline`'s loop

Trial `k` (0-based here, trial `k+1` in the spec's 1-based counting)
shuffles the original collection from the shared source's state after
`k` trials, scans it, and counts per motif.  These definitions name
that trajectory so the Trial Count Table's content can be related to
the individual trials. -/

/-- The source state after one trial's shuffling. -/
def trialStep (sequences : List (String × String)) (st : RState) : RState :=
  (randomize_sequences pyRandbelow sequences st).2

/-- The source state after `k` trials. -/
def stateAt (sequences : List (String × String)) : Nat → RState → RState
  | 0, st => st
  | k + 1, st => stateAt sequences k (trialStep sequences st)

/-- The per-motif counts of one trial: shuffle, scan, count. -/
def trialCounts (sequences : List (String × String))
    (scan_func : List (String × String) → List Match) (st : RState) :
    List (String × Int) :=
  count_matches_by_motif (scan_func (randomize_sequences pyRandbelow sequences st).1)

/-- The per-trial counts of one motif over `t` consecutive trials
starting from state `st`: the count in each trial, `0` when the motif
is absent from that trial (`dict.get(motif, 0)`). -/
def trialTrace (sequences : List (String × String))
    (scan_func : List (String × String) → List Match) :
    Nat → RState → String → List Int
  | 0, _, _ => []
  | t + 1, st, m =>
      dgetD (trialCounts sequences scan_func st) m 0 ::
        trialTrace sequences scan_func t (trialStep sequences st) m

/-! # Theorems -/

/-- C1: the scanner's own docstring ("Uses overlapping matches (all
matches are reported)") and the spec require every matching start
position; scanning `"AAAA"` for the compiled motif `"AA"` should yield
3 matches at 1-based starts 1, 2, 3.  The code instead uses
`pattern.finditer`, whose matches are non-overlapping: it returns
exactly 2 matches, at 1-based starts 1 and 3, although all three
0-based positions 0, 1, 2 match the pattern. -/
theorem scanner_overlap_bug :
    compileMotif "AA" "dna" = some [CClass.lit 'A', CClass.lit 'A'] ∧
    matchStarts [CClass.lit 'A', CClass.lit 'A'] "AAAA".data = [0, 1, 2] ∧
    scan_sequence "s1" "AAAA" [("AA", [CClass.lit 'A', CClass.lit 'A'])] =
      [Match.mk "s1" "AA" 1 2 "AA", Match.mk "s1" "AA" 3 4 "AA"] ∧
    (scan_sequence "s1" "AAAA"
      [("AA", [CClass.lit 'A', CClass.lit 'A'])]).length = 2 := by
  refine ⟨?_, ?_, ?_, ?_⟩ <;> decide

/-- C5: `compute_lift` is total on its domain and returns the
undefined marker when both arguments are zero, `+∞` when only the mean
is zero, and the exact ratio otherwise; in particular
`compute_lift(0, 0.0)` is undefined, `compute_lift(5, 0.0)` is `+∞`,
and `compute_lift(10, 5.0)` is exactly `2.0`. -/
theorem compute_lift_spec (real_count : Int) (mean_random : Rat)
    (h1 : 0 ≤ real_count) (h2 : 0 ≤ mean_random) :
    (real_count = 0 ∧ mean_random = 0 →
      compute_lift real_count mean_random = LiftVal.undefinedLift) ∧
    (0 < real_count ∧ mean_random = 0 →
      compute_lift real_count mean_random = LiftVal.infiniteLift) ∧
    (mean_random ≠ 0 →
      compute_lift real_count mean_random =
        LiftVal.finiteLift ((real_count : Rat) / mean_random)) ∧
    compute_lift 0 0 = LiftVal.undefinedLift ∧
    compute_lift 5 0 = LiftVal.infiniteLift ∧
    compute_lift 10 5 = LiftVal.finiteLift 2 := by
  refine ⟨?_, ?_, ?_, by norm_num [compute_lift], by norm_num [compute_lift],
    by norm_num [compute_lift]⟩
  · rintro ⟨hr, hm⟩
    simp [compute_lift, hr, hm]
  · rintro ⟨hr, hm⟩
    have hr0 : real_count ≠ 0 := by omega
    simp [compute_lift, hm, hr0]
  · intro hm
    simp [compute_lift, hm]

/-- Witness for C5 at `real_count = 10`, `mean_random = 5`. -/
theorem compute_lift_spec_witness :
    (0 ≤ (10 : Int) ∧ 0 ≤ (5 : Rat)) ∧
    ((5 : Rat) ≠ 0 →
      compute_lift 10 5 = LiftVal.finiteLift ((10 : Rat) / 5)) :=
  ⟨⟨by norm_num, by norm_num⟩,
    (compute_lift_spec 10 5 (by norm_num) (by norm_num)).2.2.1⟩

/-- C8: two runs driven by two independently-constructed sources
initialized with the same seed produce bit-identical outputs, both for
`randomize_sequences` and for the whole baseline run; and
`run_baseline(seed)` is exactly the run from the state
`random.Random(seed)` constructs. -/
theorem randomizer_two_run_determinism (seed : Nat)
    (seqs : List (String × String))
    (scan_func : List (String × String) → List Match) (trials : Nat)
    (s1 s2 : RState) (h1 : s1 = randomInit (some seed))
    (h2 : s2 = randomInit (some seed)) :
    randomize_sequences pyRandbelow seqs s1 =
      randomize_sequences pyRandbelow seqs s2 ∧
    run_baseline_with seqs scan_func trials s1 =
      run_baseline_with seqs scan_func trials s2 ∧
    run_baseline seqs scan_func trials (some seed) =
      run_baseline_with seqs scan_func trials s1 := by
  subst h1; subst h2; exact ⟨rfl, rfl, rfl⟩

/-- Witness for C8 at seed 7 on the collection `{"s1": "AB"}`. -/
theorem randomizer_two_run_determinism_witness :
    randomize_sequences pyRandbelow [("s1", "AB")] (randomInit (some 7)) =
      randomize_sequences pyRandbelow [("s1", "AB")] (randomInit (some 7)) ∧
    run_baseline_with [("s1", "AB")] constScanA 2 (randomInit (some 7)) =
      run_baseline_with [("s1", "AB")] constScanA 2 (randomInit (some 7)) ∧
    run_baseline [("s1", "AB")] constScanA 2 (some 7) =
      run_baseline_with [("s1", "AB")] constScanA 2 (randomInit (some 7)) :=
  randomizer_two_run_determinism 7 [("s1", "AB")] constScanA 2 _ _ rfl rfl

-- Auxiliary facts about string construction used by the compiler
-- identity theorem.
theorem singleton_append_mk (c : Char) (l : List Char) :
    String.singleton c ++ String.mk l = String.mk (c :: l) := rfl

theorem singleton_length (c : Char) : (String.singleton c).length = 1 := rfl

-- The per-character expansion is the identity on metacharacters,
-- unknown symbols, and symbols whose table entry is the symbol itself.
theorem expandChar_id (table : List (Char × String)) (c : Char)
    (hc : c ∈ META_CHARS ∨ tableGet table c.toUpper = none ∨
      tableGet table c.toUpper = some (String.singleton c)) :
    expandChar table c = String.singleton c := by
  by_cases hmem : c ∈ META_CHARS
  · simp [expandChar, hmem]
  · rcases hc with hm | hn | hs
    · exact absurd hm hmem
    · simp [expandChar, hmem, hn]
    · simp [expandChar, hmem, hs, singleton_length]

theorem expandAll_id (table : List (Char × String)) :
    ∀ l : List Char,
      (∀ c ∈ l, c ∈ META_CHARS ∨ tableGet table c.toUpper = none ∨
        tableGet table c.toUpper = some (String.singleton c)) →
      expandAll table l = String.mk l
  | [], _ => rfl
  | c :: cs, h => by
      have hc := h c (by simp)
      have hrest := expandAll_id table cs (fun d hd => h d (by simp [hd]))
      rw [expandAll, expandChar_id table c hc, hrest, singleton_append_mk]

/-- C10 counterexample: `"a"` is a pattern containing only an
unambiguous symbol (looked up case-insensitively), yet the compiler
does not return it unchanged: it emits the table's uppercase literal
`"A"`. -/
theorem iupac_lowercase_not_identity :
    iupac_to_regex "a" "dna" = some "A" ∧ ("A" : String) ≠ "a" := by
  exact ⟨by decide, by decide⟩

/-- C10 (amended): the compiler is the identity on every pattern whose
characters are reserved metacharacters, symbols unknown to the
alphabet's table, or symbols whose (case-insensitive) table entry is
the character itself — i.e. uppercase unambiguous symbols.  (A
lowercase unambiguous symbol is replaced by its uppercase table entry,
as the counterexample shows.) -/
theorem iupac_identity_on_literals (p : String) (kind : String)
    (table : List (Char × String)) (ht : lookup_table kind = some table)
    (hc : ∀ c ∈ p.data, c ∈ META_CHARS ∨ tableGet table c.toUpper = none ∨
      tableGet table c.toUpper = some (String.singleton c)) :
    iupac_to_regex p kind = some p := by
  simp only [iupac_to_regex, ht]
  exact congrArg some (expandAll_id table p.data hc)

/-- Witness for C10's amended theorem on the EcoRI site `"GAATTC"`
under the DNA alphabet. -/
theorem iupac_identity_on_literals_witness :
    lookup_table "dna" = some DNA_IUPAC ∧
    (∀ c ∈ ("GAATTC" : String).data, c ∈ META_CHARS ∨
      tableGet DNA_IUPAC c.toUpper = none ∨
      tableGet DNA_IUPAC c.toUpper = some (String.singleton c)) ∧
    iupac_to_regex "GAATTC" "dna" = some "GAATTC" :=
  ⟨by decide, by decide,
    iupac_identity_on_literals "GAATTC" "dna" DNA_IUPAC (by decide) (by decide)⟩

-- Selected non-overlapping match starts are a subset of all match
-- starts.
theorem nonOverlap_mem (w : Nat) :
    ∀ (l : List Nat) (pos x : Nat), x ∈ nonOverlap w l pos → x ∈ l := by
  intro l
  induction l with
  | nil => intro pos x h; exact absurd h (by simp [nonOverlap])
  | cons i rest ih =>
      intro pos x h
      rw [nonOverlap] at h
      by_cases hpos : pos ≤ i
      · simp only [if_pos hpos, List.mem_cons] at h
        rcases h with h | h
        · exact h ▸ List.mem_cons_self i rest
        · exact List.mem_cons_of_mem _ (ih _ _ h)
      · simp only [if_neg hpos] at h
        exact List.mem_cons_of_mem _ (ih _ _ h)

-- Every element of the scanner's output arises from one motif of the
-- map and one 0-based start selected by `finditer`.
theorem scan_sequence_mem_shape (seq_id sequence : String)
    (motif_map : List (String × List CClass)) (m : Match)
    (hmem : m ∈ scan_sequence seq_id sequence motif_map) :
    ∃ np ∈ motif_map, ∃ i, i ∈ finditer np.2 sequence.data ∧
      m = Match.mk seq_id np.1 (i + 1) (i + np.2.length)
        (String.mk ((sequence.data.drop i).take np.2.length)) := by
  simp only [scan_sequence, List.mem_flatten, List.mem_map] at hmem
  obtain ⟨l, ⟨np, hnp, hl⟩, hml⟩ := hmem
  subst hl
  simp only [List.mem_map] at hml
  obtain ⟨i, hi, hm⟩ := hml
  exact ⟨np, hnp, i, hi, hm.symm⟩

/-- C4 (amended): every match record the scanner produces is a dict
whose keys are exactly `seq_id, motif, start, end, match` — there is
no `strand` key and no `matched_text` key (the matched text lives
under the key `match`) — with `start ≥ 1` and the `seq_id` field
echoing the scanned sequence's id, unconditionally; and whenever the
compiled patterns are non-empty, also `end ≥ start` with the `match`
value equal to the substring of the scanned sequence from `start` to
`end`, 1-based and inclusive on both ends (an empty compiled pattern
instead yields zero-width records with `end = start - 1`, as the
counterexample also exhibits). -/
theorem scan_sequence_match_fields (seq_id sequence : String)
    (motif_map : List (String × List CClass)) (m : Match)
    (hmem : m ∈ scan_sequence seq_id sequence motif_map) :
    m.toDict.map Prod.fst = ["seq_id", "motif", "start", "end", "match"] ∧
    dget m.toDict "strand" = none ∧
    dget m.toDict "matched_text" = none ∧
    m.seq_id = seq_id ∧
    1 ≤ m.start ∧
    ((∀ p ∈ motif_map, p.2 ≠ []) →
      m.start ≤ m.«end» ∧
      m.«match» =
        String.mk ((sequence.data.drop (m.start - 1)).take
          (m.«end» - m.start + 1))) := by
  obtain ⟨np, hnp, i, _, hm⟩ :=
    scan_sequence_mem_shape seq_id sequence motif_map m hmem
  subst hm
  refine ⟨rfl, rfl, rfl, rfl, Nat.le_add_left 1 i, ?_⟩
  intro hne
  have hw : 1 ≤ np.2.length := by
    have := hne np hnp
    cases h2 : np.2 with
    | nil => exact absurd h2 this
    | cons a l => simp [h2]
  refine ⟨Nat.add_le_add_left hw i, ?_⟩
  have h1 : i + 1 - 1 = i := by omega
  have h2 : i + np.2.length - (i + 1) + 1 = np.2.length := by omega
  rw [h1, h2]

/-- C4 counterexample: the scanner's match record carries no `strand`
field and no `matched_text` field (the claim requires both): scanning
`"AC"` for a compiled motif `"A"` produces exactly one record, whose
dict lacks both keys.  Moreover `end ≥ start` itself fails on an
empty compiled pattern (the compile of an empty motif string): its
zero-width records have `end = start - 1`, matching
`re.compile("").finditer("AC")`'s spans (0,0), (1,1), (2,2). -/
theorem scan_sequence_no_strand_field :
    scan_sequence "s1" "AC" [("M", [CClass.lit 'A'])] =
      [Match.mk "s1" "M" 1 1 "A"] ∧
    dget (Match.mk "s1" "M" 1 1 "A").toDict "strand" = none ∧
    dget (Match.mk "s1" "M" 1 1 "A").toDict "matched_text" = none ∧
    compileMotif "" "dna" = some [] ∧
    scan_sequence "s1" "AC" [("E", [])] =
      [Match.mk "s1" "E" 1 0 "", Match.mk "s1" "E" 2 1 "",
        Match.mk "s1" "E" 3 2 ""] ∧
    ¬ ((Match.mk "s1" "E" 1 0 "").start ≤ (Match.mk "s1" "E" 1 0 "").«end») :=
  ⟨by decide, rfl, rfl, by decide, by decide, by decide⟩

/-- Witness for C4's amended theorem on the scan of `"AC"` for the
compiled motif `"A"`. -/
theorem scan_sequence_match_fields_witness :
    (Match.mk "s1" "M" 1 1 "A" ∈
      scan_sequence "s1" "AC" [("M", [CClass.lit 'A'])]) ∧
    ((Match.mk "s1" "M" 1 1 "A").toDict.map Prod.fst =
        ["seq_id", "motif", "start", "end", "match"] ∧
      dget (Match.mk "s1" "M" 1 1 "A").toDict "strand" = none ∧
      dget (Match.mk "s1" "M" 1 1 "A").toDict "matched_text" = none ∧
      (Match.mk "s1" "M" 1 1 "A").seq_id = "s1" ∧
      1 ≤ (Match.mk "s1" "M" 1 1 "A").start) ∧
    (∀ p ∈ [("M", [CClass.lit 'A'])], p.2 ≠ ([] : List CClass)) ∧
    ((Match.mk "s1" "M" 1 1 "A").start ≤ (Match.mk "s1" "M" 1 1 "A").«end» ∧
      (Match.mk "s1" "M" 1 1 "A").«match» =
        String.mk ((("AC" : String).data.drop
            ((Match.mk "s1" "M" 1 1 "A").start - 1)).take
          ((Match.mk "s1" "M" 1 1 "A").«end» -
            (Match.mk "s1" "M" 1 1 "A").start + 1))) := by
  have h := scan_sequence_match_fields "s1" "AC" [("M", [CClass.lit 'A'])]
    (Match.mk "s1" "M" 1 1 "A") (by decide)
  exact ⟨by decide, ⟨h.1, h.2.1, h.2.2.1, h.2.2.2.1, h.2.2.2.2.1⟩,
    by decide, h.2.2.2.2.2 (by decide)⟩

-- Every match `scanStrand` emits carries the strand it was given.
theorem scanStrand_strand (seq_id sequence : String)
    (motif_map : List (String × List CClass)) (allow_overlap : Bool)
    (strand : String) :
    ∀ m ∈ scanStrand seq_id sequence motif_map allow_overlap strand,
      m.strand = strand := by
  intro m hm
  simp only [scanStrand, List.mem_flatten, List.mem_map] at hm
  obtain ⟨l, ⟨np, _, hl⟩, hml⟩ := hm
  subst hl
  simp only [List.mem_map] at hml
  obtain ⟨i, _, hm⟩ := hml
  rw [← hm]

/-- C3: the spec-modelled five-parameter scanner (whose implementation
is absent from `src/`; only its caller in `src/main.py` line 15 is
present) computes the reverse complement of the full input (A↔T, C↔G,
other symbols unchanged, then reversed), scans it with the same motif
set and overlap policy, and emits those matches tagged with strand
`"-"`, all of them after every forward-strand (`"+"`) match. -/
theorem scan_full_reverse_complement (seq_id sequence : String)
    (motif_map : List (String × List CClass)) (allow_overlap : Bool) :
    complement 'A' = 'T' ∧ complement 'T' = 'A' ∧
    complement 'C' = 'G' ∧ complement 'G' = 'C' ∧
    (∀ c : Char, c ≠ 'A' → c ≠ 'T' → c ≠ 'C' → c ≠ 'G' →
      complement c = c) ∧
    reverse_complement sequence =
      String.mk ((sequence.data.map complement).reverse) ∧
    (scan_sequence_full seq_id sequence motif_map allow_overlap true).filter
        (fun m => m.strand = "-") =
      scanStrand seq_id (reverse_complement sequence) motif_map
        allow_overlap "-" ∧
    (scan_sequence_full seq_id sequence motif_map allow_overlap true).filter
        (fun m => m.strand = "+") =
      scanStrand seq_id sequence motif_map allow_overlap "+" ∧
    scan_sequence_full seq_id sequence motif_map allow_overlap true =
      scanStrand seq_id sequence motif_map allow_overlap "+" ++
        scanStrand seq_id (reverse_complement sequence) motif_map
          allow_overlap "-" ∧
    scan_sequence_full seq_id sequence motif_map allow_overlap false =
      scanStrand seq_id sequence motif_map allow_overlap "+" := by
  have hplus := scanStrand_strand seq_id sequence motif_map allow_overlap "+"
  have hminus := scanStrand_strand seq_id (reverse_complement sequence)
    motif_map allow_overlap "-"
  refine ⟨rfl, rfl, rfl, rfl, ?_, rfl, ?_, ?_, by simp [scan_sequence_full],
    by simp [scan_sequence_full]⟩
  · intro c hA hT hC hG
    simp [complement, hA, hT, hC, hG]
  · rw [scan_sequence_full, if_pos rfl, List.filter_append]
    have e1 : (scanStrand seq_id sequence motif_map allow_overlap "+").filter
        (fun m => m.strand = "-") = [] := by
      rw [List.filter_eq_nil]
      intro a ha
      simp [hplus a ha]
    have e2 : (scanStrand seq_id (reverse_complement sequence) motif_map
        allow_overlap "-").filter (fun m => m.strand = "-") =
        scanStrand seq_id (reverse_complement sequence) motif_map
          allow_overlap "-" := by
      rw [List.filter_eq_self]
      intro a ha
      simp [hminus a ha]
    rw [e1, e2, List.nil_append]
  · rw [scan_sequence_full, if_pos rfl, List.filter_append]
    have e1 : (scanStrand seq_id sequence motif_map allow_overlap "+").filter
        (fun m => m.strand = "+") =
        scanStrand seq_id sequence motif_map allow_overlap "+" := by
      rw [List.filter_eq_self]
      intro a ha
      simp [hplus a ha]
    have e2 : (scanStrand seq_id (reverse_complement sequence) motif_map
        allow_overlap "-").filter (fun m => m.strand = "+") = [] := by
      rw [List.filter_eq_nil]
      intro a ha
      simp [hminus a ha]
    rw [e1, e2, List.append_nil]

/-- Witness for C3 on the sequence `"AACG"` and the compiled motif
`"CG"`, with overlap allowed. -/
theorem scan_full_reverse_complement_witness :
    (('X' : Char) ≠ 'A' ∧ ('X' : Char) ≠ 'T' ∧ ('X' : Char) ≠ 'C' ∧
      ('X' : Char) ≠ 'G') ∧
    complement 'X' = 'X' ∧
    (scan_sequence_full "s1" "AACG"
        [("CG", [CClass.lit 'C', CClass.lit 'G'])] true true).filter
        (fun m => m.strand = "-") =
      scanStrand "s1" (reverse_complement "AACG")
        [("CG", [CClass.lit 'C', CClass.lit 'G'])] true "-" := by
  have h := scan_full_reverse_complement "s1" "AACG"
    [("CG", [CClass.lit 'C', CClass.lit 'G'])] true
  exact ⟨by decide,
    h.2.2.2.2.1 'X' (by decide) (by decide) (by decide) (by decide),
    h.2.2.2.2.2.2.1⟩

-- Replacing the element stored at index `k` and moving it to the
-- front is a permutation of putting the new element at the front.
theorem cons_set_perm {α : Type} :
    ∀ (t : List α) (k : Nat) (b x : α), t.get? k = some b →
      (b :: t.set k x).Perm (x :: t)
  | [], k, b, x, h => by simp at h
  | c :: t, 0, b, x, h => by
      have hb : c = b := by simpa using h
      subst hb
      exact List.Perm.swap x c t
  | c :: t, k + 1, b, x, h => by
      have h' : t.get? k = some b := by simpa using h
      exact (List.Perm.swap c b (t.set k x)).trans
        ((List.Perm.cons c (cons_set_perm t k b x h')).trans
          (List.Perm.swap x c t))

-- Exchanging the elements stored at two valid indices is a
-- permutation.
theorem set_set_perm {α : Type} :
    ∀ (xs : List α) (i j : Nat) (a b : α), xs.get? i = some a →
      xs.get? j = some b → ((xs.set i b).set j a).Perm xs
  | [], _, _, _, _, h1, _ => by simp at h1
  | x :: t, 0, 0, a, b, h1, h2 => by
      have ha : x = a := by simpa using h1
      subst ha
      exact List.Perm.refl _
  | x :: t, 0, j + 1, a, b, h1, h2 => by
      have ha : x = a := by simpa using h1
      have h2' : t.get? j = some b := by simpa using h2
      subst ha
      exact cons_set_perm t j b x h2'
  | x :: t, i + 1, 0, a, b, h1, h2 => by
      have hb : x = b := by simpa using h2
      have h1' : t.get? i = some a := by simpa using h1
      subst hb
      exact cons_set_perm t i a x h1'
  | x :: t, i + 1, j + 1, a, b, h1, h2 => by
      have h1' : t.get? i = some a := by simpa using h1
      have h2' : t.get? j = some b := by simpa using h2
      exact List.Perm.cons x (set_set_perm t i j a b h1' h2')

theorem listSwap_perm {α : Type} (xs : List α) (i j : Nat) :
    (listSwap xs i j).Perm xs := by
  unfold listSwap
  cases h1 : xs.get? i with
  | none => exact List.Perm.refl _
  | some a =>
      cases h2 : xs.get? j with
      | none => exact List.Perm.refl _
      | some b => exact set_set_perm xs i j a b h1 h2

theorem fisherYates_perm {σ : Type} (rb : σ → Nat → Nat × σ) :
    ∀ (i : Nat) (xs : List Char) (st : σ),
      ((fisherYates rb xs i st).1).Perm xs
  | 0, xs, st => List.Perm.refl xs
  | i + 1, xs, st =>
      (fisherYates_perm rb i (listSwap xs (i + 1) (rb st (i + 2)).1)
        (rb st (i + 2)).2).trans (listSwap_perm xs (i + 1) (rb st (i + 2)).1)

theorem randomize_sequence_perm {σ : Type} (rb : σ → Nat → Nat × σ)
    (seq : String) (st : σ) :
    (randomize_sequence rb seq st).1.data.Perm seq.data :=
  fisherYates_perm rb (seq.data.length - 1) seq.data st

theorem randomize_sequences_spec {σ : Type} (rb : σ → Nat → Nat × σ) :
    ∀ (seqs : List (String × String)) (st : σ),
      ((randomize_sequences rb seqs st).1.map Prod.fst =
        seqs.map Prod.fst) ∧
      List.Forall₂ (fun p q => p.1 = q.1 ∧ q.2.data.Perm p.2.data) seqs
        (randomize_sequences rb seqs st).1
  | [], _ => ⟨rfl, List.Forall₂.nil⟩
  | (k, v) :: rest, st => by
      have ih := randomize_sequences_spec rb rest
        (randomize_sequence rb v st).2
      constructor
      · show k :: (randomize_sequences rb rest _).1.map Prod.fst =
          k :: rest.map Prod.fst
        rw [ih.1]
      · exact List.Forall₂.cons ⟨rfl, randomize_sequence_perm rb v st⟩ ih.2

/-- C7: `randomize_sequence` returns a permutation of its input's
characters (same multiset, same length) for every pseudo-random
source and state, and `randomize_sequences` preserves the key list of
its input exactly, mapping each value to a permutation of itself. -/
theorem randomizer_permutation_invariant {σ : Type}
    (rb : σ → Nat → Nat × σ) (seq : String) (st : σ)
    (seqs : List (String × String)) :
    (randomize_sequence rb seq st).1.data.Perm seq.data ∧
    ((randomize_sequence rb seq st).1.data : Multiset Char) =
      (seq.data : Multiset Char) ∧
    (randomize_sequence rb seq st).1.length = seq.length ∧
    (randomize_sequences rb seqs st).1.map Prod.fst = seqs.map Prod.fst ∧
    List.Forall₂ (fun p q => p.1 = q.1 ∧ q.2.data.Perm p.2.data) seqs
      (randomize_sequences rb seqs st).1 := by
  have hp := randomize_sequence_perm rb seq st
  have hs := randomize_sequences_spec rb seqs st
  exact ⟨hp, Quot.sound hp, hp.length_eq, hs.1, hs.2⟩

-- The compiled pattern for "ATNG" matches exactly the four strings
-- obtained by substituting each DNA base for N.
theorem fullMatch_ATNG_characterization (l : List Char) :
    fullMatch [CClass.lit 'A', CClass.lit 'T',
      CClass.cls ['A', 'C', 'G', 'T'], CClass.lit 'G'] l = true ↔
    (l = ['A', 'T', 'A', 'G'] ∨ l = ['A', 'T', 'C', 'G'] ∨
      l = ['A', 'T', 'G', 'G'] ∨ l = ['A', 'T', 'T', 'G']) := by
  constructor
  · intro h
    rcases l with _ | ⟨a, l⟩
    · simp [fullMatch] at h
    rcases l with _ | ⟨b, l⟩
    · simp [fullMatch, cmatch] at h
    rcases l with _ | ⟨c, l⟩
    · simp [fullMatch, cmatch] at h
    rcases l with _ | ⟨d, l⟩
    · simp [fullMatch, cmatch] at h
    rcases l with _ | ⟨e, l⟩
    · simp only [fullMatch, cmatch, Bool.and_eq_true,
        decide_eq_true_eq] at h
      obtain ⟨ha, hb, hc, hd, -⟩ := h
      subst ha; subst hb; subst hd
      have hc' : c = 'A' ∨ c = 'C' ∨ c = 'G' ∨ c = 'T' := by
        simpa using hc
      rcases hc' with rfl | rfl | rfl | rfl <;> simp
    · simp [fullMatch, cmatch] at h
  · rintro (rfl | rfl | rfl | rfl) <;> decide

/-- C9: for every ambiguity symbol whose table entry has more than one
concrete symbol, the compiler emits a character class containing
exactly that entry, in the table's canonical order; concretely,
compiling `"ATNG"` under DNA yields `"AT[ACGT]G"`, which compiles to a
pattern matching exactly `"ATAG"`, `"ATCG"`, `"ATGG"`, `"ATTG"` and
rejecting `"ATXG"`. -/
theorem iupac_ambiguous_expansion :
    iupac_to_regex "ATNG" "dna" = some "AT[ACGT]G" ∧
    parseRegex "AT[ACGT]G" = some [CClass.lit 'A', CClass.lit 'T',
      CClass.cls ['A', 'C', 'G', 'T'], CClass.lit 'G'] ∧
    (∀ l : List Char,
      fullMatch [CClass.lit 'A', CClass.lit 'T',
        CClass.cls ['A', 'C', 'G', 'T'], CClass.lit 'G'] l = true ↔
      (l = ['A', 'T', 'A', 'G'] ∨ l = ['A', 'T', 'C', 'G'] ∨
        l = ['A', 'T', 'G', 'G'] ∨ l = ['A', 'T', 'T', 'G'])) ∧
    ("ATAG" : String).data = ['A', 'T', 'A', 'G'] ∧
    ("ATCG" : String).data = ['A', 'T', 'C', 'G'] ∧
    ("ATGG" : String).data = ['A', 'T', 'G', 'G'] ∧
    ("ATTG" : String).data = ['A', 'T', 'T', 'G'] ∧
    fullMatch [CClass.lit 'A', CClass.lit 'T',
      CClass.cls ['A', 'C', 'G', 'T'], CClass.lit 'G']
      ("ATXG" : String).data = false ∧
    (∀ (kind : String) (table : List (Char × String)) (c : Char)
        (e : String), lookup_table kind = some table →
      tableGet table c.toUpper = some e → 1 < e.length →
      c ∉ META_CHARS →
      iupac_to_regex (String.singleton c) kind =
        some ("[" ++ e ++ "]")) := by
  refine ⟨by decide, by decide, fullMatch_ATNG_characterization,
    by decide, by decide, by decide, by decide, by decide, ?_⟩
  intro kind table c e ht he hlen hmeta
  simp only [iupac_to_regex, ht]
  show some (expandAll table [c]) = _
  have h1 : e.length ≠ 1 := by omega
  rw [expandAll, expandAll, expandChar]
  rw [if_neg hmeta, he]
  simp [h1]

/-- Witness for C9's character-class clause at the DNA symbol `N`. -/
theorem iupac_ambiguous_expansion_witness :
    lookup_table "dna" = some DNA_IUPAC ∧
    tableGet DNA_IUPAC ('N' : Char).toUpper = some "ACGT" ∧
    1 < ("ACGT" : String).length ∧
    ('N' : Char) ∉ META_CHARS ∧
    iupac_to_regex (String.singleton 'N') "dna" =
      some ("[" ++ "ACGT" ++ "]") :=
  ⟨by decide, by decide, by decide, by decide,
    iupac_ambiguous_expansion.2.2.2.2.2.2.2.2 "dna" DNA_IUPAC 'N' "ACGT"
      (by decide) (by decide) (by decide) (by decide)⟩

-- Folded minimum: membership and lower-bound facts.
theorem foldl_min_mem : ∀ (xs : List Int) (x : Int),
    xs.foldl min x ∈ x :: xs := by
  intro xs
  induction xs with
  | nil => intro x; simp
  | cons y ys ih =>
      intro x
      show (ys.foldl min (min x y)) ∈ x :: y :: ys
      rcases List.mem_cons.mp (ih (min x y)) with h | h
      · rcases min_choice x y with hm | hm
        · rw [h, hm]; exact List.mem_cons_self _ _
        · rw [h, hm]
          exact List.mem_cons_of_mem _ (List.mem_cons_self _ _)
      · exact List.mem_cons_of_mem _ (List.mem_cons_of_mem _ h)

theorem foldl_min_le : ∀ (xs : List Int) (x : Int),
    xs.foldl min x ≤ x ∧ ∀ y ∈ xs, xs.foldl min x ≤ y := by
  intro xs
  induction xs with
  | nil => intro x; exact ⟨le_refl x, by simp⟩
  | cons z zs ih =>
      intro x
      have h := ih (min x z)
      refine ⟨h.1.trans (min_le_left x z), ?_⟩
      intro y hy
      rcases List.mem_cons.mp hy with rfl | hy
      · exact h.1.trans (min_le_right x y)
      · exact h.2 y hy

theorem foldl_max_mem : ∀ (xs : List Int) (x : Int),
    xs.foldl max x ∈ x :: xs := by
  intro xs
  induction xs with
  | nil => intro x; simp
  | cons y ys ih =>
      intro x
      show (ys.foldl max (max x y)) ∈ x :: y :: ys
      rcases List.mem_cons.mp (ih (max x y)) with h | h
      · rcases max_choice x y with hm | hm
        · rw [h, hm]; exact List.mem_cons_self _ _
        · rw [h, hm]
          exact List.mem_cons_of_mem _ (List.mem_cons_self _ _)
      · exact List.mem_cons_of_mem _ (List.mem_cons_of_mem _ h)

theorem foldl_max_le : ∀ (xs : List Int) (x : Int),
    x ≤ xs.foldl max x ∧ ∀ y ∈ xs, y ≤ xs.foldl max x := by
  intro xs
  induction xs with
  | nil => intro x; exact ⟨le_refl x, by simp⟩
  | cons z zs ih =>
      intro x
      have h := ih (max x z)
      refine ⟨(le_max_left x z).trans h.1, ?_⟩
      intro y hy
      rcases List.mem_cons.mp hy with rfl | hy
      · exact (le_max_right x y).trans h.1
      · exact h.2 y hy

theorem listMin_spec (l : List Int) (hne : l ≠ []) :
    listMin l ∈ l ∧ ∀ y ∈ l, listMin l ≤ y := by
  cases l with
  | nil => exact absurd rfl hne
  | cons x xs =>
      refine ⟨foldl_min_mem xs x, ?_⟩
      intro y hy
      rcases List.mem_cons.mp hy with rfl | hy
      · exact (foldl_min_le xs y).1
      · exact (foldl_min_le xs x).2 y hy

theorem listMax_spec (l : List Int) (hne : l ≠ []) :
    listMax l ∈ l ∧ ∀ y ∈ l, y ≤ listMax l := by
  cases l with
  | nil => exact absurd rfl hne
  | cons x xs =>
      refine ⟨foldl_max_mem xs x, ?_⟩
      intro y hy
      rcases List.mem_cons.mp hy with rfl | hy
      · exact (foldl_max_le xs y).1
      · exact (foldl_max_le xs x).2 y hy

theorem pvariance_nonneg (l : List Int) : 0 ≤ pvariance l := by
  rw [pvariance]
  apply div_nonneg
  · apply List.sum_nonneg
    intro a ha
    obtain ⟨v, _, rfl⟩ := List.mem_map.mp ha
    positivity
  · positivity

/-- C6: `summarize_trial_counts` returns `(0.0, 0.0, 0, 0)` on empty
input, a standard deviation of exactly `0.0` on one-element input, and
on input of length at least two the arithmetic mean, the population
standard deviation (non-negative, whose square is the sum of squared
deviations from the mean divided by `n`, not `n - 1`), the minimum and
the maximum of the counts. -/
theorem summarize_trial_counts_spec (l : List Int) (x : Int)
    (hlen : 2 ≤ l.length) :
    summarize_trial_counts [] = (0, 0, 0, 0) ∧
    summarize_trial_counts [x] = ((x : Rat), 0, x, x) ∧
    (summarize_trial_counts l).1 * (l.length : Rat) = (l.sum : Rat) ∧
    0 ≤ (summarize_trial_counts l).2.1 ∧
    ((summarize_trial_counts l).2.1) ^ 2 = ((pvariance l : Rat) : Real) ∧
    pvariance l * (l.length : Rat) =
      (l.map (fun v =>
        ((v : Rat) - (l.sum : Rat) / (l.length : Rat)) ^ 2)).sum ∧
    (summarize_trial_counts l).2.2.1 ∈ l ∧
    (∀ y ∈ l, (summarize_trial_counts l).2.2.1 ≤ y) ∧
    (summarize_trial_counts l).2.2.2 ∈ l ∧
    (∀ y ∈ l, y ≤ (summarize_trial_counts l).2.2.2) := by
  have hne : l ≠ [] := by
    intro h
    rw [h] at hlen
    simp at hlen
  have hlt : 1 < l.length := hlen
  have hn : (l.length : Rat) ≠ 0 := by
    have : 0 < l.length := by omega
    positivity
  have hsumm : summarize_trial_counts l =
      (pymean l, Real.sqrt ((pvariance l : Rat) : Real), listMin l,
        listMax l) := by
    rw [summarize_trial_counts, if_neg hne, if_pos hlt]
  refine ⟨by simp [summarize_trial_counts], ?_, ?_, ?_, ?_, ?_, ?_, ?_, ?_, ?_⟩
  · have h1 : ([x] : List Int) ≠ [] := by simp
    rw [summarize_trial_counts, if_neg h1]
    simp [pymean, listMin, listMax]
  · rw [hsumm]
    show pymean l * (l.length : Rat) = (l.sum : Rat)
    rw [pymean]
    exact div_mul_cancel₀ _ hn
  · rw [hsumm]
    exact Real.sqrt_nonneg _
  · rw [hsumm]
    show (Real.sqrt ((pvariance l : Rat) : Real)) ^ 2 = _
    exact Real.sq_sqrt (by exact_mod_cast pvariance_nonneg l)
  · rw [pvariance, pymean]
    exact div_mul_cancel₀ _ hn
  · rw [hsumm]
    exact (listMin_spec l hne).1
  · rw [hsumm]
    exact (listMin_spec l hne).2
  · rw [hsumm]
    exact (listMax_spec l hne).1
  · rw [hsumm]
    exact (listMax_spec l hne).2

/-- Witness for C6 on the two-element count list `[1, 3]` (and the
one-element list `[7]`). -/
theorem summarize_trial_counts_spec_witness :
    2 ≤ ([1, 3] : List Int).length ∧
    (summarize_trial_counts [] = (0, 0, 0, 0) ∧
    summarize_trial_counts [7] = (((7 : Int) : Rat), 0, (7 : Int), (7 : Int)) ∧
    (summarize_trial_counts [1, 3]).1 * ((([1, 3] : List Int).length : Rat)) =
      ((([1, 3] : List Int).sum : Rat)) ∧
    0 ≤ (summarize_trial_counts [1, 3]).2.1 ∧
    ((summarize_trial_counts [1, 3]).2.1) ^ 2 =
      ((pvariance [1, 3] : Rat) : Real) ∧
    pvariance [1, 3] * ((([1, 3] : List Int).length : Rat)) =
      (([1, 3] : List Int).map (fun v =>
        ((v : Rat) - ((([1, 3] : List Int).sum : Rat)) /
          ((([1, 3] : List Int).length : Rat))) ^ 2)).sum ∧
    (summarize_trial_counts [1, 3]).2.2.1 ∈ ([1, 3] : List Int) ∧
    (∀ y ∈ ([1, 3] : List Int),
      (summarize_trial_counts [1, 3]).2.2.1 ≤ y) ∧
    (summarize_trial_counts [1, 3]).2.2.2 ∈ ([1, 3] : List Int) ∧
    (∀ y ∈ ([1, 3] : List Int),
      y ≤ (summarize_trial_counts [1, 3]).2.2.2)) :=
  ⟨by decide, summarize_trial_counts_spec [1, 3] 7 (by decide)⟩

-- Dictionary-lookup lemmas (Python dicts as association lists).
theorem dget_cons_pos {α : Type} (p : String × α) (rest : List (String × α))
    (k : String) (h : p.1 = k) : dget (p :: rest) k = some p.2 := by
  simp [dget, List.find?_cons_of_pos, h]

theorem dget_cons_neg {α : Type} (p : String × α) (rest : List (String × α))
    (k : String) (h : ¬ p.1 = k) : dget (p :: rest) k = dget rest k := by
  simp only [dget]
  rw [List.find?_cons_of_neg]
  simpa using h

theorem dget_append_left {α : Type} :
    ∀ (d1 d2 : List (String × α)) (k : String) (v : α),
      dget d1 k = some v → dget (d1 ++ d2) k = some v := by
  intro d1
  induction d1 with
  | nil => intro d2 k v h; simp [dget] at h
  | cons p rest ih =>
      intro d2 k v h
      by_cases hk : p.1 = k
      · rw [dget_cons_pos p rest k hk] at h
        rw [List.cons_append, dget_cons_pos p (rest ++ d2) k hk]
        exact h
      · rw [dget_cons_neg p rest k hk] at h
        rw [List.cons_append, dget_cons_neg p (rest ++ d2) k hk]
        exact ih d2 k v h

theorem dget_map {α β : Type} (f : α → β) :
    ∀ (d : List (String × α)) (k : String),
      dget (d.map (fun p => (p.1, f p.2))) k = (dget d k).map f := by
  intro d
  induction d with
  | nil => intro k; rfl
  | cons p rest ih =>
      intro k
      by_cases hk : p.1 = k
      · rw [List.map_cons,
          dget_cons_pos (p.1, f p.2) (rest.map (fun p => (p.1, f p.2))) k hk,
          dget_cons_pos p rest k hk]
        rfl
      · rw [List.map_cons,
          dget_cons_neg (p.1, f p.2) (rest.map (fun p => (p.1, f p.2))) k hk,
          dget_cons_neg p rest k hk]
        exact ih k

theorem dget_appendCounts (rc : List (String × List Int))
    (tc : List (String × Int)) (k : String) :
    dget (appendCounts rc tc) k =
      (dget rc k).map (fun L => L ++ [dgetD tc k 0]) := by
  induction rc with
  | nil => rfl
  | cons p rest ih =>
      by_cases hk : p.1 = k
      · rw [appendCounts, List.map_cons,
          dget_cons_pos (p.1, p.2 ++ [dgetD tc p.1 0])
            (rest.map (fun p => (p.1, p.2 ++ [dgetD tc p.1 0]))) k hk,
          dget_cons_pos p rest k hk]
        rw [hk]
        rfl
      · rw [appendCounts, List.map_cons,
          dget_cons_neg (p.1, p.2 ++ [dgetD tc p.1 0])
            (rest.map (fun p => (p.1, p.2 ++ [dgetD tc p.1 0]))) k hk,
          dget_cons_neg p rest k hk]
        exact ih

-- Lookups that miss: characterizations for motifs not yet tracked.
theorem dget_none_keys {α : Type} (d : List (String × α)) (m : String) :
    dget d m = none ↔ ∀ p ∈ d, p.1 ≠ m := by
  simp [dget, List.find?_eq_none]

theorem dget_append_none {α : Type} (d1 d2 : List (String × α))
    (m : String) (h1 : dget d1 m = none) (h2 : dget d2 m = none) :
    dget (d1 ++ d2) m = none := by
  rw [dget_none_keys] at h1 h2 ⊢
  intro p hp
  rcases List.mem_append.mp hp with h | h
  · exact h1 p h
  · exact h2 p h

theorem dget_append_right {α : Type} :
    ∀ (d1 d2 : List (String × α)) (m : String), dget d1 m = none →
      dget (d1 ++ d2) m = dget d2 m := by
  intro d1
  induction d1 with
  | nil => intro d2 m _; rfl
  | cons p rest ih =>
      intro d2 m h
      have hkeys := (dget_none_keys (p :: rest) m).mp h
      have hp : ¬ p.1 = m := hkeys p (List.mem_cons_self p rest)
      have hr : dget rest m = none := by
        rw [dget_none_keys]
        intro q hq
        exact hkeys q (List.mem_cons_of_mem p hq)
      rw [List.cons_append, dget_cons_neg p (rest ++ d2) m hp]
      exact ih d2 m hr

-- `dget` through the `(motif, [])` initialization map.
theorem dget_map_nil (d : List (String × Int)) (m : String) :
    dget (d.map (fun p => (p.1, ([] : List Int)))) m =
      (dget d m).map (fun _ => ([] : List Int)) := by
  induction d with
  | nil => rfl
  | cons p rest ih =>
      by_cases hk : p.1 = m
      · rw [List.map_cons,
          dget_cons_pos (p.1, ([] : List Int))
            (rest.map (fun p => (p.1, ([] : List Int)))) m hk,
          dget_cons_pos p rest m hk]
        rfl
      · rw [List.map_cons,
          dget_cons_neg (p.1, ([] : List Int))
            (rest.map (fun p => (p.1, ([] : List Int)))) m hk,
          dget_cons_neg p rest m hk]
        exact ih

-- Filtering on untracked keys keeps the first binding of `m` intact.
theorem dget_filter_isNone (rc : List (String × List Int))
    (tc : List (String × Int)) (m : String) (h : dget rc m = none) :
    dget (tc.filter (fun p => (dget rc p.1).isNone)) m = dget tc m := by
  induction tc with
  | nil => rfl
  | cons q rest ih =>
      by_cases hq : q.1 = m
      · have hcond : ((dget rc q.1).isNone : Bool) = true := by
          rw [hq, h]
          rfl
        rw [@List.filter_cons_of_pos _ (fun p => (dget rc p.1).isNone)
            q rest hcond, dget_cons_pos q _ m hq, dget_cons_pos q rest m hq]
      · by_cases hcond : ((dget rc q.1).isNone : Bool) = true
        · rw [@List.filter_cons_of_pos _ (fun p => (dget rc p.1).isNone)
              q rest hcond, dget_cons_neg q _ m hq,
            dget_cons_neg q rest m hq]
          exact ih
        · rw [@List.filter_cons_of_neg _ (fun p => (dget rc p.1).isNone)
              q rest (by simpa using hcond), dget_cons_neg q rest m hq]
          exact ih

theorem dget_addMissing_some (rc : List (String × List Int))
    (tc : List (String × Int)) (m : String) (h : dget rc m = none)
    (c : Int) (hc : dget tc m = some c) :
    dget (addMissing rc tc) m = some [] := by
  rw [addMissing, dget_append_right rc _ m h, dget_map_nil,
    dget_filter_isNone rc tc m h, hc]
  rfl

theorem dget_addMissing_none (rc : List (String × List Int))
    (tc : List (String × Int)) (m : String) (h : dget rc m = none)
    (h2 : dget tc m = none) : dget (addMissing rc tc) m = none := by
  rw [addMissing, dget_append_right rc _ m h, dget_map_nil,
    dget_filter_isNone rc tc m h, h2]
  rfl

theorem dget_appendCounts_none (rc : List (String × List Int))
    (tc : List (String × Int)) (m : String) (h : dget rc m = none) :
    dget (appendCounts rc tc) m = none := by
  rw [dget_appendCounts, h]
  rfl

-- The trial trace has one entry per trial, and its `k`-th entry is
-- trial `k`'s count of the motif (0 when absent).
theorem trialTrace_length (sequences : List (String × String))
    (scan_func : List (String × String) → List Match) :
    ∀ (t : Nat) (st : RState) (m : String),
      (trialTrace sequences scan_func t st m).length = t
  | 0, _, _ => rfl
  | t + 1, st, m => by
      show (trialTrace sequences scan_func t
        (trialStep sequences st) m).length + 1 = t + 1
      rw [trialTrace_length sequences scan_func t (trialStep sequences st) m]

theorem trialTrace_get (sequences : List (String × String))
    (scan_func : List (String × String) → List Match) :
    ∀ (t k : Nat) (st : RState) (m : String), k < t →
      (trialTrace sequences scan_func t st m).get? k =
        some (dgetD (trialCounts sequences scan_func
          (stateAt sequences k st)) m 0)
  | 0, k, _, _, hk => absurd hk (Nat.not_lt_zero k)
  | _ + 1, 0, _, _, _ => rfl
  | t + 1, k + 1, st, m, hk => by
      show (trialTrace sequences scan_func t
        (trialStep sequences st) m).get? k = _
      exact trialTrace_get sequences scan_func t k (trialStep sequences st)
        m (Nat.lt_of_succ_lt_succ hk)

-- A motif tracked before the remaining trials run ends with exactly
-- the per-trial counts of those trials appended.
theorem runTrials_tracked (sequences : List (String × String))
    (scan_func : List (String × String) → List Match) :
    ∀ (t : Nat) (rc : List (String × List Int)) (st : RState)
      (m : String) (L : List Int), dget rc m = some L →
      dget (runTrials sequences scan_func t rc st).1 m =
        some (L ++ trialTrace sequences scan_func t st m) := by
  intro t
  induction t with
  | zero =>
      intro rc st m L h
      show dget rc m = some (L ++ [])
      simpa using h
  | succ t ih =>
      intro rc st m L h
      have e : runTrials sequences scan_func (t + 1) rc st =
          runTrials sequences scan_func t
            (appendCounts
              (addMissing rc (trialCounts sequences scan_func st))
              (trialCounts sequences scan_func st))
            (trialStep sequences st) := rfl
      rw [e]
      have h1 : dget (addMissing rc (trialCounts sequences scan_func st))
          m = some L := dget_append_left _ _ m L h
      have h2 : dget (appendCounts
          (addMissing rc (trialCounts sequences scan_func st))
          (trialCounts sequences scan_func st)) m =
          some (L ++ [dgetD (trialCounts sequences scan_func st) m 0]) := by
        rw [dget_appendCounts, h1]
        rfl
      rw [ih _ _ m _ h2, List.append_assoc]
      rfl

-- A motif untracked at the start either never occurs in any trial
-- (and gets no entry), or is first seen in trial `k` and records
-- exactly the per-trial counts of trials `k` .. `t - 1`.
theorem runTrials_untracked (sequences : List (String × String))
    (scan_func : List (String × String) → List Match) :
    ∀ (t : Nat) (rc : List (String × List Int)) (st : RState)
      (m : String), dget rc m = none →
      (dget (runTrials sequences scan_func t rc st).1 m = none ∧
        ∀ j, j < t → dget (trialCounts sequences scan_func
          (stateAt sequences j st)) m = none) ∨
      (∃ k, k < t ∧
        (∀ j, j < k → dget (trialCounts sequences scan_func
          (stateAt sequences j st)) m = none) ∧
        (dget (trialCounts sequences scan_func
          (stateAt sequences k st)) m).isSome = true ∧
        dget (runTrials sequences scan_func t rc st).1 m =
          some (trialTrace sequences scan_func (t - k)
            (stateAt sequences k st) m)) := by
  intro t
  induction t with
  | zero =>
      intro rc st m h
      exact Or.inl ⟨h, fun j hj => absurd hj (Nat.not_lt_zero j)⟩
  | succ t ih =>
      intro rc st m h
      have e : runTrials sequences scan_func (t + 1) rc st =
          runTrials sequences scan_func t
            (appendCounts
              (addMissing rc (trialCounts sequences scan_func st))
              (trialCounts sequences scan_func st))
            (trialStep sequences st) := rfl
      cases hmem : dget (trialCounts sequences scan_func st) m with
      | some c =>
          refine Or.inr ⟨0, Nat.succ_pos t,
            fun j hj => absurd hj (Nat.not_lt_zero j), ?_, ?_⟩
          · show (dget (trialCounts sequences scan_func st) m).isSome = true
            rw [hmem]
            rfl
          · have h1 := dget_addMissing_some rc _ m h c hmem
            have h2 : dget (appendCounts
                (addMissing rc (trialCounts sequences scan_func st))
                (trialCounts sequences scan_func st)) m =
                some (([] : List Int) ++
                  [dgetD (trialCounts sequences scan_func st) m 0]) := by
              rw [dget_appendCounts, h1]
              rfl
            rw [e, runTrials_tracked sequences scan_func t _ _ m _ h2]
            rfl
      | none =>
          have h2 : dget (appendCounts
              (addMissing rc (trialCounts sequences scan_func st))
              (trialCounts sequences scan_func st)) m = none :=
            dget_appendCounts_none _ _ m (dget_addMissing_none rc _ m h hmem)
          rcases ih _ (trialStep sequences st) m h2 with
            ⟨hres, hall⟩ | ⟨k, hk, hbef, hseen, heq⟩
          · refine Or.inl ⟨by rw [e]; exact hres, ?_⟩
            intro j hj
            cases j with
            | zero => exact hmem
            | succ j' => exact hall j' (Nat.lt_of_succ_lt_succ hj)
          · refine Or.inr ⟨k + 1, Nat.succ_lt_succ hk, ?_, hseen, ?_⟩
            · intro j hj
              cases j with
              | zero => exact hmem
              | succ j' => exact hbef j' (Nat.lt_of_succ_lt_succ hj)
            · rw [e]
              simpa [Nat.succ_sub_succ] using heq

-- Every tracked list grows by at most one count per trial.
theorem runTrials_bound (sequences : List (String × String))
    (scan_func : List (String × String) → List Match) :
    ∀ (t : Nat) (rc : List (String × List Int)) (st : RState) (b : Nat),
      (∀ p ∈ rc, p.2.length ≤ b) →
      ∀ p ∈ (runTrials sequences scan_func t rc st).1,
        p.2.length ≤ b + t := by
  intro t
  induction t with
  | zero => intro rc st b h; simpa using h
  | succ t ih =>
      intro rc st b h
      have e : runTrials sequences scan_func (t + 1) rc st =
          runTrials sequences scan_func t
            (appendCounts
              (addMissing rc (count_matches_by_motif (scan_func
                (randomize_sequences pyRandbelow sequences st).1)))
              (count_matches_by_motif (scan_func
                (randomize_sequences pyRandbelow sequences st).1)))
            (randomize_sequences pyRandbelow sequences st).2 := rfl
      rw [e]
      have h2 : ∀ p ∈ appendCounts
          (addMissing rc (count_matches_by_motif (scan_func
            (randomize_sequences pyRandbelow sequences st).1)))
          (count_matches_by_motif (scan_func
            (randomize_sequences pyRandbelow sequences st).1)),
          p.2.length ≤ b + 1 := by
        intro p hp
        rw [appendCounts] at hp
        obtain ⟨q, hq, rfl⟩ := List.mem_map.mp hp
        rw [addMissing] at hq
        rcases List.mem_append.mp hq with hq | hq
        · have := h q hq
          simp
          omega
        · obtain ⟨r, _, rfl⟩ := List.mem_map.mp hq
          simp
      intro p hp
      have := ih _ _ (b + 1) h2 p hp
      omega

/-- C2 (amended): after `run_baseline` with trial count `n`, every
motif that occurred in the real scan has a random-counts list of
length exactly `n`, whose `k`-th entry is that motif's count in trial
`k` — in particular `0` whenever the motif did not occur in that
trial — and no list in the table is longer than `n`.  But a motif
absent from the real scan is tracked only from its first trial of
discovery: if it first occurs in (0-based) trial `k`, its list covers
trials `k` .. `n-1` only, with length `n - k` (that is, `n - k₁ + 1`
for the 1-based trial `k₁ = k + 1`): earlier trials are not
zero-filled; and if it never occurs, it gets no entry at all. -/
theorem run_baseline_trial_table_lengths
    (sequences : List (String × String))
    (scan_func : List (String × String) → List Match)
    (trials : Nat) (seed : Option Nat) (m mAbsent : String)
    (h : (dget (run_baseline sequences scan_func trials seed).real_counts
      m).isSome = true)
    (hA : dget (run_baseline sequences scan_func trials seed).real_counts
      mAbsent = none) :
    dget (run_baseline sequences scan_func trials seed).random_counts m =
      some (trialTrace sequences scan_func trials (randomInit seed) m) ∧
    (trialTrace sequences scan_func trials (randomInit seed) m).length =
      trials ∧
    (∀ k, k < trials →
      (trialTrace sequences scan_func trials (randomInit seed) m).get? k =
        some (dgetD (trialCounts sequences scan_func
          (stateAt sequences k (randomInit seed))) m 0)) ∧
    (∀ k, k < trials →
      dget (trialCounts sequences scan_func
        (stateAt sequences k (randomInit seed))) m = none →
      (trialTrace sequences scan_func trials (randomInit seed) m).get? k =
        some 0) ∧
    (∀ p ∈ (run_baseline sequences scan_func trials seed).random_counts,
      p.2.length ≤ trials) ∧
    ((dget (run_baseline sequences scan_func trials seed).random_counts
        mAbsent = none ∧
      ∀ j, j < trials → dget (trialCounts sequences scan_func
        (stateAt sequences j (randomInit seed))) mAbsent = none) ∨
    (∃ k, k < trials ∧
      (∀ j, j < k → dget (trialCounts sequences scan_func
        (stateAt sequences j (randomInit seed))) mAbsent = none) ∧
      (dget (trialCounts sequences scan_func
        (stateAt sequences k (randomInit seed))) mAbsent).isSome = true ∧
      dget (run_baseline sequences scan_func trials seed).random_counts
        mAbsent = some (trialTrace sequences scan_func (trials - k)
          (stateAt sequences k (randomInit seed)) mAbsent) ∧
      (trialTrace sequences scan_func (trials - k)
        (stateAt sequences k (randomInit seed)) mAbsent).length =
        trials - k)) := by
  have eR : (run_baseline sequences scan_func trials seed).real_counts =
      count_matches_by_motif (scan_func sequences) := rfl
  have eRC : (run_baseline sequences scan_func trials seed).random_counts =
      (runTrials sequences scan_func trials
        ((count_matches_by_motif (scan_func sequences)).map
          (fun p => (p.1, ([] : List Int)))) (randomInit seed)).1 := rfl
  rw [eR] at h hA
  rw [Option.isSome_iff_exists] at h
  obtain ⟨c, hc⟩ := h
  have h0 : dget ((count_matches_by_motif (scan_func sequences)).map
      (fun p => (p.1, ([] : List Int)))) m = some [] := by
    rw [dget_map_nil, hc]
    rfl
  have hmain := runTrials_tracked sequences scan_func trials _
    (randomInit seed) m [] h0
  refine ⟨?_, trialTrace_length sequences scan_func trials
      (randomInit seed) m, ?_, ?_, ?_, ?_⟩
  · rw [eRC, hmain]
    rw [List.nil_append]
  · intro k hk
    exact trialTrace_get sequences scan_func trials k (randomInit seed) m hk
  · intro k hk habs
    rw [trialTrace_get sequences scan_func trials k (randomInit seed) m hk]
    rw [dgetD, habs]
    rfl
  · rw [eRC]
    intro p hp
    have hb : ∀ q ∈ (count_matches_by_motif (scan_func sequences)).map
        (fun p => (p.1, ([] : List Int))), q.2.length ≤ 0 := by
      intro q hq
      obtain ⟨r, _, rfl⟩ := List.mem_map.mp hq
      simp
    have := runTrials_bound sequences scan_func trials _ (randomInit seed)
      0 hb p hp
    omega
  · have h0A : dget ((count_matches_by_motif (scan_func sequences)).map
        (fun p => (p.1, ([] : List Int)))) mAbsent = none := by
      rw [dget_map_nil, hA]
      rfl
    rcases runTrials_untracked sequences scan_func trials _
      (randomInit seed) mAbsent h0A with
      ⟨hres, hall⟩ | ⟨k, hk, hbef, hseen, heq⟩
    · exact Or.inl ⟨by rw [eRC]; exact hres, hall⟩
    · exact Or.inr ⟨k, hk, hbef, hseen, by rw [eRC]; exact heq,
        trialTrace_length sequences scan_func (trials - k)
          (stateAt sequences k (randomInit seed)) mAbsent⟩

-- The MT19937 state `random.Random(7)` constructs, staged so that
-- each evaluation step stays within the kernel's reduction depth:
-- the base state, the two key-mixing loops, and the final word
-- override, each pinned to its literal value.
theorem mtSeed7_base : initGenrand 19650218 = 62685089405509111925910797243914719854890513935494713084094713797279779630627496305943786046941309007281293105221577504421353501605599255248785149356818580886163074212016138319710181437623915839386196989339984175865611290932895638485827512283879634622589907034847096838980553398268338905605705315464924834076955485269257682765843392777664062904318116756644819538761883164862381873685805923051342196114892111881287659915424456096361326051748180740843339721465950121631833352165428366344241754810081140762710579390137795215443629123183303201044796731629341661542390258966032612552126580439913324626563213547393121217728067632048719897064596438939163041106934301355643192260261867872030533878188557727018817797219012064641958276099544136480610826250078810896212505254064619595899307426216931651016613164877613570296351724055264357110051005104450572173606849938075379012356137114572525910752676385589168436483206759652170097284388598518122222819376116616668668677988651997615236221431416155794821321118852088948452164682783715959922435191327367306488124638818446090532334864386359317233873012285172875896330714873881780586230596002778688422250420590175698633544778262136505069053046737202152515000629854634631225453245996997340762744567896897683212149150732909707719966588817675821630380251456266588599804209831660991462715440400663143017564651072677052296295930367391822676512661642282350234567553218318066651318510488484545671729568971887621684270732981974442582657502555066960418690332945218280990034155505553171409775830458482159957769211244505225186771766058316021949327301666418107251589707938065072144733816368743637495699897181007119363672460040974223449086641663004605507793014252452324150238463715514559124307431648478948480649031081489229583165223570218974125422263886587593014744330199975749832650568652404661542746543584685860761547297457070273167102314576665676644281998277713093924236551494770138725647883566971887853912300960949802636372591951717316415323846182747445131420005722224687602711525724505110953736568981699982016588947035894059736087136235396798804019434387781559696138411966704777989194870090051835909943079457649936020314680876367897457337488804889342331824364904005266943816631681518612047693872607083945336048154993001716858914072302230374294986610531277637599664647525761147514008899238689946802093944865612982597431648203028809043429562401771290925843222821220221381984318518256971016750121270624021542153515130386081256853244444367484914891752438843250797295149886721543902585582757118492217204960123203770309672216674331373413106027454841661967870247822106376003696537006476355273043676224973894002060133928765135363584693312631060562155459381152426642778209514491263275588735458188352331628933634618912177576995916817414488324819680108333628484452298807271017999262374749573133359090629722111402666396222385680310709557844049479865847370371052888681758484468279513921172987571336140289500145715018352119752770038578015899178947425013401300127437407370742417936980607757405410607208376626705322894782663757703548808362869195819947150150865798288136994832911439410269353230208345410503242199606186650417333579047848825834242257112060317620885151293421378661990197161958015730358249113963865616811805417654957899792836277351433146683316643158745577273742588847277405020330699298979666450169324546781433015633218213248018986767013905101885085728066131985273947793365444250280947765884488609302913437528001802423347517836456663978922564542901160075954132077499502061844004777463229898312792357201472450520034421742281215395838957029567457078867297742321364249618062920323524100796395855490398720473188748064226082130624085325443879193454095100721902723688608983702297802922465778395428510531587340343771240068168890882622394112252370643121994567113348850616779414952571984309063927162547038575769391208822294299053225776973195785292510157058775147687493667385905281728614066936870793483631104130486096422866739022254251631022238998824784309871214211336594149372534724828516536519652291847191320934127662041939033266344757810255450761243406685982638804631309022215852991706323223872506356963395668107287976200691035733250165615782065576159415303394415966535152327550107294310945533761757937224536792146711105700674959937207778503501562879445241463662142281185819506210181780721218897488871995890898495582077564387715740371190275817001449471008660140255770382875594805433223352833476546594040372715841292252983175468170554585838014797017976570586587751089146553833551413146641975370517778330202052282190648141351908509904289169596729111939424597802445523234111653813513351586367960175769546506050051493655326103823629699245586418016468660736051425039803522537493270385743437525903109563398688573456345292160567787373069854610200635728800730405759403691875432721043746233636765094325962472698626875833148826372580999341547042531665331710768365982359935219565301595187067772247975847412037958098451506998773182171027695752045356894447709388159633645629545493246019135820915900506906032640701290570506299065346661219735445730896769091171352761432210047450382980030625592142825700677633624952217795344145832513082782540989616413040988227257601039794195623143595351637462190706636535912449334420058581521218743569834717812580171279915160794789675762903718339466089866492140118823551337811927493524761760551434001520245324751568861558716803095718510972066599595072196209156923318071322517301806566620458899402166430591631348363311478802800521980525250372511467674969151489645720009661369785217086930227581405674315978920044798755483144811069077253851302610194739624245401270682864202663540116818822475326676741780611737275972111438408802370422377608919256570335384654037352344114105999356653180812503717835632673409647782213628400383443178293619326757139369589058612122088577237252104060778375287897543799460272211546791798613974575310224299012205778134871255296492395729078221387894808011355820153110205338707003138385845672884757408327786763143168159295742358655797897448897721796416755370 := by
  decide

theorem mtSeed7_loop1 : mtSeedLoop1 [7] (62685089405509111925910797243914719854890513935494713084094713797279779630627496305943786046941309007281293105221577504421353501605599255248785149356818580886163074212016138319710181437623915839386196989339984175865611290932895638485827512283879634622589907034847096838980553398268338905605705315464924834076955485269257682765843392777664062904318116756644819538761883164862381873685805923051342196114892111881287659915424456096361326051748180740843339721465950121631833352165428366344241754810081140762710579390137795215443629123183303201044796731629341661542390258966032612552126580439913324626563213547393121217728067632048719897064596438939163041106934301355643192260261867872030533878188557727018817797219012064641958276099544136480610826250078810896212505254064619595899307426216931651016613164877613570296351724055264357110051005104450572173606849938075379012356137114572525910752676385589168436483206759652170097284388598518122222819376116616668668677988651997615236221431416155794821321118852088948452164682783715959922435191327367306488124638818446090532334864386359317233873012285172875896330714873881780586230596002778688422250420590175698633544778262136505069053046737202152515000629854634631225453245996997340762744567896897683212149150732909707719966588817675821630380251456266588599804209831660991462715440400663143017564651072677052296295930367391822676512661642282350234567553218318066651318510488484545671729568971887621684270732981974442582657502555066960418690332945218280990034155505553171409775830458482159957769211244505225186771766058316021949327301666418107251589707938065072144733816368743637495699897181007119363672460040974223449086641663004605507793014252452324150238463715514559124307431648478948480649031081489229583165223570218974125422263886587593014744330199975749832650568652404661542746543584685860761547297457070273167102314576665676644281998277713093924236551494770138725647883566971887853912300960949802636372591951717316415323846182747445131420005722224687602711525724505110953736568981699982016588947035894059736087136235396798804019434387781559696138411966704777989194870090051835909943079457649936020314680876367897457337488804889342331824364904005266943816631681518612047693872607083945336048154993001716858914072302230374294986610531277637599664647525761147514008899238689946802093944865612982597431648203028809043429562401771290925843222821220221381984318518256971016750121270624021542153515130386081256853244444367484914891752438843250797295149886721543902585582757118492217204960123203770309672216674331373413106027454841661967870247822106376003696537006476355273043676224973894002060133928765135363584693312631060562155459381152426642778209514491263275588735458188352331628933634618912177576995916817414488324819680108333628484452298807271017999262374749573133359090629722111402666396222385680310709557844049479865847370371052888681758484468279513921172987571336140289500145715018352119752770038578015899178947425013401300127437407370742417936980607757405410607208376626705322894782663757703548808362869195819947150150865798288136994832911439410269353230208345410503242199606186650417333579047848825834242257112060317620885151293421378661990197161958015730358249113963865616811805417654957899792836277351433146683316643158745577273742588847277405020330699298979666450169324546781433015633218213248018986767013905101885085728066131985273947793365444250280947765884488609302913437528001802423347517836456663978922564542901160075954132077499502061844004777463229898312792357201472450520034421742281215395838957029567457078867297742321364249618062920323524100796395855490398720473188748064226082130624085325443879193454095100721902723688608983702297802922465778395428510531587340343771240068168890882622394112252370643121994567113348850616779414952571984309063927162547038575769391208822294299053225776973195785292510157058775147687493667385905281728614066936870793483631104130486096422866739022254251631022238998824784309871214211336594149372534724828516536519652291847191320934127662041939033266344757810255450761243406685982638804631309022215852991706323223872506356963395668107287976200691035733250165615782065576159415303394415966535152327550107294310945533761757937224536792146711105700674959937207778503501562879445241463662142281185819506210181780721218897488871995890898495582077564387715740371190275817001449471008660140255770382875594805433223352833476546594040372715841292252983175468170554585838014797017976570586587751089146553833551413146641975370517778330202052282190648141351908509904289169596729111939424597802445523234111653813513351586367960175769546506050051493655326103823629699245586418016468660736051425039803522537493270385743437525903109563398688573456345292160567787373069854610200635728800730405759403691875432721043746233636765094325962472698626875833148826372580999341547042531665331710768365982359935219565301595187067772247975847412037958098451506998773182171027695752045356894447709388159633645629545493246019135820915900506906032640701290570506299065346661219735445730896769091171352761432210047450382980030625592142825700677633624952217795344145832513082782540989616413040988227257601039794195623143595351637462190706636535912449334420058581521218743569834717812580171279915160794789675762903718339466089866492140118823551337811927493524761760551434001520245324751568861558716803095718510972066599595072196209156923318071322517301806566620458899402166430591631348363311478802800521980525250372511467674969151489645720009661369785217086930227581405674315978920044798755483144811069077253851302610194739624245401270682864202663540116818822475326676741780611737275972111438408802370422377608919256570335384654037352344114105999356653180812503717835632673409647782213628400383443178293619326757139369589058612122088577237252104060778375287897543799460272211546791798613974575310224299012205778134871255296492395729078221387894808011355820153110205338707003138385845672884757408327786763143168159295742358655797897448897721796416755370) = (46790174321154155386808379119907096440423999898786748003740358808096605768535401347588335067317353343072756573612616534866118539116736278650504758168434779017035381445060360794695970386065168149793293115366461048684322511161564965534708265487535535811762944216146314524214552422413751325040056354482243885149181238281389917524625135051169159748074002828257931014235954947217434064243829898007551039625270124243318998410528989820694398617086022648150430672782561854154848856943457892859120738895714904068101544419623875289793997834485385368904795780371655040192553475528489027609261656272563002922399873390698186268923321684354213217887065278346313954664397199892181197388371748849531311609755912423607534377952496391855540324638984656518530099328084279124442197699687443993868998518535886873818765652326448402627979253287762257434688245688081986205358109979393995537680138103813707008930735028222376566780973125956150379828011156418421549392912772917363185510611989669567844359858279819209983200304721073792518777516858015884838829548396806993597292573863856865887532891848250584692471337968148354084611419426356841449904659679781249764005554145850297589114669357175533299332849204296483106817587807230801952485413545675919615752659616982879164500000150362183003729787788605461735651522261954011794782823062983091669503516530125186181291242929756036815226863964515981951513939947291184849735564429831061344065055613926231625075967124755518705578251936088170329297903960210890545525955931638235207515160247916623635976862545594779608002402114167000938009638490856781825339015661119505229859517625537243044908300754682851376418940715539120722933957065947576943053597026848344124112977242325192884555716321568603399241130542363997813852456148198881412751896508940187482823861667423342324048125505315797160299945361271315641844399698167202774505758548850069355467755768013847181954745547265964289875078895419889181003062794057994180010749961877435246215413637756108223055188183818613226027739575423320107872030769970292062871775993045751385843803100238963403946335273348949734439391917672213369046700588005645580617241530604891559359779472093318101963234408848942594520179528620704185363561480705901369400238517487693756156301539890432527378140686259602117753070913972169725627717727286804808900231043081186301094116139676726105802990891720980523078688966222918729835654155336357169914781441532291962727375701235949758828797807484806438147925342145097685801265014519853101924363028406007402969321693592103871330360111024530998633915967740093809805383672959052994586297528110300310157529296148988126227251685132708015782142086402885609790833674155274399522675849639150590608753205745966372333495693421647734853600241921532105529865572643661769824251731337486353391136148384462952667921109820286858822865568502032679108110505028050185710496581422233548794320272817489923051738462343500033687621651329173329013309150825890597276750251210703750905322010658022668831639621649696686063507439650481447293245466216781842549580903427020644597066695736439915879892293890674407399861479988069201261461895952173873422303013446179289153298804418099859009012783637546068724240041169990881605023556566245532695489130191496189984840365486492755691781377964857871179837210821594606760851395475477707893176827351163030374014994232193960755680065811941901337104370865468523077880367912100727402181310773961011065794677610846205310214834035480644075038168443841493086950212823666632773979588894639349295762352554099303179103091977550865950634956726799600112668748532343192355325394776476900428977620038387304792412560302283966133092474472948790214957357017693463452981182346589404642928017733961274150650549330479295061544281756690296456810025277351351876652734195510135101282076670176803693790426618866172183558688705380797747462002841383471938784396441972387474553742299699454160291876476195211155150447833015654743187077467961573185311678059466767451231136669747013550169371263570514294567619445930731280187940230214351925307801115484440548968655359125970267081243545993345314723603556115464410224983211590983364284432966021928192552323961855428065576657564879906509484110595691014651233419985456093057927594898456041695179957254332939813448340701742640968879759126342649903062179180075349248982717385556970150372414696100408069315576921329546034041165600123429789930735874281188825987804227597255145269108380008434957897254117575352136517770329196724518611601817297468528623467560429026497039869037746725136435124381451078275691647326077790905185827167846498529087977591865113303152487311922397815419883827875162181917583943474140480889389348393168203227866954905124164105417119014800846990516521210787180910000365332637121589924401860671107391157764518740073440514119217985976198177471133466586358057236325837352367145316554641147898209349594721889426442850898891773890236852012114084382610104601903449064063236137741000707403807809478785597341228829645477502921790104286136773717608455318190749246730499648225744044367464867602590099662341294017751626879475968783862870718907918915010780677504526454430303255587862926719304148038466164825456797300344144133187660579530511256381422834253258827804107969745944651496904262430499734824334424728021769961627620427524640679381888100387048539042064852308689111336867595417586392665570673166053891478715324117707654483584138554331767319909058503558621079183537890919246280583093959231638626788015717724831647248936493959246129559005079661935202603052149423098276269614902013122043137300390284637372270493795558636060896628017952372264626125079852970299023185847201649165242797974053448328026599079153210927820163216149001097624683881761205981432027560054646981647502466139218095260807370547388338506881697157741612353213368168049462210304903809288724368581266938931018257656757201670797935965749327624191338523541052245063146288266750869089137637926614097561009106281738042818936700526545331036515226218802647472113436542128949619222566319918604189094965231908217202075434252348038369250, 2, 0) := by
  decide

theorem mtSeed7_loop2 : mtSeedLoop2 (46790174321154155386808379119907096440423999898786748003740358808096605768535401347588335067317353343072756573612616534866118539116736278650504758168434779017035381445060360794695970386065168149793293115366461048684322511161564965534708265487535535811762944216146314524214552422413751325040056354482243885149181238281389917524625135051169159748074002828257931014235954947217434064243829898007551039625270124243318998410528989820694398617086022648150430672782561854154848856943457892859120738895714904068101544419623875289793997834485385368904795780371655040192553475528489027609261656272563002922399873390698186268923321684354213217887065278346313954664397199892181197388371748849531311609755912423607534377952496391855540324638984656518530099328084279124442197699687443993868998518535886873818765652326448402627979253287762257434688245688081986205358109979393995537680138103813707008930735028222376566780973125956150379828011156418421549392912772917363185510611989669567844359858279819209983200304721073792518777516858015884838829548396806993597292573863856865887532891848250584692471337968148354084611419426356841449904659679781249764005554145850297589114669357175533299332849204296483106817587807230801952485413545675919615752659616982879164500000150362183003729787788605461735651522261954011794782823062983091669503516530125186181291242929756036815226863964515981951513939947291184849735564429831061344065055613926231625075967124755518705578251936088170329297903960210890545525955931638235207515160247916623635976862545594779608002402114167000938009638490856781825339015661119505229859517625537243044908300754682851376418940715539120722933957065947576943053597026848344124112977242325192884555716321568603399241130542363997813852456148198881412751896508940187482823861667423342324048125505315797160299945361271315641844399698167202774505758548850069355467755768013847181954745547265964289875078895419889181003062794057994180010749961877435246215413637756108223055188183818613226027739575423320107872030769970292062871775993045751385843803100238963403946335273348949734439391917672213369046700588005645580617241530604891559359779472093318101963234408848942594520179528620704185363561480705901369400238517487693756156301539890432527378140686259602117753070913972169725627717727286804808900231043081186301094116139676726105802990891720980523078688966222918729835654155336357169914781441532291962727375701235949758828797807484806438147925342145097685801265014519853101924363028406007402969321693592103871330360111024530998633915967740093809805383672959052994586297528110300310157529296148988126227251685132708015782142086402885609790833674155274399522675849639150590608753205745966372333495693421647734853600241921532105529865572643661769824251731337486353391136148384462952667921109820286858822865568502032679108110505028050185710496581422233548794320272817489923051738462343500033687621651329173329013309150825890597276750251210703750905322010658022668831639621649696686063507439650481447293245466216781842549580903427020644597066695736439915879892293890674407399861479988069201261461895952173873422303013446179289153298804418099859009012783637546068724240041169990881605023556566245532695489130191496189984840365486492755691781377964857871179837210821594606760851395475477707893176827351163030374014994232193960755680065811941901337104370865468523077880367912100727402181310773961011065794677610846205310214834035480644075038168443841493086950212823666632773979588894639349295762352554099303179103091977550865950634956726799600112668748532343192355325394776476900428977620038387304792412560302283966133092474472948790214957357017693463452981182346589404642928017733961274150650549330479295061544281756690296456810025277351351876652734195510135101282076670176803693790426618866172183558688705380797747462002841383471938784396441972387474553742299699454160291876476195211155150447833015654743187077467961573185311678059466767451231136669747013550169371263570514294567619445930731280187940230214351925307801115484440548968655359125970267081243545993345314723603556115464410224983211590983364284432966021928192552323961855428065576657564879906509484110595691014651233419985456093057927594898456041695179957254332939813448340701742640968879759126342649903062179180075349248982717385556970150372414696100408069315576921329546034041165600123429789930735874281188825987804227597255145269108380008434957897254117575352136517770329196724518611601817297468528623467560429026497039869037746725136435124381451078275691647326077790905185827167846498529087977591865113303152487311922397815419883827875162181917583943474140480889389348393168203227866954905124164105417119014800846990516521210787180910000365332637121589924401860671107391157764518740073440514119217985976198177471133466586358057236325837352367145316554641147898209349594721889426442850898891773890236852012114084382610104601903449064063236137741000707403807809478785597341228829645477502921790104286136773717608455318190749246730499648225744044367464867602590099662341294017751626879475968783862870718907918915010780677504526454430303255587862926719304148038466164825456797300344144133187660579530511256381422834253258827804107969745944651496904262430499734824334424728021769961627620427524640679381888100387048539042064852308689111336867595417586392665570673166053891478715324117707654483584138554331767319909058503558621079183537890919246280583093959231638626788015717724831647248936493959246129559005079661935202603052149423098276269614902013122043137300390284637372270493795558636060896628017952372264626125079852970299023185847201649165242797974053448328026599079153210927820163216149001097624683881761205981432027560054646981647502466139218095260807370547388338506881697157741612353213368168049462210304903809288724368581266938931018257656757201670797935965749327624191338523541052245063146288266750869089137637926614097561009106281738042818936700526545331036515226218802647472113436542128949619222566319918604189094965231908217202075434252348038369250, 2) = (52839506161007317102949658614648297364742017287431299569114663797159194989118097241479019934633577185168903159570872018663860753952475932412300595952548334423407564414180677572998032268275813727350873038291773660024837810492831076458037479171414750942656523921055242358845559336606057601714362651684730997471576477326408081115159381310424245656482230372801242705078564548585157398045046179987278037498921973144542766434399572915894411823405009650378622176565423837093345255131541552274140824768573584004679562315565657174798123140116073611332542027990251082646623438121063657109608466223140977315295606517204675301107066211803052522341648386462886005149803784180382949855362902196938044618310009517606165246456306188145473724398573755383166888299229571593715584107865323863515437505644301006740244075494647114809453705725166251631897838376961336967207164249181440472806100145403143704132811057188894224649159503941481914875924739934017605053565245805732464584975129234216474483736139811448285031829899266056282982118323054544678076143495623722188654872041131062707407658513919403125661107395884536076598880521729564479345197799033777647350231445853546213000537530502544470712082516923508476675676925863217445718214120117455960259104308558998356037003658469836555723541892459883842656211478582958062928496216745750656670267020308213177737893666238605637080570844567650853683869191373861440129768131859742861371649961834348923264350749039619348019628375467432078901301315145353641580064186979285229647542164893655173527527201047524620917075738882029175025481859197618853946059608556966376079905184559610533213746993348169265225329784743524839720479513843238207415674062408601676751658393791354568705216137818617832940507534649574163014840710573028460874275325046443641695021041885169244426170844442995094754464082099607226306276061067399470275248025856454794982347325433281047724005789731352028419737068911086046537771519503685752190565278456735562095702356248756226171832395920748628660300013156324738188034484672429830126798410527149648678388567371935581495381107651689367753213574065268303962017599043956565843153310584387457375064534547251334850547090955733807486383075676744778170938241487121285106683791201902854754586039522220830066264460236137332289697521580279650840446188786626323255342253229170929697681105266387035465091433959478790483359475350506443589596532854710235285897447547694971656405838370989141786537270501136489943093066297280104171765606076015849465931768002015080158714300751769893812250733800371427067317165755434740031647854623160598565763834614847950379559103706305074951224176496418151538018966168736831099476077857264119680869587637257219355058097076176730654449449804361771497150778081187792784140095594619390194842396566918284008707324762274114053881723842297223150968272335195000566524411159762528043456450437912491775642181081538472104334934237841364605551203215628305912516040995353268955612920501355203971403794103007271830039240418116251324884036209187150471433945652799533192721077704721847795613403695300558940380651263028762979764121611906175710248933506227313209185601060922254022131944020631538926819600743278023309046620465275477024085103346932251264857690429574323489989372014385194026309520305648315251647247501166330252761876487828576695566923465697776612531602126458645289747145737539445855590823588240565206467649219281579201551482256476478874020243152264457686438848516030717391257705290544097465934972055344173226427171409117768485679053926256120170364289912218456828705377387332140525812582485000881762356799582102828526831590376300141311738128721731129115188609178918845072621787648271470002084430815789609641350008214395227205193310897741271177888614330202402508960924061979315178595634294805975584604991293468242338529800947602034235603297427730461081310625679920147649993347830862260311948616239685799790801941824627483070658509894709324316880005797647675834478421797548556775974340573320974601464773750214652595225335027518800695286371170791254431366955056640226623566611541049790636278785762394377428761629174082627799406782859458755445785127543597156932194915989641832162893079275987445855430374877295739203280390058960193937263787138979034632776175858967330116283148938614340153638569260649961719084979709121977749625117036887349727459968956159223547496079280382706320192075821144257518924200856749971644105690171933202697162399496126132864647071522789481785642154217123603617008085424936657798996727153462673884251181875012981498289134215741482409886894433210437235667800931397723509573791494709740928144338955606923650655903971389411680158222178336786988435403454158232366420761298604853827753953905319578001530773038902002987656495033326467004408916478089353161656473279881337748066018435125863861048012742209601947195278261214070589350932688345813432883218452524077683597974331210168541571403699976014084461427914669853596852815233996424682666524251588881065012766391597602871857840213494465395919362692077180529541812865046796724911230617296447445809886586364491113060652873877167073489015970531320567893363473168727777751836043688424072043777785171182281628623735843692940095457692569765076988186556366567269079221593534114598012936898817763863448985595812647876017317131067558000866227891911661471328876182591760854828910335301933786783841776358888590801318914021231766531494354838378987729812243128366663678312047995175208024682108477294198192340632169736010939920296347591781720172411900589530021567258709160386995223159674916141091625738499287140536211239091351899337119112759918916921097355374691942720016408281666513102815794633110267174466966149859048875992065575178901166316799701807440227640666058215112411818073510371612442177344690685505929962918977009466578886628866899782521127185859509280876143684496730295323095098186851834671918739016579575224907047934820271774988597131745151820549599732442059516722530290974920960160294755235506766723260217404442903131793182368557548733519361163734997813309828682563808563594688914738587377254038, 2) := by
  decide

theorem mtSeed7_state : randomInit (some 7) = (52839506161007317102949658614648297364742017287431299569114663797159194989118097241479019934633577185168903159570872018663860753952475932412300595952548334423407564414180677572998032268275813727350873038291773660024837810492831076458037479171414750942656523921055242358845559336606057601714362651684730997471576477326408081115159381310424245656482230372801242705078564548585157398045046179987278037498921973144542766434399572915894411823405009650378622176565423837093345255131541552274140824768573584004679562315565657174798123140116073611332542027990251082646623438121063657109608466223140977315295606517204675301107066211803052522341648386462886005149803784180382949855362902196938044618310009517606165246456306188145473724398573755383166888299229571593715584107865323863515437505644301006740244075494647114809453705725166251631897838376961336967207164249181440472806100145403143704132811057188894224649159503941481914875924739934017605053565245805732464584975129234216474483736139811448285031829899266056282982118323054544678076143495623722188654872041131062707407658513919403125661107395884536076598880521729564479345197799033777647350231445853546213000537530502544470712082516923508476675676925863217445718214120117455960259104308558998356037003658469836555723541892459883842656211478582958062928496216745750656670267020308213177737893666238605637080570844567650853683869191373861440129768131859742861371649961834348923264350749039619348019628375467432078901301315145353641580064186979285229647542164893655173527527201047524620917075738882029175025481859197618853946059608556966376079905184559610533213746993348169265225329784743524839720479513843238207415674062408601676751658393791354568705216137818617832940507534649574163014840710573028460874275325046443641695021041885169244426170844442995094754464082099607226306276061067399470275248025856454794982347325433281047724005789731352028419737068911086046537771519503685752190565278456735562095702356248756226171832395920748628660300013156324738188034484672429830126798410527149648678388567371935581495381107651689367753213574065268303962017599043956565843153310584387457375064534547251334850547090955733807486383075676744778170938241487121285106683791201902854754586039522220830066264460236137332289697521580279650840446188786626323255342253229170929697681105266387035465091433959478790483359475350506443589596532854710235285897447547694971656405838370989141786537270501136489943093066297280104171765606076015849465931768002015080158714300751769893812250733800371427067317165755434740031647854623160598565763834614847950379559103706305074951224176496418151538018966168736831099476077857264119680869587637257219355058097076176730654449449804361771497150778081187792784140095594619390194842396566918284008707324762274114053881723842297223150968272335195000566524411159762528043456450437912491775642181081538472104334934237841364605551203215628305912516040995353268955612920501355203971403794103007271830039240418116251324884036209187150471433945652799533192721077704721847795613403695300558940380651263028762979764121611906175710248933506227313209185601060922254022131944020631538926819600743278023309046620465275477024085103346932251264857690429574323489989372014385194026309520305648315251647247501166330252761876487828576695566923465697776612531602126458645289747145737539445855590823588240565206467649219281579201551482256476478874020243152264457686438848516030717391257705290544097465934972055344173226427171409117768485679053926256120170364289912218456828705377387332140525812582485000881762356799582102828526831590376300141311738128721731129115188609178918845072621787648271470002084430815789609641350008214395227205193310897741271177888614330202402508960924061979315178595634294805975584604991293468242338529800947602034235603297427730461081310625679920147649993347830862260311948616239685799790801941824627483070658509894709324316880005797647675834478421797548556775974340573320974601464773750214652595225335027518800695286371170791254431366955056640226623566611541049790636278785762394377428761629174082627799406782859458755445785127543597156932194915989641832162893079275987445855430374877295739203280390058960193937263787138979034632776175858967330116283148938614340153638569260649961719084979709121977749625117036887349727459968956159223547496079280382706320192075821144257518924200856749971644105690171933202697162399496126132864647071522789481785642154217123603617008085424936657798996727153462673884251181875012981498289134215741482409886894433210437235667800931397723509573791494709740928144338955606923650655903971389411680158222178336786988435403454158232366420761298604853827753953905319578001530773038902002987656495033326467004408916478089353161656473279881337748066018435125863861048012742209601947195278261214070589350932688345813432883218452524077683597974331210168541571403699976014084461427914669853596852815233996424682666524251588881065012766391597602871857840213494465395919362692077180529541812865046796724911230617296447445809886586364491113060652873877167073489015970531320567893363473168727777751836043688424072043777785171182281628623735843692940095457692569765076988186556366567269079221593534114598012936898817763863448985595812647876017317131067558000866227891911661471328876182591760854828910335301933786783841776358888590801318914021231766531494354838378987729812243128366663678312047995175208024682108477294198192340632169736010939920296347591781720172411900589530021567258709160386995223159674916141091625738499287140536211239091351899337119112759918916921097355374691942720016408281666513102815794633110267174466966149859048875992065575178901166316799701807440227640666058215112411818073510371612442177344690685505929962918977009466578886628866899782521127185859509280876143684496730295323095098186851834671918739016579575224907047934820271774988597131745151820549599732442059516722530290974920960160294755235506766723260217404442903131793182368557548733519361163734997813309828682563808563594688914738587075870720, 624) := by
  show (initByArray (seedKey ((some 7).getD 0)), 624) = _
  rw [(by decide : seedKey ((some 7).getD 0) = [7])]
  show (wSet (mtSeedLoop2 ((mtSeedLoop1 [7] (initGenrand 19650218)).1,
    (mtSeedLoop1 [7] (initGenrand 19650218)).2.1)).1 0 (2 ^ 31), 624) = _
  rw [mtSeed7_base, mtSeed7_loop1]
  show (wSet (mtSeedLoop2 (46790174321154155386808379119907096440423999898786748003740358808096605768535401347588335067317353343072756573612616534866118539116736278650504758168434779017035381445060360794695970386065168149793293115366461048684322511161564965534708265487535535811762944216146314524214552422413751325040056354482243885149181238281389917524625135051169159748074002828257931014235954947217434064243829898007551039625270124243318998410528989820694398617086022648150430672782561854154848856943457892859120738895714904068101544419623875289793997834485385368904795780371655040192553475528489027609261656272563002922399873390698186268923321684354213217887065278346313954664397199892181197388371748849531311609755912423607534377952496391855540324638984656518530099328084279124442197699687443993868998518535886873818765652326448402627979253287762257434688245688081986205358109979393995537680138103813707008930735028222376566780973125956150379828011156418421549392912772917363185510611989669567844359858279819209983200304721073792518777516858015884838829548396806993597292573863856865887532891848250584692471337968148354084611419426356841449904659679781249764005554145850297589114669357175533299332849204296483106817587807230801952485413545675919615752659616982879164500000150362183003729787788605461735651522261954011794782823062983091669503516530125186181291242929756036815226863964515981951513939947291184849735564429831061344065055613926231625075967124755518705578251936088170329297903960210890545525955931638235207515160247916623635976862545594779608002402114167000938009638490856781825339015661119505229859517625537243044908300754682851376418940715539120722933957065947576943053597026848344124112977242325192884555716321568603399241130542363997813852456148198881412751896508940187482823861667423342324048125505315797160299945361271315641844399698167202774505758548850069355467755768013847181954745547265964289875078895419889181003062794057994180010749961877435246215413637756108223055188183818613226027739575423320107872030769970292062871775993045751385843803100238963403946335273348949734439391917672213369046700588005645580617241530604891559359779472093318101963234408848942594520179528620704185363561480705901369400238517487693756156301539890432527378140686259602117753070913972169725627717727286804808900231043081186301094116139676726105802990891720980523078688966222918729835654155336357169914781441532291962727375701235949758828797807484806438147925342145097685801265014519853101924363028406007402969321693592103871330360111024530998633915967740093809805383672959052994586297528110300310157529296148988126227251685132708015782142086402885609790833674155274399522675849639150590608753205745966372333495693421647734853600241921532105529865572643661769824251731337486353391136148384462952667921109820286858822865568502032679108110505028050185710496581422233548794320272817489923051738462343500033687621651329173329013309150825890597276750251210703750905322010658022668831639621649696686063507439650481447293245466216781842549580903427020644597066695736439915879892293890674407399861479988069201261461895952173873422303013446179289153298804418099859009012783637546068724240041169990881605023556566245532695489130191496189984840365486492755691781377964857871179837210821594606760851395475477707893176827351163030374014994232193960755680065811941901337104370865468523077880367912100727402181310773961011065794677610846205310214834035480644075038168443841493086950212823666632773979588894639349295762352554099303179103091977550865950634956726799600112668748532343192355325394776476900428977620038387304792412560302283966133092474472948790214957357017693463452981182346589404642928017733961274150650549330479295061544281756690296456810025277351351876652734195510135101282076670176803693790426618866172183558688705380797747462002841383471938784396441972387474553742299699454160291876476195211155150447833015654743187077467961573185311678059466767451231136669747013550169371263570514294567619445930731280187940230214351925307801115484440548968655359125970267081243545993345314723603556115464410224983211590983364284432966021928192552323961855428065576657564879906509484110595691014651233419985456093057927594898456041695179957254332939813448340701742640968879759126342649903062179180075349248982717385556970150372414696100408069315576921329546034041165600123429789930735874281188825987804227597255145269108380008434957897254117575352136517770329196724518611601817297468528623467560429026497039869037746725136435124381451078275691647326077790905185827167846498529087977591865113303152487311922397815419883827875162181917583943474140480889389348393168203227866954905124164105417119014800846990516521210787180910000365332637121589924401860671107391157764518740073440514119217985976198177471133466586358057236325837352367145316554641147898209349594721889426442850898891773890236852012114084382610104601903449064063236137741000707403807809478785597341228829645477502921790104286136773717608455318190749246730499648225744044367464867602590099662341294017751626879475968783862870718907918915010780677504526454430303255587862926719304148038466164825456797300344144133187660579530511256381422834253258827804107969745944651496904262430499734824334424728021769961627620427524640679381888100387048539042064852308689111336867595417586392665570673166053891478715324117707654483584138554331767319909058503558621079183537890919246280583093959231638626788015717724831647248936493959246129559005079661935202603052149423098276269614902013122043137300390284637372270493795558636060896628017952372264626125079852970299023185847201649165242797974053448328026599079153210927820163216149001097624683881761205981432027560054646981647502466139218095260807370547388338506881697157741612353213368168049462210304903809288724368581266938931018257656757201670797935965749327624191338523541052245063146288266750869089137637926614097561009106281738042818936700526545331036515226218802647472113436542128949619222566319918604189094965231908217202075434252348038369250, 2)).1 0 (2 ^ 31), 624) = _
  rw [mtSeed7_loop2]
  show (wSet (52839506161007317102949658614648297364742017287431299569114663797159194989118097241479019934633577185168903159570872018663860753952475932412300595952548334423407564414180677572998032268275813727350873038291773660024837810492831076458037479171414750942656523921055242358845559336606057601714362651684730997471576477326408081115159381310424245656482230372801242705078564548585157398045046179987278037498921973144542766434399572915894411823405009650378622176565423837093345255131541552274140824768573584004679562315565657174798123140116073611332542027990251082646623438121063657109608466223140977315295606517204675301107066211803052522341648386462886005149803784180382949855362902196938044618310009517606165246456306188145473724398573755383166888299229571593715584107865323863515437505644301006740244075494647114809453705725166251631897838376961336967207164249181440472806100145403143704132811057188894224649159503941481914875924739934017605053565245805732464584975129234216474483736139811448285031829899266056282982118323054544678076143495623722188654872041131062707407658513919403125661107395884536076598880521729564479345197799033777647350231445853546213000537530502544470712082516923508476675676925863217445718214120117455960259104308558998356037003658469836555723541892459883842656211478582958062928496216745750656670267020308213177737893666238605637080570844567650853683869191373861440129768131859742861371649961834348923264350749039619348019628375467432078901301315145353641580064186979285229647542164893655173527527201047524620917075738882029175025481859197618853946059608556966376079905184559610533213746993348169265225329784743524839720479513843238207415674062408601676751658393791354568705216137818617832940507534649574163014840710573028460874275325046443641695021041885169244426170844442995094754464082099607226306276061067399470275248025856454794982347325433281047724005789731352028419737068911086046537771519503685752190565278456735562095702356248756226171832395920748628660300013156324738188034484672429830126798410527149648678388567371935581495381107651689367753213574065268303962017599043956565843153310584387457375064534547251334850547090955733807486383075676744778170938241487121285106683791201902854754586039522220830066264460236137332289697521580279650840446188786626323255342253229170929697681105266387035465091433959478790483359475350506443589596532854710235285897447547694971656405838370989141786537270501136489943093066297280104171765606076015849465931768002015080158714300751769893812250733800371427067317165755434740031647854623160598565763834614847950379559103706305074951224176496418151538018966168736831099476077857264119680869587637257219355058097076176730654449449804361771497150778081187792784140095594619390194842396566918284008707324762274114053881723842297223150968272335195000566524411159762528043456450437912491775642181081538472104334934237841364605551203215628305912516040995353268955612920501355203971403794103007271830039240418116251324884036209187150471433945652799533192721077704721847795613403695300558940380651263028762979764121611906175710248933506227313209185601060922254022131944020631538926819600743278023309046620465275477024085103346932251264857690429574323489989372014385194026309520305648315251647247501166330252761876487828576695566923465697776612531602126458645289747145737539445855590823588240565206467649219281579201551482256476478874020243152264457686438848516030717391257705290544097465934972055344173226427171409117768485679053926256120170364289912218456828705377387332140525812582485000881762356799582102828526831590376300141311738128721731129115188609178918845072621787648271470002084430815789609641350008214395227205193310897741271177888614330202402508960924061979315178595634294805975584604991293468242338529800947602034235603297427730461081310625679920147649993347830862260311948616239685799790801941824627483070658509894709324316880005797647675834478421797548556775974340573320974601464773750214652595225335027518800695286371170791254431366955056640226623566611541049790636278785762394377428761629174082627799406782859458755445785127543597156932194915989641832162893079275987445855430374877295739203280390058960193937263787138979034632776175858967330116283148938614340153638569260649961719084979709121977749625117036887349727459968956159223547496079280382706320192075821144257518924200856749971644105690171933202697162399496126132864647071522789481785642154217123603617008085424936657798996727153462673884251181875012981498289134215741482409886894433210437235667800931397723509573791494709740928144338955606923650655903971389411680158222178336786988435403454158232366420761298604853827753953905319578001530773038902002987656495033326467004408916478089353161656473279881337748066018435125863861048012742209601947195278261214070589350932688345813432883218452524077683597974331210168541571403699976014084461427914669853596852815233996424682666524251588881065012766391597602871857840213494465395919362692077180529541812865046796724911230617296447445809886586364491113060652873877167073489015970531320567893363473168727777751836043688424072043777785171182281628623735843692940095457692569765076988186556366567269079221593534114598012936898817763863448985595812647876017317131067558000866227891911661471328876182591760854828910335301933786783841776358888590801318914021231766531494354838378987729812243128366663678312047995175208024682108477294198192340632169736010939920296347591781720172411900589530021567258709160386995223159674916141091625738499287140536211239091351899337119112759918916921097355374691942720016408281666513102815794633110267174466966149859048875992065575178901166316799701807440227640666058215112411818073510371612442177344690685505929962918977009466578886628866899782521127185859509280876143684496730295323095098186851834671918739016579575224907047934820271774988597131745151820549599732442059516722530290974920960160294755235506766723260217404442903131793182368557548733519361163734997813309828682563808563594688914738587377254038) 0 (2 ^ 31), 624) = _
  rw [(by decide : wSet (52839506161007317102949658614648297364742017287431299569114663797159194989118097241479019934633577185168903159570872018663860753952475932412300595952548334423407564414180677572998032268275813727350873038291773660024837810492831076458037479171414750942656523921055242358845559336606057601714362651684730997471576477326408081115159381310424245656482230372801242705078564548585157398045046179987278037498921973144542766434399572915894411823405009650378622176565423837093345255131541552274140824768573584004679562315565657174798123140116073611332542027990251082646623438121063657109608466223140977315295606517204675301107066211803052522341648386462886005149803784180382949855362902196938044618310009517606165246456306188145473724398573755383166888299229571593715584107865323863515437505644301006740244075494647114809453705725166251631897838376961336967207164249181440472806100145403143704132811057188894224649159503941481914875924739934017605053565245805732464584975129234216474483736139811448285031829899266056282982118323054544678076143495623722188654872041131062707407658513919403125661107395884536076598880521729564479345197799033777647350231445853546213000537530502544470712082516923508476675676925863217445718214120117455960259104308558998356037003658469836555723541892459883842656211478582958062928496216745750656670267020308213177737893666238605637080570844567650853683869191373861440129768131859742861371649961834348923264350749039619348019628375467432078901301315145353641580064186979285229647542164893655173527527201047524620917075738882029175025481859197618853946059608556966376079905184559610533213746993348169265225329784743524839720479513843238207415674062408601676751658393791354568705216137818617832940507534649574163014840710573028460874275325046443641695021041885169244426170844442995094754464082099607226306276061067399470275248025856454794982347325433281047724005789731352028419737068911086046537771519503685752190565278456735562095702356248756226171832395920748628660300013156324738188034484672429830126798410527149648678388567371935581495381107651689367753213574065268303962017599043956565843153310584387457375064534547251334850547090955733807486383075676744778170938241487121285106683791201902854754586039522220830066264460236137332289697521580279650840446188786626323255342253229170929697681105266387035465091433959478790483359475350506443589596532854710235285897447547694971656405838370989141786537270501136489943093066297280104171765606076015849465931768002015080158714300751769893812250733800371427067317165755434740031647854623160598565763834614847950379559103706305074951224176496418151538018966168736831099476077857264119680869587637257219355058097076176730654449449804361771497150778081187792784140095594619390194842396566918284008707324762274114053881723842297223150968272335195000566524411159762528043456450437912491775642181081538472104334934237841364605551203215628305912516040995353268955612920501355203971403794103007271830039240418116251324884036209187150471433945652799533192721077704721847795613403695300558940380651263028762979764121611906175710248933506227313209185601060922254022131944020631538926819600743278023309046620465275477024085103346932251264857690429574323489989372014385194026309520305648315251647247501166330252761876487828576695566923465697776612531602126458645289747145737539445855590823588240565206467649219281579201551482256476478874020243152264457686438848516030717391257705290544097465934972055344173226427171409117768485679053926256120170364289912218456828705377387332140525812582485000881762356799582102828526831590376300141311738128721731129115188609178918845072621787648271470002084430815789609641350008214395227205193310897741271177888614330202402508960924061979315178595634294805975584604991293468242338529800947602034235603297427730461081310625679920147649993347830862260311948616239685799790801941824627483070658509894709324316880005797647675834478421797548556775974340573320974601464773750214652595225335027518800695286371170791254431366955056640226623566611541049790636278785762394377428761629174082627799406782859458755445785127543597156932194915989641832162893079275987445855430374877295739203280390058960193937263787138979034632776175858967330116283148938614340153638569260649961719084979709121977749625117036887349727459968956159223547496079280382706320192075821144257518924200856749971644105690171933202697162399496126132864647071522789481785642154217123603617008085424936657798996727153462673884251181875012981498289134215741482409886894433210437235667800931397723509573791494709740928144338955606923650655903971389411680158222178336786988435403454158232366420761298604853827753953905319578001530773038902002987656495033326467004408916478089353161656473279881337748066018435125863861048012742209601947195278261214070589350932688345813432883218452524077683597974331210168541571403699976014084461427914669853596852815233996424682666524251588881065012766391597602871857840213494465395919362692077180529541812865046796724911230617296447445809886586364491113060652873877167073489015970531320567893363473168727777751836043688424072043777785171182281628623735843692940095457692569765076988186556366567269079221593534114598012936898817763863448985595812647876017317131067558000866227891911661471328876182591760854828910335301933786783841776358888590801318914021231766531494354838378987729812243128366663678312047995175208024682108477294198192340632169736010939920296347591781720172411900589530021567258709160386995223159674916141091625738499287140536211239091351899337119112759918916921097355374691942720016408281666513102815794633110267174466966149859048875992065575178901166316799701807440227640666058215112411818073510371612442177344690685505929962918977009466578886628866899782521127185859509280876143684496730295323095098186851834671918739016579575224907047934820271774988597131745151820549599732442059516722530290974920960160294755235506766723260217404442903131793182368557548733519361163734997813309828682563808563594688914738587377254038) 0 (2 ^ 31) = 52839506161007317102949658614648297364742017287431299569114663797159194989118097241479019934633577185168903159570872018663860753952475932412300595952548334423407564414180677572998032268275813727350873038291773660024837810492831076458037479171414750942656523921055242358845559336606057601714362651684730997471576477326408081115159381310424245656482230372801242705078564548585157398045046179987278037498921973144542766434399572915894411823405009650378622176565423837093345255131541552274140824768573584004679562315565657174798123140116073611332542027990251082646623438121063657109608466223140977315295606517204675301107066211803052522341648386462886005149803784180382949855362902196938044618310009517606165246456306188145473724398573755383166888299229571593715584107865323863515437505644301006740244075494647114809453705725166251631897838376961336967207164249181440472806100145403143704132811057188894224649159503941481914875924739934017605053565245805732464584975129234216474483736139811448285031829899266056282982118323054544678076143495623722188654872041131062707407658513919403125661107395884536076598880521729564479345197799033777647350231445853546213000537530502544470712082516923508476675676925863217445718214120117455960259104308558998356037003658469836555723541892459883842656211478582958062928496216745750656670267020308213177737893666238605637080570844567650853683869191373861440129768131859742861371649961834348923264350749039619348019628375467432078901301315145353641580064186979285229647542164893655173527527201047524620917075738882029175025481859197618853946059608556966376079905184559610533213746993348169265225329784743524839720479513843238207415674062408601676751658393791354568705216137818617832940507534649574163014840710573028460874275325046443641695021041885169244426170844442995094754464082099607226306276061067399470275248025856454794982347325433281047724005789731352028419737068911086046537771519503685752190565278456735562095702356248756226171832395920748628660300013156324738188034484672429830126798410527149648678388567371935581495381107651689367753213574065268303962017599043956565843153310584387457375064534547251334850547090955733807486383075676744778170938241487121285106683791201902854754586039522220830066264460236137332289697521580279650840446188786626323255342253229170929697681105266387035465091433959478790483359475350506443589596532854710235285897447547694971656405838370989141786537270501136489943093066297280104171765606076015849465931768002015080158714300751769893812250733800371427067317165755434740031647854623160598565763834614847950379559103706305074951224176496418151538018966168736831099476077857264119680869587637257219355058097076176730654449449804361771497150778081187792784140095594619390194842396566918284008707324762274114053881723842297223150968272335195000566524411159762528043456450437912491775642181081538472104334934237841364605551203215628305912516040995353268955612920501355203971403794103007271830039240418116251324884036209187150471433945652799533192721077704721847795613403695300558940380651263028762979764121611906175710248933506227313209185601060922254022131944020631538926819600743278023309046620465275477024085103346932251264857690429574323489989372014385194026309520305648315251647247501166330252761876487828576695566923465697776612531602126458645289747145737539445855590823588240565206467649219281579201551482256476478874020243152264457686438848516030717391257705290544097465934972055344173226427171409117768485679053926256120170364289912218456828705377387332140525812582485000881762356799582102828526831590376300141311738128721731129115188609178918845072621787648271470002084430815789609641350008214395227205193310897741271177888614330202402508960924061979315178595634294805975584604991293468242338529800947602034235603297427730461081310625679920147649993347830862260311948616239685799790801941824627483070658509894709324316880005797647675834478421797548556775974340573320974601464773750214652595225335027518800695286371170791254431366955056640226623566611541049790636278785762394377428761629174082627799406782859458755445785127543597156932194915989641832162893079275987445855430374877295739203280390058960193937263787138979034632776175858967330116283148938614340153638569260649961719084979709121977749625117036887349727459968956159223547496079280382706320192075821144257518924200856749971644105690171933202697162399496126132864647071522789481785642154217123603617008085424936657798996727153462673884251181875012981498289134215741482409886894433210437235667800931397723509573791494709740928144338955606923650655903971389411680158222178336786988435403454158232366420761298604853827753953905319578001530773038902002987656495033326467004408916478089353161656473279881337748066018435125863861048012742209601947195278261214070589350932688345813432883218452524077683597974331210168541571403699976014084461427914669853596852815233996424682666524251588881065012766391597602871857840213494465395919362692077180529541812865046796724911230617296447445809886586364491113060652873877167073489015970531320567893363473168727777751836043688424072043777785171182281628623735843692940095457692569765076988186556366567269079221593534114598012936898817763863448985595812647876017317131067558000866227891911661471328876182591760854828910335301933786783841776358888590801318914021231766531494354838378987729812243128366663678312047995175208024682108477294198192340632169736010939920296347591781720172411900589530021567258709160386995223159674916141091625738499287140536211239091351899337119112759918916921097355374691942720016408281666513102815794633110267174466966149859048875992065575178901166316799701807440227640666058215112411818073510371612442177344690685505929962918977009466578886628866899782521127185859509280876143684496730295323095098186851834671918739016579575224907047934820271774988597131745151820549599732442059516722530290974920960160294755235506766723260217404442903131793182368557548733519361163734997813309828682563808563594688914738587075870720)]

-- The two shuffles `random.Random(7)` performs on `{"s1": "AB"}`:
-- the first draw twists the seeded state and keeps the order
-- (`_randbelow(2) = 1`), the second swaps (`_randbelow(2) = 0`).
theorem mtSeed7_shuffle1 :
    randomize_sequences pyRandbelow [("s1", "AB")] (52839506161007317102949658614648297364742017287431299569114663797159194989118097241479019934633577185168903159570872018663860753952475932412300595952548334423407564414180677572998032268275813727350873038291773660024837810492831076458037479171414750942656523921055242358845559336606057601714362651684730997471576477326408081115159381310424245656482230372801242705078564548585157398045046179987278037498921973144542766434399572915894411823405009650378622176565423837093345255131541552274140824768573584004679562315565657174798123140116073611332542027990251082646623438121063657109608466223140977315295606517204675301107066211803052522341648386462886005149803784180382949855362902196938044618310009517606165246456306188145473724398573755383166888299229571593715584107865323863515437505644301006740244075494647114809453705725166251631897838376961336967207164249181440472806100145403143704132811057188894224649159503941481914875924739934017605053565245805732464584975129234216474483736139811448285031829899266056282982118323054544678076143495623722188654872041131062707407658513919403125661107395884536076598880521729564479345197799033777647350231445853546213000537530502544470712082516923508476675676925863217445718214120117455960259104308558998356037003658469836555723541892459883842656211478582958062928496216745750656670267020308213177737893666238605637080570844567650853683869191373861440129768131859742861371649961834348923264350749039619348019628375467432078901301315145353641580064186979285229647542164893655173527527201047524620917075738882029175025481859197618853946059608556966376079905184559610533213746993348169265225329784743524839720479513843238207415674062408601676751658393791354568705216137818617832940507534649574163014840710573028460874275325046443641695021041885169244426170844442995094754464082099607226306276061067399470275248025856454794982347325433281047724005789731352028419737068911086046537771519503685752190565278456735562095702356248756226171832395920748628660300013156324738188034484672429830126798410527149648678388567371935581495381107651689367753213574065268303962017599043956565843153310584387457375064534547251334850547090955733807486383075676744778170938241487121285106683791201902854754586039522220830066264460236137332289697521580279650840446188786626323255342253229170929697681105266387035465091433959478790483359475350506443589596532854710235285897447547694971656405838370989141786537270501136489943093066297280104171765606076015849465931768002015080158714300751769893812250733800371427067317165755434740031647854623160598565763834614847950379559103706305074951224176496418151538018966168736831099476077857264119680869587637257219355058097076176730654449449804361771497150778081187792784140095594619390194842396566918284008707324762274114053881723842297223150968272335195000566524411159762528043456450437912491775642181081538472104334934237841364605551203215628305912516040995353268955612920501355203971403794103007271830039240418116251324884036209187150471433945652799533192721077704721847795613403695300558940380651263028762979764121611906175710248933506227313209185601060922254022131944020631538926819600743278023309046620465275477024085103346932251264857690429574323489989372014385194026309520305648315251647247501166330252761876487828576695566923465697776612531602126458645289747145737539445855590823588240565206467649219281579201551482256476478874020243152264457686438848516030717391257705290544097465934972055344173226427171409117768485679053926256120170364289912218456828705377387332140525812582485000881762356799582102828526831590376300141311738128721731129115188609178918845072621787648271470002084430815789609641350008214395227205193310897741271177888614330202402508960924061979315178595634294805975584604991293468242338529800947602034235603297427730461081310625679920147649993347830862260311948616239685799790801941824627483070658509894709324316880005797647675834478421797548556775974340573320974601464773750214652595225335027518800695286371170791254431366955056640226623566611541049790636278785762394377428761629174082627799406782859458755445785127543597156932194915989641832162893079275987445855430374877295739203280390058960193937263787138979034632776175858967330116283148938614340153638569260649961719084979709121977749625117036887349727459968956159223547496079280382706320192075821144257518924200856749971644105690171933202697162399496126132864647071522789481785642154217123603617008085424936657798996727153462673884251181875012981498289134215741482409886894433210437235667800931397723509573791494709740928144338955606923650655903971389411680158222178336786988435403454158232366420761298604853827753953905319578001530773038902002987656495033326467004408916478089353161656473279881337748066018435125863861048012742209601947195278261214070589350932688345813432883218452524077683597974331210168541571403699976014084461427914669853596852815233996424682666524251588881065012766391597602871857840213494465395919362692077180529541812865046796724911230617296447445809886586364491113060652873877167073489015970531320567893363473168727777751836043688424072043777785171182281628623735843692940095457692569765076988186556366567269079221593534114598012936898817763863448985595812647876017317131067558000866227891911661471328876182591760854828910335301933786783841776358888590801318914021231766531494354838378987729812243128366663678312047995175208024682108477294198192340632169736010939920296347591781720172411900589530021567258709160386995223159674916141091625738499287140536211239091351899337119112759918916921097355374691942720016408281666513102815794633110267174466966149859048875992065575178901166316799701807440227640666058215112411818073510371612442177344690685505929962918977009466578886628866899782521127185859509280876143684496730295323095098186851834671918739016579575224907047934820271774988597131745151820549599732442059516722530290974920960160294755235506766723260217404442903131793182368557548733519361163734997813309828682563808563594688914738587075870720, 624) =
      ([("s1", "AB")], (20187124975868560780553724661745557735861729153059206100268838671774938011102366867657002093605826270143221120596155806439570112410620234523176723384830554921049596113888959371476682341701339338596753695820925308727765895807483023047880041589899801702066444890083927533468327868342803086789703341898919325472699609768217659437163760395119566500706730526800470112725979369912022209790162041172820839460807029389405812997791143144731336395968514680924746952055544107265682764121430624875286303285559656338649530207241995406302050957927691406456600737682307593608397502110341396743794221225146407712037002245518091773742604748725700962833866149049200785057558898496940926198880655226161020122671411103749227567682710328280670968319120237057815227929919042684783717392018121361161573351728002872738145357605411482681481484154548300354094431561014438886024647614849098480651362420377212499223616361539165718604191038119840700630245819118834011849488165205755982696136292900367181572504133429654710391374975398695704324296590144662595858812592787571206019316399033201745557178777161239155947274083890439346559032011231779843566737777613803118806973879969547962202173580758856085717103533221515924024523618809777311142255912863405676636784564529778714213312445256391456440432229020218716190229931871896803019335288023539041726695211677935153312923449032287658147630541794061775454858396025856745103826698019443482713576004979230618035822330954466289789602080530660344297600878844805363929770547347557774606678111099750934315095994155524140628749496096518291703231967122428045324026107109365319258498196612200627657279726395982700999895319675194525587809143249332839525062731178216485013604155554996742402090087353532426196783639566677397001695699437149245937937645081614281924576034233546981190449595476555041300064414806737412165850341940882859018474404749788739591464858343465705036778586747738877920190008656292305746939650380854871887969625523946705319083611829114229471088596766408858464039525922936718541285690775389668038310577335470731553032874729409952820029094389479960693263300945457251247100989602942469914409454818820031915094058326643329844836215096216645774501224757729224611454225928616657904997888291551556510706506870994873309511618025251713353944791334035473408262437809484800287760343484117688706803862246876883580506029292461112167230699196109166971100594996170428419522523623159017818989131641609737210617322370177007173394502909410297416275255903256212718464523886785933921725943413593227953393725708875086623934010263788432463856019007774739451164013105514479212394398624558721665915106093544599451053134247916299069283739708177451792032513504218024010804490702272708201541924485793278079780409192621429195292056433929968130101753140025149367993563392602620731860151653756318696995829547854194130827554030154449871796113026095796211040312201504140119860010887482373020479732163931329684702476310158772407410318309463416208915195887661987910797087951746239772044420889631899253797265684949268203091024916043668064620527554970428467423810399637634013183152436919801699722858938906183643024564330593178824957196888533341233222691789109044588734751381522029973466982709799042584584111561231428810679932557130589429445603138862635353303218124524289967928556138274121457624059232333506246230019135429227032238630995168826229157200637954100303970468820698499519388237293758882226183773876154960862778993129986480500201188251684699993500339320908743245570853158445292136451890939359261455696925092141286872006320267162776347331217313287645570576360487701729145356845560833829294101402783703547507479729647817067420670765214068005538620005998300262686942821221033292788178646529816211893923230248824927687994704673328642886207164335976567929284195979494836908487779137994706222010601973252088102771108964121575507795230424274175564429305502520616423405723373378660671060691634846534365110778465918069929673777475295826161349018538947628865405152113827622720431456831585982753181270258911427969015040974825828374518529804618046540920652098883198021342802085441847737321510137211032159408309945887175837047059183221539440352147766522163752587125095497812890289682231802381559640317621412829824309112984872728075429174690109282987181759818227485435265826622743122203452200564026045052577453723402355766897566207877208757147212860982308164874258422810465387958958022505376997194840161683377721116013014538628392297317639813119714749552539513773001607573763933858564667916944353815489668631396161304460989583986256757527933244354623533152104387839733968667261826202375398125965905085655044463779193561761968601048936480680386834632128509030999498606291211392286706097775579453868210887864111289030178294012985901715261878258596394582466592829770673868510657484392424079166140322328277115651897460481675542577727622617345755438688381922502020262186453829920381137087784905265341242580005449031627583616189955794874728527965862392168013651749394296455324450087349064489828918906621546779442786589104507711852697373477973191650916782990214517814033476422495097847383949233332627514124157128454074804273695534127065301345348136340533070940987824054026544118649955447012989361795217108493672023720355552997197928959658688125204516314827346623027035070369583702560894762836164867179104637752883152495139037123286920171325328670941290339345579236104267126635983836694542966163506327015511278934822214350820259624920883550988275670196374169802490698212509535197701181338933531211250004881999998398126147105745476518181256497628217386211288361203752755273264164037267034126134033383428382146861019538576956842427343768131921686183486894824996650242188865835688699596790686920253024920157694624196236532731421405037957386609313327517207993671746525325673701900911744702624752528499822545290902922817713568232304560351966428749312034558403257063285419628501409609744310164365818616768045605355848645824001953995680619338901552856943818896488303540643640741533046219946900917047583513470872876930681887006787811656783579, 1)) := by
  decide

theorem mtSeed7_shuffle2 :
    randomize_sequences pyRandbelow [("s1", "AB")] (20187124975868560780553724661745557735861729153059206100268838671774938011102366867657002093605826270143221120596155806439570112410620234523176723384830554921049596113888959371476682341701339338596753695820925308727765895807483023047880041589899801702066444890083927533468327868342803086789703341898919325472699609768217659437163760395119566500706730526800470112725979369912022209790162041172820839460807029389405812997791143144731336395968514680924746952055544107265682764121430624875286303285559656338649530207241995406302050957927691406456600737682307593608397502110341396743794221225146407712037002245518091773742604748725700962833866149049200785057558898496940926198880655226161020122671411103749227567682710328280670968319120237057815227929919042684783717392018121361161573351728002872738145357605411482681481484154548300354094431561014438886024647614849098480651362420377212499223616361539165718604191038119840700630245819118834011849488165205755982696136292900367181572504133429654710391374975398695704324296590144662595858812592787571206019316399033201745557178777161239155947274083890439346559032011231779843566737777613803118806973879969547962202173580758856085717103533221515924024523618809777311142255912863405676636784564529778714213312445256391456440432229020218716190229931871896803019335288023539041726695211677935153312923449032287658147630541794061775454858396025856745103826698019443482713576004979230618035822330954466289789602080530660344297600878844805363929770547347557774606678111099750934315095994155524140628749496096518291703231967122428045324026107109365319258498196612200627657279726395982700999895319675194525587809143249332839525062731178216485013604155554996742402090087353532426196783639566677397001695699437149245937937645081614281924576034233546981190449595476555041300064414806737412165850341940882859018474404749788739591464858343465705036778586747738877920190008656292305746939650380854871887969625523946705319083611829114229471088596766408858464039525922936718541285690775389668038310577335470731553032874729409952820029094389479960693263300945457251247100989602942469914409454818820031915094058326643329844836215096216645774501224757729224611454225928616657904997888291551556510706506870994873309511618025251713353944791334035473408262437809484800287760343484117688706803862246876883580506029292461112167230699196109166971100594996170428419522523623159017818989131641609737210617322370177007173394502909410297416275255903256212718464523886785933921725943413593227953393725708875086623934010263788432463856019007774739451164013105514479212394398624558721665915106093544599451053134247916299069283739708177451792032513504218024010804490702272708201541924485793278079780409192621429195292056433929968130101753140025149367993563392602620731860151653756318696995829547854194130827554030154449871796113026095796211040312201504140119860010887482373020479732163931329684702476310158772407410318309463416208915195887661987910797087951746239772044420889631899253797265684949268203091024916043668064620527554970428467423810399637634013183152436919801699722858938906183643024564330593178824957196888533341233222691789109044588734751381522029973466982709799042584584111561231428810679932557130589429445603138862635353303218124524289967928556138274121457624059232333506246230019135429227032238630995168826229157200637954100303970468820698499519388237293758882226183773876154960862778993129986480500201188251684699993500339320908743245570853158445292136451890939359261455696925092141286872006320267162776347331217313287645570576360487701729145356845560833829294101402783703547507479729647817067420670765214068005538620005998300262686942821221033292788178646529816211893923230248824927687994704673328642886207164335976567929284195979494836908487779137994706222010601973252088102771108964121575507795230424274175564429305502520616423405723373378660671060691634846534365110778465918069929673777475295826161349018538947628865405152113827622720431456831585982753181270258911427969015040974825828374518529804618046540920652098883198021342802085441847737321510137211032159408309945887175837047059183221539440352147766522163752587125095497812890289682231802381559640317621412829824309112984872728075429174690109282987181759818227485435265826622743122203452200564026045052577453723402355766897566207877208757147212860982308164874258422810465387958958022505376997194840161683377721116013014538628392297317639813119714749552539513773001607573763933858564667916944353815489668631396161304460989583986256757527933244354623533152104387839733968667261826202375398125965905085655044463779193561761968601048936480680386834632128509030999498606291211392286706097775579453868210887864111289030178294012985901715261878258596394582466592829770673868510657484392424079166140322328277115651897460481675542577727622617345755438688381922502020262186453829920381137087784905265341242580005449031627583616189955794874728527965862392168013651749394296455324450087349064489828918906621546779442786589104507711852697373477973191650916782990214517814033476422495097847383949233332627514124157128454074804273695534127065301345348136340533070940987824054026544118649955447012989361795217108493672023720355552997197928959658688125204516314827346623027035070369583702560894762836164867179104637752883152495139037123286920171325328670941290339345579236104267126635983836694542966163506327015511278934822214350820259624920883550988275670196374169802490698212509535197701181338933531211250004881999998398126147105745476518181256497628217386211288361203752755273264164037267034126134033383428382146861019538576956842427343768131921686183486894824996650242188865835688699596790686920253024920157694624196236532731421405037957386609313327517207993671746525325673701900911744702624752528499822545290902922817713568232304560351966428749312034558403257063285419628501409609744310164365818616768045605355848645824001953995680619338901552856943818896488303540643640741533046219946900917047583513470872876930681887006787811656783579, 1) =
      ([("s1", "BA")], (20187124975868560780553724661745557735861729153059206100268838671774938011102366867657002093605826270143221120596155806439570112410620234523176723384830554921049596113888959371476682341701339338596753695820925308727765895807483023047880041589899801702066444890083927533468327868342803086789703341898919325472699609768217659437163760395119566500706730526800470112725979369912022209790162041172820839460807029389405812997791143144731336395968514680924746952055544107265682764121430624875286303285559656338649530207241995406302050957927691406456600737682307593608397502110341396743794221225146407712037002245518091773742604748725700962833866149049200785057558898496940926198880655226161020122671411103749227567682710328280670968319120237057815227929919042684783717392018121361161573351728002872738145357605411482681481484154548300354094431561014438886024647614849098480651362420377212499223616361539165718604191038119840700630245819118834011849488165205755982696136292900367181572504133429654710391374975398695704324296590144662595858812592787571206019316399033201745557178777161239155947274083890439346559032011231779843566737777613803118806973879969547962202173580758856085717103533221515924024523618809777311142255912863405676636784564529778714213312445256391456440432229020218716190229931871896803019335288023539041726695211677935153312923449032287658147630541794061775454858396025856745103826698019443482713576004979230618035822330954466289789602080530660344297600878844805363929770547347557774606678111099750934315095994155524140628749496096518291703231967122428045324026107109365319258498196612200627657279726395982700999895319675194525587809143249332839525062731178216485013604155554996742402090087353532426196783639566677397001695699437149245937937645081614281924576034233546981190449595476555041300064414806737412165850341940882859018474404749788739591464858343465705036778586747738877920190008656292305746939650380854871887969625523946705319083611829114229471088596766408858464039525922936718541285690775389668038310577335470731553032874729409952820029094389479960693263300945457251247100989602942469914409454818820031915094058326643329844836215096216645774501224757729224611454225928616657904997888291551556510706506870994873309511618025251713353944791334035473408262437809484800287760343484117688706803862246876883580506029292461112167230699196109166971100594996170428419522523623159017818989131641609737210617322370177007173394502909410297416275255903256212718464523886785933921725943413593227953393725708875086623934010263788432463856019007774739451164013105514479212394398624558721665915106093544599451053134247916299069283739708177451792032513504218024010804490702272708201541924485793278079780409192621429195292056433929968130101753140025149367993563392602620731860151653756318696995829547854194130827554030154449871796113026095796211040312201504140119860010887482373020479732163931329684702476310158772407410318309463416208915195887661987910797087951746239772044420889631899253797265684949268203091024916043668064620527554970428467423810399637634013183152436919801699722858938906183643024564330593178824957196888533341233222691789109044588734751381522029973466982709799042584584111561231428810679932557130589429445603138862635353303218124524289967928556138274121457624059232333506246230019135429227032238630995168826229157200637954100303970468820698499519388237293758882226183773876154960862778993129986480500201188251684699993500339320908743245570853158445292136451890939359261455696925092141286872006320267162776347331217313287645570576360487701729145356845560833829294101402783703547507479729647817067420670765214068005538620005998300262686942821221033292788178646529816211893923230248824927687994704673328642886207164335976567929284195979494836908487779137994706222010601973252088102771108964121575507795230424274175564429305502520616423405723373378660671060691634846534365110778465918069929673777475295826161349018538947628865405152113827622720431456831585982753181270258911427969015040974825828374518529804618046540920652098883198021342802085441847737321510137211032159408309945887175837047059183221539440352147766522163752587125095497812890289682231802381559640317621412829824309112984872728075429174690109282987181759818227485435265826622743122203452200564026045052577453723402355766897566207877208757147212860982308164874258422810465387958958022505376997194840161683377721116013014538628392297317639813119714749552539513773001607573763933858564667916944353815489668631396161304460989583986256757527933244354623533152104387839733968667261826202375398125965905085655044463779193561761968601048936480680386834632128509030999498606291211392286706097775579453868210887864111289030178294012985901715261878258596394582466592829770673868510657484392424079166140322328277115651897460481675542577727622617345755438688381922502020262186453829920381137087784905265341242580005449031627583616189955794874728527965862392168013651749394296455324450087349064489828918906621546779442786589104507711852697373477973191650916782990214517814033476422495097847383949233332627514124157128454074804273695534127065301345348136340533070940987824054026544118649955447012989361795217108493672023720355552997197928959658688125204516314827346623027035070369583702560894762836164867179104637752883152495139037123286920171325328670941290339345579236104267126635983836694542966163506327015511278934822214350820259624920883550988275670196374169802490698212509535197701181338933531211250004881999998398126147105745476518181256497628217386211288361203752755273264164037267034126134033383428382146861019538576956842427343768131921686183486894824996650242188865835688699596790686920253024920157694624196236532731421405037957386609313327517207993671746525325673701900911744702624752528499822545290902922817713568232304560351966428749312034558403257063285419628501409609744310164365818616768045605355848645824001953995680619338901552856943818896488303540643640741533046219946900917047583513470872876930681887006787811656783579, 3)) := by
  decide

/-- C2 counterexample: with the collection `{"s1": "AB"}`, seed 7 and
2 trials, `random.Random(7)` shuffles `"s1"` to `"AB"` in trial 1 and
to `"BA"` in trial 2 (its first two `_randbelow(2)` draws are 1 and
0); a callback scanning `"s1"` for the two-character motif `"BA"`
therefore first sees motif `"M"` in trial 2, and `run_baseline`
records the Trial Count Table entry `[1]` for it: length 1, not the
configured trial count 2 -- trial 1 is not zero-filled. -/
theorem run_baseline_no_backfill :
    (run_baseline [("s1", "AB")] cexScanBA 2 (some 7)).random_counts =
      [("M", [1])] ∧
    dget (run_baseline [("s1", "AB")] cexScanBA 2
      (some 7)).random_counts "M" = some [1] ∧
    ([1] : List Int).length ≠ 2 := by
  have htc1 : trialCounts [("s1", "AB")] cexScanBA (52839506161007317102949658614648297364742017287431299569114663797159194989118097241479019934633577185168903159570872018663860753952475932412300595952548334423407564414180677572998032268275813727350873038291773660024837810492831076458037479171414750942656523921055242358845559336606057601714362651684730997471576477326408081115159381310424245656482230372801242705078564548585157398045046179987278037498921973144542766434399572915894411823405009650378622176565423837093345255131541552274140824768573584004679562315565657174798123140116073611332542027990251082646623438121063657109608466223140977315295606517204675301107066211803052522341648386462886005149803784180382949855362902196938044618310009517606165246456306188145473724398573755383166888299229571593715584107865323863515437505644301006740244075494647114809453705725166251631897838376961336967207164249181440472806100145403143704132811057188894224649159503941481914875924739934017605053565245805732464584975129234216474483736139811448285031829899266056282982118323054544678076143495623722188654872041131062707407658513919403125661107395884536076598880521729564479345197799033777647350231445853546213000537530502544470712082516923508476675676925863217445718214120117455960259104308558998356037003658469836555723541892459883842656211478582958062928496216745750656670267020308213177737893666238605637080570844567650853683869191373861440129768131859742861371649961834348923264350749039619348019628375467432078901301315145353641580064186979285229647542164893655173527527201047524620917075738882029175025481859197618853946059608556966376079905184559610533213746993348169265225329784743524839720479513843238207415674062408601676751658393791354568705216137818617832940507534649574163014840710573028460874275325046443641695021041885169244426170844442995094754464082099607226306276061067399470275248025856454794982347325433281047724005789731352028419737068911086046537771519503685752190565278456735562095702356248756226171832395920748628660300013156324738188034484672429830126798410527149648678388567371935581495381107651689367753213574065268303962017599043956565843153310584387457375064534547251334850547090955733807486383075676744778170938241487121285106683791201902854754586039522220830066264460236137332289697521580279650840446188786626323255342253229170929697681105266387035465091433959478790483359475350506443589596532854710235285897447547694971656405838370989141786537270501136489943093066297280104171765606076015849465931768002015080158714300751769893812250733800371427067317165755434740031647854623160598565763834614847950379559103706305074951224176496418151538018966168736831099476077857264119680869587637257219355058097076176730654449449804361771497150778081187792784140095594619390194842396566918284008707324762274114053881723842297223150968272335195000566524411159762528043456450437912491775642181081538472104334934237841364605551203215628305912516040995353268955612920501355203971403794103007271830039240418116251324884036209187150471433945652799533192721077704721847795613403695300558940380651263028762979764121611906175710248933506227313209185601060922254022131944020631538926819600743278023309046620465275477024085103346932251264857690429574323489989372014385194026309520305648315251647247501166330252761876487828576695566923465697776612531602126458645289747145737539445855590823588240565206467649219281579201551482256476478874020243152264457686438848516030717391257705290544097465934972055344173226427171409117768485679053926256120170364289912218456828705377387332140525812582485000881762356799582102828526831590376300141311738128721731129115188609178918845072621787648271470002084430815789609641350008214395227205193310897741271177888614330202402508960924061979315178595634294805975584604991293468242338529800947602034235603297427730461081310625679920147649993347830862260311948616239685799790801941824627483070658509894709324316880005797647675834478421797548556775974340573320974601464773750214652595225335027518800695286371170791254431366955056640226623566611541049790636278785762394377428761629174082627799406782859458755445785127543597156932194915989641832162893079275987445855430374877295739203280390058960193937263787138979034632776175858967330116283148938614340153638569260649961719084979709121977749625117036887349727459968956159223547496079280382706320192075821144257518924200856749971644105690171933202697162399496126132864647071522789481785642154217123603617008085424936657798996727153462673884251181875012981498289134215741482409886894433210437235667800931397723509573791494709740928144338955606923650655903971389411680158222178336786988435403454158232366420761298604853827753953905319578001530773038902002987656495033326467004408916478089353161656473279881337748066018435125863861048012742209601947195278261214070589350932688345813432883218452524077683597974331210168541571403699976014084461427914669853596852815233996424682666524251588881065012766391597602871857840213494465395919362692077180529541812865046796724911230617296447445809886586364491113060652873877167073489015970531320567893363473168727777751836043688424072043777785171182281628623735843692940095457692569765076988186556366567269079221593534114598012936898817763863448985595812647876017317131067558000866227891911661471328876182591760854828910335301933786783841776358888590801318914021231766531494354838378987729812243128366663678312047995175208024682108477294198192340632169736010939920296347591781720172411900589530021567258709160386995223159674916141091625738499287140536211239091351899337119112759918916921097355374691942720016408281666513102815794633110267174466966149859048875992065575178901166316799701807440227640666058215112411818073510371612442177344690685505929962918977009466578886628866899782521127185859509280876143684496730295323095098186851834671918739016579575224907047934820271774988597131745151820549599732442059516722530290974920960160294755235506766723260217404442903131793182368557548733519361163734997813309828682563808563594688914738587075870720, 624) = [] := by
    rw [trialCounts, mtSeed7_shuffle1]
    decide
  have hts1 : trialStep [("s1", "AB")] (52839506161007317102949658614648297364742017287431299569114663797159194989118097241479019934633577185168903159570872018663860753952475932412300595952548334423407564414180677572998032268275813727350873038291773660024837810492831076458037479171414750942656523921055242358845559336606057601714362651684730997471576477326408081115159381310424245656482230372801242705078564548585157398045046179987278037498921973144542766434399572915894411823405009650378622176565423837093345255131541552274140824768573584004679562315565657174798123140116073611332542027990251082646623438121063657109608466223140977315295606517204675301107066211803052522341648386462886005149803784180382949855362902196938044618310009517606165246456306188145473724398573755383166888299229571593715584107865323863515437505644301006740244075494647114809453705725166251631897838376961336967207164249181440472806100145403143704132811057188894224649159503941481914875924739934017605053565245805732464584975129234216474483736139811448285031829899266056282982118323054544678076143495623722188654872041131062707407658513919403125661107395884536076598880521729564479345197799033777647350231445853546213000537530502544470712082516923508476675676925863217445718214120117455960259104308558998356037003658469836555723541892459883842656211478582958062928496216745750656670267020308213177737893666238605637080570844567650853683869191373861440129768131859742861371649961834348923264350749039619348019628375467432078901301315145353641580064186979285229647542164893655173527527201047524620917075738882029175025481859197618853946059608556966376079905184559610533213746993348169265225329784743524839720479513843238207415674062408601676751658393791354568705216137818617832940507534649574163014840710573028460874275325046443641695021041885169244426170844442995094754464082099607226306276061067399470275248025856454794982347325433281047724005789731352028419737068911086046537771519503685752190565278456735562095702356248756226171832395920748628660300013156324738188034484672429830126798410527149648678388567371935581495381107651689367753213574065268303962017599043956565843153310584387457375064534547251334850547090955733807486383075676744778170938241487121285106683791201902854754586039522220830066264460236137332289697521580279650840446188786626323255342253229170929697681105266387035465091433959478790483359475350506443589596532854710235285897447547694971656405838370989141786537270501136489943093066297280104171765606076015849465931768002015080158714300751769893812250733800371427067317165755434740031647854623160598565763834614847950379559103706305074951224176496418151538018966168736831099476077857264119680869587637257219355058097076176730654449449804361771497150778081187792784140095594619390194842396566918284008707324762274114053881723842297223150968272335195000566524411159762528043456450437912491775642181081538472104334934237841364605551203215628305912516040995353268955612920501355203971403794103007271830039240418116251324884036209187150471433945652799533192721077704721847795613403695300558940380651263028762979764121611906175710248933506227313209185601060922254022131944020631538926819600743278023309046620465275477024085103346932251264857690429574323489989372014385194026309520305648315251647247501166330252761876487828576695566923465697776612531602126458645289747145737539445855590823588240565206467649219281579201551482256476478874020243152264457686438848516030717391257705290544097465934972055344173226427171409117768485679053926256120170364289912218456828705377387332140525812582485000881762356799582102828526831590376300141311738128721731129115188609178918845072621787648271470002084430815789609641350008214395227205193310897741271177888614330202402508960924061979315178595634294805975584604991293468242338529800947602034235603297427730461081310625679920147649993347830862260311948616239685799790801941824627483070658509894709324316880005797647675834478421797548556775974340573320974601464773750214652595225335027518800695286371170791254431366955056640226623566611541049790636278785762394377428761629174082627799406782859458755445785127543597156932194915989641832162893079275987445855430374877295739203280390058960193937263787138979034632776175858967330116283148938614340153638569260649961719084979709121977749625117036887349727459968956159223547496079280382706320192075821144257518924200856749971644105690171933202697162399496126132864647071522789481785642154217123603617008085424936657798996727153462673884251181875012981498289134215741482409886894433210437235667800931397723509573791494709740928144338955606923650655903971389411680158222178336786988435403454158232366420761298604853827753953905319578001530773038902002987656495033326467004408916478089353161656473279881337748066018435125863861048012742209601947195278261214070589350932688345813432883218452524077683597974331210168541571403699976014084461427914669853596852815233996424682666524251588881065012766391597602871857840213494465395919362692077180529541812865046796724911230617296447445809886586364491113060652873877167073489015970531320567893363473168727777751836043688424072043777785171182281628623735843692940095457692569765076988186556366567269079221593534114598012936898817763863448985595812647876017317131067558000866227891911661471328876182591760854828910335301933786783841776358888590801318914021231766531494354838378987729812243128366663678312047995175208024682108477294198192340632169736010939920296347591781720172411900589530021567258709160386995223159674916141091625738499287140536211239091351899337119112759918916921097355374691942720016408281666513102815794633110267174466966149859048875992065575178901166316799701807440227640666058215112411818073510371612442177344690685505929962918977009466578886628866899782521127185859509280876143684496730295323095098186851834671918739016579575224907047934820271774988597131745151820549599732442059516722530290974920960160294755235506766723260217404442903131793182368557548733519361163734997813309828682563808563594688914738587075870720, 624) = (20187124975868560780553724661745557735861729153059206100268838671774938011102366867657002093605826270143221120596155806439570112410620234523176723384830554921049596113888959371476682341701339338596753695820925308727765895807483023047880041589899801702066444890083927533468327868342803086789703341898919325472699609768217659437163760395119566500706730526800470112725979369912022209790162041172820839460807029389405812997791143144731336395968514680924746952055544107265682764121430624875286303285559656338649530207241995406302050957927691406456600737682307593608397502110341396743794221225146407712037002245518091773742604748725700962833866149049200785057558898496940926198880655226161020122671411103749227567682710328280670968319120237057815227929919042684783717392018121361161573351728002872738145357605411482681481484154548300354094431561014438886024647614849098480651362420377212499223616361539165718604191038119840700630245819118834011849488165205755982696136292900367181572504133429654710391374975398695704324296590144662595858812592787571206019316399033201745557178777161239155947274083890439346559032011231779843566737777613803118806973879969547962202173580758856085717103533221515924024523618809777311142255912863405676636784564529778714213312445256391456440432229020218716190229931871896803019335288023539041726695211677935153312923449032287658147630541794061775454858396025856745103826698019443482713576004979230618035822330954466289789602080530660344297600878844805363929770547347557774606678111099750934315095994155524140628749496096518291703231967122428045324026107109365319258498196612200627657279726395982700999895319675194525587809143249332839525062731178216485013604155554996742402090087353532426196783639566677397001695699437149245937937645081614281924576034233546981190449595476555041300064414806737412165850341940882859018474404749788739591464858343465705036778586747738877920190008656292305746939650380854871887969625523946705319083611829114229471088596766408858464039525922936718541285690775389668038310577335470731553032874729409952820029094389479960693263300945457251247100989602942469914409454818820031915094058326643329844836215096216645774501224757729224611454225928616657904997888291551556510706506870994873309511618025251713353944791334035473408262437809484800287760343484117688706803862246876883580506029292461112167230699196109166971100594996170428419522523623159017818989131641609737210617322370177007173394502909410297416275255903256212718464523886785933921725943413593227953393725708875086623934010263788432463856019007774739451164013105514479212394398624558721665915106093544599451053134247916299069283739708177451792032513504218024010804490702272708201541924485793278079780409192621429195292056433929968130101753140025149367993563392602620731860151653756318696995829547854194130827554030154449871796113026095796211040312201504140119860010887482373020479732163931329684702476310158772407410318309463416208915195887661987910797087951746239772044420889631899253797265684949268203091024916043668064620527554970428467423810399637634013183152436919801699722858938906183643024564330593178824957196888533341233222691789109044588734751381522029973466982709799042584584111561231428810679932557130589429445603138862635353303218124524289967928556138274121457624059232333506246230019135429227032238630995168826229157200637954100303970468820698499519388237293758882226183773876154960862778993129986480500201188251684699993500339320908743245570853158445292136451890939359261455696925092141286872006320267162776347331217313287645570576360487701729145356845560833829294101402783703547507479729647817067420670765214068005538620005998300262686942821221033292788178646529816211893923230248824927687994704673328642886207164335976567929284195979494836908487779137994706222010601973252088102771108964121575507795230424274175564429305502520616423405723373378660671060691634846534365110778465918069929673777475295826161349018538947628865405152113827622720431456831585982753181270258911427969015040974825828374518529804618046540920652098883198021342802085441847737321510137211032159408309945887175837047059183221539440352147766522163752587125095497812890289682231802381559640317621412829824309112984872728075429174690109282987181759818227485435265826622743122203452200564026045052577453723402355766897566207877208757147212860982308164874258422810465387958958022505376997194840161683377721116013014538628392297317639813119714749552539513773001607573763933858564667916944353815489668631396161304460989583986256757527933244354623533152104387839733968667261826202375398125965905085655044463779193561761968601048936480680386834632128509030999498606291211392286706097775579453868210887864111289030178294012985901715261878258596394582466592829770673868510657484392424079166140322328277115651897460481675542577727622617345755438688381922502020262186453829920381137087784905265341242580005449031627583616189955794874728527965862392168013651749394296455324450087349064489828918906621546779442786589104507711852697373477973191650916782990214517814033476422495097847383949233332627514124157128454074804273695534127065301345348136340533070940987824054026544118649955447012989361795217108493672023720355552997197928959658688125204516314827346623027035070369583702560894762836164867179104637752883152495139037123286920171325328670941290339345579236104267126635983836694542966163506327015511278934822214350820259624920883550988275670196374169802490698212509535197701181338933531211250004881999998398126147105745476518181256497628217386211288361203752755273264164037267034126134033383428382146861019538576956842427343768131921686183486894824996650242188865835688699596790686920253024920157694624196236532731421405037957386609313327517207993671746525325673701900911744702624752528499822545290902922817713568232304560351966428749312034558403257063285419628501409609744310164365818616768045605355848645824001953995680619338901552856943818896488303540643640741533046219946900917047583513470872876930681887006787811656783579, 1) := by
    rw [trialStep, mtSeed7_shuffle1]
  have htc2 : trialCounts [("s1", "AB")] cexScanBA (20187124975868560780553724661745557735861729153059206100268838671774938011102366867657002093605826270143221120596155806439570112410620234523176723384830554921049596113888959371476682341701339338596753695820925308727765895807483023047880041589899801702066444890083927533468327868342803086789703341898919325472699609768217659437163760395119566500706730526800470112725979369912022209790162041172820839460807029389405812997791143144731336395968514680924746952055544107265682764121430624875286303285559656338649530207241995406302050957927691406456600737682307593608397502110341396743794221225146407712037002245518091773742604748725700962833866149049200785057558898496940926198880655226161020122671411103749227567682710328280670968319120237057815227929919042684783717392018121361161573351728002872738145357605411482681481484154548300354094431561014438886024647614849098480651362420377212499223616361539165718604191038119840700630245819118834011849488165205755982696136292900367181572504133429654710391374975398695704324296590144662595858812592787571206019316399033201745557178777161239155947274083890439346559032011231779843566737777613803118806973879969547962202173580758856085717103533221515924024523618809777311142255912863405676636784564529778714213312445256391456440432229020218716190229931871896803019335288023539041726695211677935153312923449032287658147630541794061775454858396025856745103826698019443482713576004979230618035822330954466289789602080530660344297600878844805363929770547347557774606678111099750934315095994155524140628749496096518291703231967122428045324026107109365319258498196612200627657279726395982700999895319675194525587809143249332839525062731178216485013604155554996742402090087353532426196783639566677397001695699437149245937937645081614281924576034233546981190449595476555041300064414806737412165850341940882859018474404749788739591464858343465705036778586747738877920190008656292305746939650380854871887969625523946705319083611829114229471088596766408858464039525922936718541285690775389668038310577335470731553032874729409952820029094389479960693263300945457251247100989602942469914409454818820031915094058326643329844836215096216645774501224757729224611454225928616657904997888291551556510706506870994873309511618025251713353944791334035473408262437809484800287760343484117688706803862246876883580506029292461112167230699196109166971100594996170428419522523623159017818989131641609737210617322370177007173394502909410297416275255903256212718464523886785933921725943413593227953393725708875086623934010263788432463856019007774739451164013105514479212394398624558721665915106093544599451053134247916299069283739708177451792032513504218024010804490702272708201541924485793278079780409192621429195292056433929968130101753140025149367993563392602620731860151653756318696995829547854194130827554030154449871796113026095796211040312201504140119860010887482373020479732163931329684702476310158772407410318309463416208915195887661987910797087951746239772044420889631899253797265684949268203091024916043668064620527554970428467423810399637634013183152436919801699722858938906183643024564330593178824957196888533341233222691789109044588734751381522029973466982709799042584584111561231428810679932557130589429445603138862635353303218124524289967928556138274121457624059232333506246230019135429227032238630995168826229157200637954100303970468820698499519388237293758882226183773876154960862778993129986480500201188251684699993500339320908743245570853158445292136451890939359261455696925092141286872006320267162776347331217313287645570576360487701729145356845560833829294101402783703547507479729647817067420670765214068005538620005998300262686942821221033292788178646529816211893923230248824927687994704673328642886207164335976567929284195979494836908487779137994706222010601973252088102771108964121575507795230424274175564429305502520616423405723373378660671060691634846534365110778465918069929673777475295826161349018538947628865405152113827622720431456831585982753181270258911427969015040974825828374518529804618046540920652098883198021342802085441847737321510137211032159408309945887175837047059183221539440352147766522163752587125095497812890289682231802381559640317621412829824309112984872728075429174690109282987181759818227485435265826622743122203452200564026045052577453723402355766897566207877208757147212860982308164874258422810465387958958022505376997194840161683377721116013014538628392297317639813119714749552539513773001607573763933858564667916944353815489668631396161304460989583986256757527933244354623533152104387839733968667261826202375398125965905085655044463779193561761968601048936480680386834632128509030999498606291211392286706097775579453868210887864111289030178294012985901715261878258596394582466592829770673868510657484392424079166140322328277115651897460481675542577727622617345755438688381922502020262186453829920381137087784905265341242580005449031627583616189955794874728527965862392168013651749394296455324450087349064489828918906621546779442786589104507711852697373477973191650916782990214517814033476422495097847383949233332627514124157128454074804273695534127065301345348136340533070940987824054026544118649955447012989361795217108493672023720355552997197928959658688125204516314827346623027035070369583702560894762836164867179104637752883152495139037123286920171325328670941290339345579236104267126635983836694542966163506327015511278934822214350820259624920883550988275670196374169802490698212509535197701181338933531211250004881999998398126147105745476518181256497628217386211288361203752755273264164037267034126134033383428382146861019538576956842427343768131921686183486894824996650242188865835688699596790686920253024920157694624196236532731421405037957386609313327517207993671746525325673701900911744702624752528499822545290902922817713568232304560351966428749312034558403257063285419628501409609744310164365818616768045605355848645824001953995680619338901552856943818896488303540643640741533046219946900917047583513470872876930681887006787811656783579, 1) =
      [("M", 1)] := by
    rw [trialCounts, mtSeed7_shuffle2]
    decide
  have hts2 : trialStep [("s1", "AB")] (20187124975868560780553724661745557735861729153059206100268838671774938011102366867657002093605826270143221120596155806439570112410620234523176723384830554921049596113888959371476682341701339338596753695820925308727765895807483023047880041589899801702066444890083927533468327868342803086789703341898919325472699609768217659437163760395119566500706730526800470112725979369912022209790162041172820839460807029389405812997791143144731336395968514680924746952055544107265682764121430624875286303285559656338649530207241995406302050957927691406456600737682307593608397502110341396743794221225146407712037002245518091773742604748725700962833866149049200785057558898496940926198880655226161020122671411103749227567682710328280670968319120237057815227929919042684783717392018121361161573351728002872738145357605411482681481484154548300354094431561014438886024647614849098480651362420377212499223616361539165718604191038119840700630245819118834011849488165205755982696136292900367181572504133429654710391374975398695704324296590144662595858812592787571206019316399033201745557178777161239155947274083890439346559032011231779843566737777613803118806973879969547962202173580758856085717103533221515924024523618809777311142255912863405676636784564529778714213312445256391456440432229020218716190229931871896803019335288023539041726695211677935153312923449032287658147630541794061775454858396025856745103826698019443482713576004979230618035822330954466289789602080530660344297600878844805363929770547347557774606678111099750934315095994155524140628749496096518291703231967122428045324026107109365319258498196612200627657279726395982700999895319675194525587809143249332839525062731178216485013604155554996742402090087353532426196783639566677397001695699437149245937937645081614281924576034233546981190449595476555041300064414806737412165850341940882859018474404749788739591464858343465705036778586747738877920190008656292305746939650380854871887969625523946705319083611829114229471088596766408858464039525922936718541285690775389668038310577335470731553032874729409952820029094389479960693263300945457251247100989602942469914409454818820031915094058326643329844836215096216645774501224757729224611454225928616657904997888291551556510706506870994873309511618025251713353944791334035473408262437809484800287760343484117688706803862246876883580506029292461112167230699196109166971100594996170428419522523623159017818989131641609737210617322370177007173394502909410297416275255903256212718464523886785933921725943413593227953393725708875086623934010263788432463856019007774739451164013105514479212394398624558721665915106093544599451053134247916299069283739708177451792032513504218024010804490702272708201541924485793278079780409192621429195292056433929968130101753140025149367993563392602620731860151653756318696995829547854194130827554030154449871796113026095796211040312201504140119860010887482373020479732163931329684702476310158772407410318309463416208915195887661987910797087951746239772044420889631899253797265684949268203091024916043668064620527554970428467423810399637634013183152436919801699722858938906183643024564330593178824957196888533341233222691789109044588734751381522029973466982709799042584584111561231428810679932557130589429445603138862635353303218124524289967928556138274121457624059232333506246230019135429227032238630995168826229157200637954100303970468820698499519388237293758882226183773876154960862778993129986480500201188251684699993500339320908743245570853158445292136451890939359261455696925092141286872006320267162776347331217313287645570576360487701729145356845560833829294101402783703547507479729647817067420670765214068005538620005998300262686942821221033292788178646529816211893923230248824927687994704673328642886207164335976567929284195979494836908487779137994706222010601973252088102771108964121575507795230424274175564429305502520616423405723373378660671060691634846534365110778465918069929673777475295826161349018538947628865405152113827622720431456831585982753181270258911427969015040974825828374518529804618046540920652098883198021342802085441847737321510137211032159408309945887175837047059183221539440352147766522163752587125095497812890289682231802381559640317621412829824309112984872728075429174690109282987181759818227485435265826622743122203452200564026045052577453723402355766897566207877208757147212860982308164874258422810465387958958022505376997194840161683377721116013014538628392297317639813119714749552539513773001607573763933858564667916944353815489668631396161304460989583986256757527933244354623533152104387839733968667261826202375398125965905085655044463779193561761968601048936480680386834632128509030999498606291211392286706097775579453868210887864111289030178294012985901715261878258596394582466592829770673868510657484392424079166140322328277115651897460481675542577727622617345755438688381922502020262186453829920381137087784905265341242580005449031627583616189955794874728527965862392168013651749394296455324450087349064489828918906621546779442786589104507711852697373477973191650916782990214517814033476422495097847383949233332627514124157128454074804273695534127065301345348136340533070940987824054026544118649955447012989361795217108493672023720355552997197928959658688125204516314827346623027035070369583702560894762836164867179104637752883152495139037123286920171325328670941290339345579236104267126635983836694542966163506327015511278934822214350820259624920883550988275670196374169802490698212509535197701181338933531211250004881999998398126147105745476518181256497628217386211288361203752755273264164037267034126134033383428382146861019538576956842427343768131921686183486894824996650242188865835688699596790686920253024920157694624196236532731421405037957386609313327517207993671746525325673701900911744702624752528499822545290902922817713568232304560351966428749312034558403257063285419628501409609744310164365818616768045605355848645824001953995680619338901552856943818896488303540643640741533046219946900917047583513470872876930681887006787811656783579, 1) = (20187124975868560780553724661745557735861729153059206100268838671774938011102366867657002093605826270143221120596155806439570112410620234523176723384830554921049596113888959371476682341701339338596753695820925308727765895807483023047880041589899801702066444890083927533468327868342803086789703341898919325472699609768217659437163760395119566500706730526800470112725979369912022209790162041172820839460807029389405812997791143144731336395968514680924746952055544107265682764121430624875286303285559656338649530207241995406302050957927691406456600737682307593608397502110341396743794221225146407712037002245518091773742604748725700962833866149049200785057558898496940926198880655226161020122671411103749227567682710328280670968319120237057815227929919042684783717392018121361161573351728002872738145357605411482681481484154548300354094431561014438886024647614849098480651362420377212499223616361539165718604191038119840700630245819118834011849488165205755982696136292900367181572504133429654710391374975398695704324296590144662595858812592787571206019316399033201745557178777161239155947274083890439346559032011231779843566737777613803118806973879969547962202173580758856085717103533221515924024523618809777311142255912863405676636784564529778714213312445256391456440432229020218716190229931871896803019335288023539041726695211677935153312923449032287658147630541794061775454858396025856745103826698019443482713576004979230618035822330954466289789602080530660344297600878844805363929770547347557774606678111099750934315095994155524140628749496096518291703231967122428045324026107109365319258498196612200627657279726395982700999895319675194525587809143249332839525062731178216485013604155554996742402090087353532426196783639566677397001695699437149245937937645081614281924576034233546981190449595476555041300064414806737412165850341940882859018474404749788739591464858343465705036778586747738877920190008656292305746939650380854871887969625523946705319083611829114229471088596766408858464039525922936718541285690775389668038310577335470731553032874729409952820029094389479960693263300945457251247100989602942469914409454818820031915094058326643329844836215096216645774501224757729224611454225928616657904997888291551556510706506870994873309511618025251713353944791334035473408262437809484800287760343484117688706803862246876883580506029292461112167230699196109166971100594996170428419522523623159017818989131641609737210617322370177007173394502909410297416275255903256212718464523886785933921725943413593227953393725708875086623934010263788432463856019007774739451164013105514479212394398624558721665915106093544599451053134247916299069283739708177451792032513504218024010804490702272708201541924485793278079780409192621429195292056433929968130101753140025149367993563392602620731860151653756318696995829547854194130827554030154449871796113026095796211040312201504140119860010887482373020479732163931329684702476310158772407410318309463416208915195887661987910797087951746239772044420889631899253797265684949268203091024916043668064620527554970428467423810399637634013183152436919801699722858938906183643024564330593178824957196888533341233222691789109044588734751381522029973466982709799042584584111561231428810679932557130589429445603138862635353303218124524289967928556138274121457624059232333506246230019135429227032238630995168826229157200637954100303970468820698499519388237293758882226183773876154960862778993129986480500201188251684699993500339320908743245570853158445292136451890939359261455696925092141286872006320267162776347331217313287645570576360487701729145356845560833829294101402783703547507479729647817067420670765214068005538620005998300262686942821221033292788178646529816211893923230248824927687994704673328642886207164335976567929284195979494836908487779137994706222010601973252088102771108964121575507795230424274175564429305502520616423405723373378660671060691634846534365110778465918069929673777475295826161349018538947628865405152113827622720431456831585982753181270258911427969015040974825828374518529804618046540920652098883198021342802085441847737321510137211032159408309945887175837047059183221539440352147766522163752587125095497812890289682231802381559640317621412829824309112984872728075429174690109282987181759818227485435265826622743122203452200564026045052577453723402355766897566207877208757147212860982308164874258422810465387958958022505376997194840161683377721116013014538628392297317639813119714749552539513773001607573763933858564667916944353815489668631396161304460989583986256757527933244354623533152104387839733968667261826202375398125965905085655044463779193561761968601048936480680386834632128509030999498606291211392286706097775579453868210887864111289030178294012985901715261878258596394582466592829770673868510657484392424079166140322328277115651897460481675542577727622617345755438688381922502020262186453829920381137087784905265341242580005449031627583616189955794874728527965862392168013651749394296455324450087349064489828918906621546779442786589104507711852697373477973191650916782990214517814033476422495097847383949233332627514124157128454074804273695534127065301345348136340533070940987824054026544118649955447012989361795217108493672023720355552997197928959658688125204516314827346623027035070369583702560894762836164867179104637752883152495139037123286920171325328670941290339345579236104267126635983836694542966163506327015511278934822214350820259624920883550988275670196374169802490698212509535197701181338933531211250004881999998398126147105745476518181256497628217386211288361203752755273264164037267034126134033383428382146861019538576956842427343768131921686183486894824996650242188865835688699596790686920253024920157694624196236532731421405037957386609313327517207993671746525325673701900911744702624752528499822545290902922817713568232304560351966428749312034558403257063285419628501409609744310164365818616768045605355848645824001953995680619338901552856943818896488303540643640741533046219946900917047583513470872876930681887006787811656783579, 3) := by
    rw [trialStep, mtSeed7_shuffle2]
  have hrun : (runTrials [("s1", "AB")] cexScanBA 2 [] (52839506161007317102949658614648297364742017287431299569114663797159194989118097241479019934633577185168903159570872018663860753952475932412300595952548334423407564414180677572998032268275813727350873038291773660024837810492831076458037479171414750942656523921055242358845559336606057601714362651684730997471576477326408081115159381310424245656482230372801242705078564548585157398045046179987278037498921973144542766434399572915894411823405009650378622176565423837093345255131541552274140824768573584004679562315565657174798123140116073611332542027990251082646623438121063657109608466223140977315295606517204675301107066211803052522341648386462886005149803784180382949855362902196938044618310009517606165246456306188145473724398573755383166888299229571593715584107865323863515437505644301006740244075494647114809453705725166251631897838376961336967207164249181440472806100145403143704132811057188894224649159503941481914875924739934017605053565245805732464584975129234216474483736139811448285031829899266056282982118323054544678076143495623722188654872041131062707407658513919403125661107395884536076598880521729564479345197799033777647350231445853546213000537530502544470712082516923508476675676925863217445718214120117455960259104308558998356037003658469836555723541892459883842656211478582958062928496216745750656670267020308213177737893666238605637080570844567650853683869191373861440129768131859742861371649961834348923264350749039619348019628375467432078901301315145353641580064186979285229647542164893655173527527201047524620917075738882029175025481859197618853946059608556966376079905184559610533213746993348169265225329784743524839720479513843238207415674062408601676751658393791354568705216137818617832940507534649574163014840710573028460874275325046443641695021041885169244426170844442995094754464082099607226306276061067399470275248025856454794982347325433281047724005789731352028419737068911086046537771519503685752190565278456735562095702356248756226171832395920748628660300013156324738188034484672429830126798410527149648678388567371935581495381107651689367753213574065268303962017599043956565843153310584387457375064534547251334850547090955733807486383075676744778170938241487121285106683791201902854754586039522220830066264460236137332289697521580279650840446188786626323255342253229170929697681105266387035465091433959478790483359475350506443589596532854710235285897447547694971656405838370989141786537270501136489943093066297280104171765606076015849465931768002015080158714300751769893812250733800371427067317165755434740031647854623160598565763834614847950379559103706305074951224176496418151538018966168736831099476077857264119680869587637257219355058097076176730654449449804361771497150778081187792784140095594619390194842396566918284008707324762274114053881723842297223150968272335195000566524411159762528043456450437912491775642181081538472104334934237841364605551203215628305912516040995353268955612920501355203971403794103007271830039240418116251324884036209187150471433945652799533192721077704721847795613403695300558940380651263028762979764121611906175710248933506227313209185601060922254022131944020631538926819600743278023309046620465275477024085103346932251264857690429574323489989372014385194026309520305648315251647247501166330252761876487828576695566923465697776612531602126458645289747145737539445855590823588240565206467649219281579201551482256476478874020243152264457686438848516030717391257705290544097465934972055344173226427171409117768485679053926256120170364289912218456828705377387332140525812582485000881762356799582102828526831590376300141311738128721731129115188609178918845072621787648271470002084430815789609641350008214395227205193310897741271177888614330202402508960924061979315178595634294805975584604991293468242338529800947602034235603297427730461081310625679920147649993347830862260311948616239685799790801941824627483070658509894709324316880005797647675834478421797548556775974340573320974601464773750214652595225335027518800695286371170791254431366955056640226623566611541049790636278785762394377428761629174082627799406782859458755445785127543597156932194915989641832162893079275987445855430374877295739203280390058960193937263787138979034632776175858967330116283148938614340153638569260649961719084979709121977749625117036887349727459968956159223547496079280382706320192075821144257518924200856749971644105690171933202697162399496126132864647071522789481785642154217123603617008085424936657798996727153462673884251181875012981498289134215741482409886894433210437235667800931397723509573791494709740928144338955606923650655903971389411680158222178336786988435403454158232366420761298604853827753953905319578001530773038902002987656495033326467004408916478089353161656473279881337748066018435125863861048012742209601947195278261214070589350932688345813432883218452524077683597974331210168541571403699976014084461427914669853596852815233996424682666524251588881065012766391597602871857840213494465395919362692077180529541812865046796724911230617296447445809886586364491113060652873877167073489015970531320567893363473168727777751836043688424072043777785171182281628623735843692940095457692569765076988186556366567269079221593534114598012936898817763863448985595812647876017317131067558000866227891911661471328876182591760854828910335301933786783841776358888590801318914021231766531494354838378987729812243128366663678312047995175208024682108477294198192340632169736010939920296347591781720172411900589530021567258709160386995223159674916141091625738499287140536211239091351899337119112759918916921097355374691942720016408281666513102815794633110267174466966149859048875992065575178901166316799701807440227640666058215112411818073510371612442177344690685505929962918977009466578886628866899782521127185859509280876143684496730295323095098186851834671918739016579575224907047934820271774988597131745151820549599732442059516722530290974920960160294755235506766723260217404442903131793182368557548733519361163734997813309828682563808563594688914738587075870720, 624)).1 =
      [("M", [1])] := by
    rw [show runTrials [("s1", "AB")] cexScanBA 2 [] (52839506161007317102949658614648297364742017287431299569114663797159194989118097241479019934633577185168903159570872018663860753952475932412300595952548334423407564414180677572998032268275813727350873038291773660024837810492831076458037479171414750942656523921055242358845559336606057601714362651684730997471576477326408081115159381310424245656482230372801242705078564548585157398045046179987278037498921973144542766434399572915894411823405009650378622176565423837093345255131541552274140824768573584004679562315565657174798123140116073611332542027990251082646623438121063657109608466223140977315295606517204675301107066211803052522341648386462886005149803784180382949855362902196938044618310009517606165246456306188145473724398573755383166888299229571593715584107865323863515437505644301006740244075494647114809453705725166251631897838376961336967207164249181440472806100145403143704132811057188894224649159503941481914875924739934017605053565245805732464584975129234216474483736139811448285031829899266056282982118323054544678076143495623722188654872041131062707407658513919403125661107395884536076598880521729564479345197799033777647350231445853546213000537530502544470712082516923508476675676925863217445718214120117455960259104308558998356037003658469836555723541892459883842656211478582958062928496216745750656670267020308213177737893666238605637080570844567650853683869191373861440129768131859742861371649961834348923264350749039619348019628375467432078901301315145353641580064186979285229647542164893655173527527201047524620917075738882029175025481859197618853946059608556966376079905184559610533213746993348169265225329784743524839720479513843238207415674062408601676751658393791354568705216137818617832940507534649574163014840710573028460874275325046443641695021041885169244426170844442995094754464082099607226306276061067399470275248025856454794982347325433281047724005789731352028419737068911086046537771519503685752190565278456735562095702356248756226171832395920748628660300013156324738188034484672429830126798410527149648678388567371935581495381107651689367753213574065268303962017599043956565843153310584387457375064534547251334850547090955733807486383075676744778170938241487121285106683791201902854754586039522220830066264460236137332289697521580279650840446188786626323255342253229170929697681105266387035465091433959478790483359475350506443589596532854710235285897447547694971656405838370989141786537270501136489943093066297280104171765606076015849465931768002015080158714300751769893812250733800371427067317165755434740031647854623160598565763834614847950379559103706305074951224176496418151538018966168736831099476077857264119680869587637257219355058097076176730654449449804361771497150778081187792784140095594619390194842396566918284008707324762274114053881723842297223150968272335195000566524411159762528043456450437912491775642181081538472104334934237841364605551203215628305912516040995353268955612920501355203971403794103007271830039240418116251324884036209187150471433945652799533192721077704721847795613403695300558940380651263028762979764121611906175710248933506227313209185601060922254022131944020631538926819600743278023309046620465275477024085103346932251264857690429574323489989372014385194026309520305648315251647247501166330252761876487828576695566923465697776612531602126458645289747145737539445855590823588240565206467649219281579201551482256476478874020243152264457686438848516030717391257705290544097465934972055344173226427171409117768485679053926256120170364289912218456828705377387332140525812582485000881762356799582102828526831590376300141311738128721731129115188609178918845072621787648271470002084430815789609641350008214395227205193310897741271177888614330202402508960924061979315178595634294805975584604991293468242338529800947602034235603297427730461081310625679920147649993347830862260311948616239685799790801941824627483070658509894709324316880005797647675834478421797548556775974340573320974601464773750214652595225335027518800695286371170791254431366955056640226623566611541049790636278785762394377428761629174082627799406782859458755445785127543597156932194915989641832162893079275987445855430374877295739203280390058960193937263787138979034632776175858967330116283148938614340153638569260649961719084979709121977749625117036887349727459968956159223547496079280382706320192075821144257518924200856749971644105690171933202697162399496126132864647071522789481785642154217123603617008085424936657798996727153462673884251181875012981498289134215741482409886894433210437235667800931397723509573791494709740928144338955606923650655903971389411680158222178336786988435403454158232366420761298604853827753953905319578001530773038902002987656495033326467004408916478089353161656473279881337748066018435125863861048012742209601947195278261214070589350932688345813432883218452524077683597974331210168541571403699976014084461427914669853596852815233996424682666524251588881065012766391597602871857840213494465395919362692077180529541812865046796724911230617296447445809886586364491113060652873877167073489015970531320567893363473168727777751836043688424072043777785171182281628623735843692940095457692569765076988186556366567269079221593534114598012936898817763863448985595812647876017317131067558000866227891911661471328876182591760854828910335301933786783841776358888590801318914021231766531494354838378987729812243128366663678312047995175208024682108477294198192340632169736010939920296347591781720172411900589530021567258709160386995223159674916141091625738499287140536211239091351899337119112759918916921097355374691942720016408281666513102815794633110267174466966149859048875992065575178901166316799701807440227640666058215112411818073510371612442177344690685505929962918977009466578886628866899782521127185859509280876143684496730295323095098186851834671918739016579575224907047934820271774988597131745151820549599732442059516722530290974920960160294755235506766723260217404442903131793182368557548733519361163734997813309828682563808563594688914738587075870720, 624) =
        runTrials [("s1", "AB")] cexScanBA 1
          (appendCounts
            (addMissing [] (trialCounts [("s1", "AB")] cexScanBA
              (52839506161007317102949658614648297364742017287431299569114663797159194989118097241479019934633577185168903159570872018663860753952475932412300595952548334423407564414180677572998032268275813727350873038291773660024837810492831076458037479171414750942656523921055242358845559336606057601714362651684730997471576477326408081115159381310424245656482230372801242705078564548585157398045046179987278037498921973144542766434399572915894411823405009650378622176565423837093345255131541552274140824768573584004679562315565657174798123140116073611332542027990251082646623438121063657109608466223140977315295606517204675301107066211803052522341648386462886005149803784180382949855362902196938044618310009517606165246456306188145473724398573755383166888299229571593715584107865323863515437505644301006740244075494647114809453705725166251631897838376961336967207164249181440472806100145403143704132811057188894224649159503941481914875924739934017605053565245805732464584975129234216474483736139811448285031829899266056282982118323054544678076143495623722188654872041131062707407658513919403125661107395884536076598880521729564479345197799033777647350231445853546213000537530502544470712082516923508476675676925863217445718214120117455960259104308558998356037003658469836555723541892459883842656211478582958062928496216745750656670267020308213177737893666238605637080570844567650853683869191373861440129768131859742861371649961834348923264350749039619348019628375467432078901301315145353641580064186979285229647542164893655173527527201047524620917075738882029175025481859197618853946059608556966376079905184559610533213746993348169265225329784743524839720479513843238207415674062408601676751658393791354568705216137818617832940507534649574163014840710573028460874275325046443641695021041885169244426170844442995094754464082099607226306276061067399470275248025856454794982347325433281047724005789731352028419737068911086046537771519503685752190565278456735562095702356248756226171832395920748628660300013156324738188034484672429830126798410527149648678388567371935581495381107651689367753213574065268303962017599043956565843153310584387457375064534547251334850547090955733807486383075676744778170938241487121285106683791201902854754586039522220830066264460236137332289697521580279650840446188786626323255342253229170929697681105266387035465091433959478790483359475350506443589596532854710235285897447547694971656405838370989141786537270501136489943093066297280104171765606076015849465931768002015080158714300751769893812250733800371427067317165755434740031647854623160598565763834614847950379559103706305074951224176496418151538018966168736831099476077857264119680869587637257219355058097076176730654449449804361771497150778081187792784140095594619390194842396566918284008707324762274114053881723842297223150968272335195000566524411159762528043456450437912491775642181081538472104334934237841364605551203215628305912516040995353268955612920501355203971403794103007271830039240418116251324884036209187150471433945652799533192721077704721847795613403695300558940380651263028762979764121611906175710248933506227313209185601060922254022131944020631538926819600743278023309046620465275477024085103346932251264857690429574323489989372014385194026309520305648315251647247501166330252761876487828576695566923465697776612531602126458645289747145737539445855590823588240565206467649219281579201551482256476478874020243152264457686438848516030717391257705290544097465934972055344173226427171409117768485679053926256120170364289912218456828705377387332140525812582485000881762356799582102828526831590376300141311738128721731129115188609178918845072621787648271470002084430815789609641350008214395227205193310897741271177888614330202402508960924061979315178595634294805975584604991293468242338529800947602034235603297427730461081310625679920147649993347830862260311948616239685799790801941824627483070658509894709324316880005797647675834478421797548556775974340573320974601464773750214652595225335027518800695286371170791254431366955056640226623566611541049790636278785762394377428761629174082627799406782859458755445785127543597156932194915989641832162893079275987445855430374877295739203280390058960193937263787138979034632776175858967330116283148938614340153638569260649961719084979709121977749625117036887349727459968956159223547496079280382706320192075821144257518924200856749971644105690171933202697162399496126132864647071522789481785642154217123603617008085424936657798996727153462673884251181875012981498289134215741482409886894433210437235667800931397723509573791494709740928144338955606923650655903971389411680158222178336786988435403454158232366420761298604853827753953905319578001530773038902002987656495033326467004408916478089353161656473279881337748066018435125863861048012742209601947195278261214070589350932688345813432883218452524077683597974331210168541571403699976014084461427914669853596852815233996424682666524251588881065012766391597602871857840213494465395919362692077180529541812865046796724911230617296447445809886586364491113060652873877167073489015970531320567893363473168727777751836043688424072043777785171182281628623735843692940095457692569765076988186556366567269079221593534114598012936898817763863448985595812647876017317131067558000866227891911661471328876182591760854828910335301933786783841776358888590801318914021231766531494354838378987729812243128366663678312047995175208024682108477294198192340632169736010939920296347591781720172411900589530021567258709160386995223159674916141091625738499287140536211239091351899337119112759918916921097355374691942720016408281666513102815794633110267174466966149859048875992065575178901166316799701807440227640666058215112411818073510371612442177344690685505929962918977009466578886628866899782521127185859509280876143684496730295323095098186851834671918739016579575224907047934820271774988597131745151820549599732442059516722530290974920960160294755235506766723260217404442903131793182368557548733519361163734997813309828682563808563594688914738587075870720, 624)))
            (trialCounts [("s1", "AB")] cexScanBA (52839506161007317102949658614648297364742017287431299569114663797159194989118097241479019934633577185168903159570872018663860753952475932412300595952548334423407564414180677572998032268275813727350873038291773660024837810492831076458037479171414750942656523921055242358845559336606057601714362651684730997471576477326408081115159381310424245656482230372801242705078564548585157398045046179987278037498921973144542766434399572915894411823405009650378622176565423837093345255131541552274140824768573584004679562315565657174798123140116073611332542027990251082646623438121063657109608466223140977315295606517204675301107066211803052522341648386462886005149803784180382949855362902196938044618310009517606165246456306188145473724398573755383166888299229571593715584107865323863515437505644301006740244075494647114809453705725166251631897838376961336967207164249181440472806100145403143704132811057188894224649159503941481914875924739934017605053565245805732464584975129234216474483736139811448285031829899266056282982118323054544678076143495623722188654872041131062707407658513919403125661107395884536076598880521729564479345197799033777647350231445853546213000537530502544470712082516923508476675676925863217445718214120117455960259104308558998356037003658469836555723541892459883842656211478582958062928496216745750656670267020308213177737893666238605637080570844567650853683869191373861440129768131859742861371649961834348923264350749039619348019628375467432078901301315145353641580064186979285229647542164893655173527527201047524620917075738882029175025481859197618853946059608556966376079905184559610533213746993348169265225329784743524839720479513843238207415674062408601676751658393791354568705216137818617832940507534649574163014840710573028460874275325046443641695021041885169244426170844442995094754464082099607226306276061067399470275248025856454794982347325433281047724005789731352028419737068911086046537771519503685752190565278456735562095702356248756226171832395920748628660300013156324738188034484672429830126798410527149648678388567371935581495381107651689367753213574065268303962017599043956565843153310584387457375064534547251334850547090955733807486383075676744778170938241487121285106683791201902854754586039522220830066264460236137332289697521580279650840446188786626323255342253229170929697681105266387035465091433959478790483359475350506443589596532854710235285897447547694971656405838370989141786537270501136489943093066297280104171765606076015849465931768002015080158714300751769893812250733800371427067317165755434740031647854623160598565763834614847950379559103706305074951224176496418151538018966168736831099476077857264119680869587637257219355058097076176730654449449804361771497150778081187792784140095594619390194842396566918284008707324762274114053881723842297223150968272335195000566524411159762528043456450437912491775642181081538472104334934237841364605551203215628305912516040995353268955612920501355203971403794103007271830039240418116251324884036209187150471433945652799533192721077704721847795613403695300558940380651263028762979764121611906175710248933506227313209185601060922254022131944020631538926819600743278023309046620465275477024085103346932251264857690429574323489989372014385194026309520305648315251647247501166330252761876487828576695566923465697776612531602126458645289747145737539445855590823588240565206467649219281579201551482256476478874020243152264457686438848516030717391257705290544097465934972055344173226427171409117768485679053926256120170364289912218456828705377387332140525812582485000881762356799582102828526831590376300141311738128721731129115188609178918845072621787648271470002084430815789609641350008214395227205193310897741271177888614330202402508960924061979315178595634294805975584604991293468242338529800947602034235603297427730461081310625679920147649993347830862260311948616239685799790801941824627483070658509894709324316880005797647675834478421797548556775974340573320974601464773750214652595225335027518800695286371170791254431366955056640226623566611541049790636278785762394377428761629174082627799406782859458755445785127543597156932194915989641832162893079275987445855430374877295739203280390058960193937263787138979034632776175858967330116283148938614340153638569260649961719084979709121977749625117036887349727459968956159223547496079280382706320192075821144257518924200856749971644105690171933202697162399496126132864647071522789481785642154217123603617008085424936657798996727153462673884251181875012981498289134215741482409886894433210437235667800931397723509573791494709740928144338955606923650655903971389411680158222178336786988435403454158232366420761298604853827753953905319578001530773038902002987656495033326467004408916478089353161656473279881337748066018435125863861048012742209601947195278261214070589350932688345813432883218452524077683597974331210168541571403699976014084461427914669853596852815233996424682666524251588881065012766391597602871857840213494465395919362692077180529541812865046796724911230617296447445809886586364491113060652873877167073489015970531320567893363473168727777751836043688424072043777785171182281628623735843692940095457692569765076988186556366567269079221593534114598012936898817763863448985595812647876017317131067558000866227891911661471328876182591760854828910335301933786783841776358888590801318914021231766531494354838378987729812243128366663678312047995175208024682108477294198192340632169736010939920296347591781720172411900589530021567258709160386995223159674916141091625738499287140536211239091351899337119112759918916921097355374691942720016408281666513102815794633110267174466966149859048875992065575178901166316799701807440227640666058215112411818073510371612442177344690685505929962918977009466578886628866899782521127185859509280876143684496730295323095098186851834671918739016579575224907047934820271774988597131745151820549599732442059516722530290974920960160294755235506766723260217404442903131793182368557548733519361163734997813309828682563808563594688914738587075870720, 624)))
          (trialStep [("s1", "AB")] (52839506161007317102949658614648297364742017287431299569114663797159194989118097241479019934633577185168903159570872018663860753952475932412300595952548334423407564414180677572998032268275813727350873038291773660024837810492831076458037479171414750942656523921055242358845559336606057601714362651684730997471576477326408081115159381310424245656482230372801242705078564548585157398045046179987278037498921973144542766434399572915894411823405009650378622176565423837093345255131541552274140824768573584004679562315565657174798123140116073611332542027990251082646623438121063657109608466223140977315295606517204675301107066211803052522341648386462886005149803784180382949855362902196938044618310009517606165246456306188145473724398573755383166888299229571593715584107865323863515437505644301006740244075494647114809453705725166251631897838376961336967207164249181440472806100145403143704132811057188894224649159503941481914875924739934017605053565245805732464584975129234216474483736139811448285031829899266056282982118323054544678076143495623722188654872041131062707407658513919403125661107395884536076598880521729564479345197799033777647350231445853546213000537530502544470712082516923508476675676925863217445718214120117455960259104308558998356037003658469836555723541892459883842656211478582958062928496216745750656670267020308213177737893666238605637080570844567650853683869191373861440129768131859742861371649961834348923264350749039619348019628375467432078901301315145353641580064186979285229647542164893655173527527201047524620917075738882029175025481859197618853946059608556966376079905184559610533213746993348169265225329784743524839720479513843238207415674062408601676751658393791354568705216137818617832940507534649574163014840710573028460874275325046443641695021041885169244426170844442995094754464082099607226306276061067399470275248025856454794982347325433281047724005789731352028419737068911086046537771519503685752190565278456735562095702356248756226171832395920748628660300013156324738188034484672429830126798410527149648678388567371935581495381107651689367753213574065268303962017599043956565843153310584387457375064534547251334850547090955733807486383075676744778170938241487121285106683791201902854754586039522220830066264460236137332289697521580279650840446188786626323255342253229170929697681105266387035465091433959478790483359475350506443589596532854710235285897447547694971656405838370989141786537270501136489943093066297280104171765606076015849465931768002015080158714300751769893812250733800371427067317165755434740031647854623160598565763834614847950379559103706305074951224176496418151538018966168736831099476077857264119680869587637257219355058097076176730654449449804361771497150778081187792784140095594619390194842396566918284008707324762274114053881723842297223150968272335195000566524411159762528043456450437912491775642181081538472104334934237841364605551203215628305912516040995353268955612920501355203971403794103007271830039240418116251324884036209187150471433945652799533192721077704721847795613403695300558940380651263028762979764121611906175710248933506227313209185601060922254022131944020631538926819600743278023309046620465275477024085103346932251264857690429574323489989372014385194026309520305648315251647247501166330252761876487828576695566923465697776612531602126458645289747145737539445855590823588240565206467649219281579201551482256476478874020243152264457686438848516030717391257705290544097465934972055344173226427171409117768485679053926256120170364289912218456828705377387332140525812582485000881762356799582102828526831590376300141311738128721731129115188609178918845072621787648271470002084430815789609641350008214395227205193310897741271177888614330202402508960924061979315178595634294805975584604991293468242338529800947602034235603297427730461081310625679920147649993347830862260311948616239685799790801941824627483070658509894709324316880005797647675834478421797548556775974340573320974601464773750214652595225335027518800695286371170791254431366955056640226623566611541049790636278785762394377428761629174082627799406782859458755445785127543597156932194915989641832162893079275987445855430374877295739203280390058960193937263787138979034632776175858967330116283148938614340153638569260649961719084979709121977749625117036887349727459968956159223547496079280382706320192075821144257518924200856749971644105690171933202697162399496126132864647071522789481785642154217123603617008085424936657798996727153462673884251181875012981498289134215741482409886894433210437235667800931397723509573791494709740928144338955606923650655903971389411680158222178336786988435403454158232366420761298604853827753953905319578001530773038902002987656495033326467004408916478089353161656473279881337748066018435125863861048012742209601947195278261214070589350932688345813432883218452524077683597974331210168541571403699976014084461427914669853596852815233996424682666524251588881065012766391597602871857840213494465395919362692077180529541812865046796724911230617296447445809886586364491113060652873877167073489015970531320567893363473168727777751836043688424072043777785171182281628623735843692940095457692569765076988186556366567269079221593534114598012936898817763863448985595812647876017317131067558000866227891911661471328876182591760854828910335301933786783841776358888590801318914021231766531494354838378987729812243128366663678312047995175208024682108477294198192340632169736010939920296347591781720172411900589530021567258709160386995223159674916141091625738499287140536211239091351899337119112759918916921097355374691942720016408281666513102815794633110267174466966149859048875992065575178901166316799701807440227640666058215112411818073510371612442177344690685505929962918977009466578886628866899782521127185859509280876143684496730295323095098186851834671918739016579575224907047934820271774988597131745151820549599732442059516722530290974920960160294755235506766723260217404442903131793182368557548733519361163734997813309828682563808563594688914738587075870720, 624)) from rfl]
    rw [htc1, hts1]
    rw [show runTrials [("s1", "AB")] cexScanBA 1
        (appendCounts (addMissing [] []) []) (20187124975868560780553724661745557735861729153059206100268838671774938011102366867657002093605826270143221120596155806439570112410620234523176723384830554921049596113888959371476682341701339338596753695820925308727765895807483023047880041589899801702066444890083927533468327868342803086789703341898919325472699609768217659437163760395119566500706730526800470112725979369912022209790162041172820839460807029389405812997791143144731336395968514680924746952055544107265682764121430624875286303285559656338649530207241995406302050957927691406456600737682307593608397502110341396743794221225146407712037002245518091773742604748725700962833866149049200785057558898496940926198880655226161020122671411103749227567682710328280670968319120237057815227929919042684783717392018121361161573351728002872738145357605411482681481484154548300354094431561014438886024647614849098480651362420377212499223616361539165718604191038119840700630245819118834011849488165205755982696136292900367181572504133429654710391374975398695704324296590144662595858812592787571206019316399033201745557178777161239155947274083890439346559032011231779843566737777613803118806973879969547962202173580758856085717103533221515924024523618809777311142255912863405676636784564529778714213312445256391456440432229020218716190229931871896803019335288023539041726695211677935153312923449032287658147630541794061775454858396025856745103826698019443482713576004979230618035822330954466289789602080530660344297600878844805363929770547347557774606678111099750934315095994155524140628749496096518291703231967122428045324026107109365319258498196612200627657279726395982700999895319675194525587809143249332839525062731178216485013604155554996742402090087353532426196783639566677397001695699437149245937937645081614281924576034233546981190449595476555041300064414806737412165850341940882859018474404749788739591464858343465705036778586747738877920190008656292305746939650380854871887969625523946705319083611829114229471088596766408858464039525922936718541285690775389668038310577335470731553032874729409952820029094389479960693263300945457251247100989602942469914409454818820031915094058326643329844836215096216645774501224757729224611454225928616657904997888291551556510706506870994873309511618025251713353944791334035473408262437809484800287760343484117688706803862246876883580506029292461112167230699196109166971100594996170428419522523623159017818989131641609737210617322370177007173394502909410297416275255903256212718464523886785933921725943413593227953393725708875086623934010263788432463856019007774739451164013105514479212394398624558721665915106093544599451053134247916299069283739708177451792032513504218024010804490702272708201541924485793278079780409192621429195292056433929968130101753140025149367993563392602620731860151653756318696995829547854194130827554030154449871796113026095796211040312201504140119860010887482373020479732163931329684702476310158772407410318309463416208915195887661987910797087951746239772044420889631899253797265684949268203091024916043668064620527554970428467423810399637634013183152436919801699722858938906183643024564330593178824957196888533341233222691789109044588734751381522029973466982709799042584584111561231428810679932557130589429445603138862635353303218124524289967928556138274121457624059232333506246230019135429227032238630995168826229157200637954100303970468820698499519388237293758882226183773876154960862778993129986480500201188251684699993500339320908743245570853158445292136451890939359261455696925092141286872006320267162776347331217313287645570576360487701729145356845560833829294101402783703547507479729647817067420670765214068005538620005998300262686942821221033292788178646529816211893923230248824927687994704673328642886207164335976567929284195979494836908487779137994706222010601973252088102771108964121575507795230424274175564429305502520616423405723373378660671060691634846534365110778465918069929673777475295826161349018538947628865405152113827622720431456831585982753181270258911427969015040974825828374518529804618046540920652098883198021342802085441847737321510137211032159408309945887175837047059183221539440352147766522163752587125095497812890289682231802381559640317621412829824309112984872728075429174690109282987181759818227485435265826622743122203452200564026045052577453723402355766897566207877208757147212860982308164874258422810465387958958022505376997194840161683377721116013014538628392297317639813119714749552539513773001607573763933858564667916944353815489668631396161304460989583986256757527933244354623533152104387839733968667261826202375398125965905085655044463779193561761968601048936480680386834632128509030999498606291211392286706097775579453868210887864111289030178294012985901715261878258596394582466592829770673868510657484392424079166140322328277115651897460481675542577727622617345755438688381922502020262186453829920381137087784905265341242580005449031627583616189955794874728527965862392168013651749394296455324450087349064489828918906621546779442786589104507711852697373477973191650916782990214517814033476422495097847383949233332627514124157128454074804273695534127065301345348136340533070940987824054026544118649955447012989361795217108493672023720355552997197928959658688125204516314827346623027035070369583702560894762836164867179104637752883152495139037123286920171325328670941290339345579236104267126635983836694542966163506327015511278934822214350820259624920883550988275670196374169802490698212509535197701181338933531211250004881999998398126147105745476518181256497628217386211288361203752755273264164037267034126134033383428382146861019538576956842427343768131921686183486894824996650242188865835688699596790686920253024920157694624196236532731421405037957386609313327517207993671746525325673701900911744702624752528499822545290902922817713568232304560351966428749312034558403257063285419628501409609744310164365818616768045605355848645824001953995680619338901552856943818896488303540643640741533046219946900917047583513470872876930681887006787811656783579, 1) =
        runTrials [("s1", "AB")] cexScanBA 0
          (appendCounts
            (addMissing (appendCounts (addMissing [] []) [])
              (trialCounts [("s1", "AB")] cexScanBA (20187124975868560780553724661745557735861729153059206100268838671774938011102366867657002093605826270143221120596155806439570112410620234523176723384830554921049596113888959371476682341701339338596753695820925308727765895807483023047880041589899801702066444890083927533468327868342803086789703341898919325472699609768217659437163760395119566500706730526800470112725979369912022209790162041172820839460807029389405812997791143144731336395968514680924746952055544107265682764121430624875286303285559656338649530207241995406302050957927691406456600737682307593608397502110341396743794221225146407712037002245518091773742604748725700962833866149049200785057558898496940926198880655226161020122671411103749227567682710328280670968319120237057815227929919042684783717392018121361161573351728002872738145357605411482681481484154548300354094431561014438886024647614849098480651362420377212499223616361539165718604191038119840700630245819118834011849488165205755982696136292900367181572504133429654710391374975398695704324296590144662595858812592787571206019316399033201745557178777161239155947274083890439346559032011231779843566737777613803118806973879969547962202173580758856085717103533221515924024523618809777311142255912863405676636784564529778714213312445256391456440432229020218716190229931871896803019335288023539041726695211677935153312923449032287658147630541794061775454858396025856745103826698019443482713576004979230618035822330954466289789602080530660344297600878844805363929770547347557774606678111099750934315095994155524140628749496096518291703231967122428045324026107109365319258498196612200627657279726395982700999895319675194525587809143249332839525062731178216485013604155554996742402090087353532426196783639566677397001695699437149245937937645081614281924576034233546981190449595476555041300064414806737412165850341940882859018474404749788739591464858343465705036778586747738877920190008656292305746939650380854871887969625523946705319083611829114229471088596766408858464039525922936718541285690775389668038310577335470731553032874729409952820029094389479960693263300945457251247100989602942469914409454818820031915094058326643329844836215096216645774501224757729224611454225928616657904997888291551556510706506870994873309511618025251713353944791334035473408262437809484800287760343484117688706803862246876883580506029292461112167230699196109166971100594996170428419522523623159017818989131641609737210617322370177007173394502909410297416275255903256212718464523886785933921725943413593227953393725708875086623934010263788432463856019007774739451164013105514479212394398624558721665915106093544599451053134247916299069283739708177451792032513504218024010804490702272708201541924485793278079780409192621429195292056433929968130101753140025149367993563392602620731860151653756318696995829547854194130827554030154449871796113026095796211040312201504140119860010887482373020479732163931329684702476310158772407410318309463416208915195887661987910797087951746239772044420889631899253797265684949268203091024916043668064620527554970428467423810399637634013183152436919801699722858938906183643024564330593178824957196888533341233222691789109044588734751381522029973466982709799042584584111561231428810679932557130589429445603138862635353303218124524289967928556138274121457624059232333506246230019135429227032238630995168826229157200637954100303970468820698499519388237293758882226183773876154960862778993129986480500201188251684699993500339320908743245570853158445292136451890939359261455696925092141286872006320267162776347331217313287645570576360487701729145356845560833829294101402783703547507479729647817067420670765214068005538620005998300262686942821221033292788178646529816211893923230248824927687994704673328642886207164335976567929284195979494836908487779137994706222010601973252088102771108964121575507795230424274175564429305502520616423405723373378660671060691634846534365110778465918069929673777475295826161349018538947628865405152113827622720431456831585982753181270258911427969015040974825828374518529804618046540920652098883198021342802085441847737321510137211032159408309945887175837047059183221539440352147766522163752587125095497812890289682231802381559640317621412829824309112984872728075429174690109282987181759818227485435265826622743122203452200564026045052577453723402355766897566207877208757147212860982308164874258422810465387958958022505376997194840161683377721116013014538628392297317639813119714749552539513773001607573763933858564667916944353815489668631396161304460989583986256757527933244354623533152104387839733968667261826202375398125965905085655044463779193561761968601048936480680386834632128509030999498606291211392286706097775579453868210887864111289030178294012985901715261878258596394582466592829770673868510657484392424079166140322328277115651897460481675542577727622617345755438688381922502020262186453829920381137087784905265341242580005449031627583616189955794874728527965862392168013651749394296455324450087349064489828918906621546779442786589104507711852697373477973191650916782990214517814033476422495097847383949233332627514124157128454074804273695534127065301345348136340533070940987824054026544118649955447012989361795217108493672023720355552997197928959658688125204516314827346623027035070369583702560894762836164867179104637752883152495139037123286920171325328670941290339345579236104267126635983836694542966163506327015511278934822214350820259624920883550988275670196374169802490698212509535197701181338933531211250004881999998398126147105745476518181256497628217386211288361203752755273264164037267034126134033383428382146861019538576956842427343768131921686183486894824996650242188865835688699596790686920253024920157694624196236532731421405037957386609313327517207993671746525325673701900911744702624752528499822545290902922817713568232304560351966428749312034558403257063285419628501409609744310164365818616768045605355848645824001953995680619338901552856943818896488303540643640741533046219946900917047583513470872876930681887006787811656783579, 1)))
            (trialCounts [("s1", "AB")] cexScanBA (20187124975868560780553724661745557735861729153059206100268838671774938011102366867657002093605826270143221120596155806439570112410620234523176723384830554921049596113888959371476682341701339338596753695820925308727765895807483023047880041589899801702066444890083927533468327868342803086789703341898919325472699609768217659437163760395119566500706730526800470112725979369912022209790162041172820839460807029389405812997791143144731336395968514680924746952055544107265682764121430624875286303285559656338649530207241995406302050957927691406456600737682307593608397502110341396743794221225146407712037002245518091773742604748725700962833866149049200785057558898496940926198880655226161020122671411103749227567682710328280670968319120237057815227929919042684783717392018121361161573351728002872738145357605411482681481484154548300354094431561014438886024647614849098480651362420377212499223616361539165718604191038119840700630245819118834011849488165205755982696136292900367181572504133429654710391374975398695704324296590144662595858812592787571206019316399033201745557178777161239155947274083890439346559032011231779843566737777613803118806973879969547962202173580758856085717103533221515924024523618809777311142255912863405676636784564529778714213312445256391456440432229020218716190229931871896803019335288023539041726695211677935153312923449032287658147630541794061775454858396025856745103826698019443482713576004979230618035822330954466289789602080530660344297600878844805363929770547347557774606678111099750934315095994155524140628749496096518291703231967122428045324026107109365319258498196612200627657279726395982700999895319675194525587809143249332839525062731178216485013604155554996742402090087353532426196783639566677397001695699437149245937937645081614281924576034233546981190449595476555041300064414806737412165850341940882859018474404749788739591464858343465705036778586747738877920190008656292305746939650380854871887969625523946705319083611829114229471088596766408858464039525922936718541285690775389668038310577335470731553032874729409952820029094389479960693263300945457251247100989602942469914409454818820031915094058326643329844836215096216645774501224757729224611454225928616657904997888291551556510706506870994873309511618025251713353944791334035473408262437809484800287760343484117688706803862246876883580506029292461112167230699196109166971100594996170428419522523623159017818989131641609737210617322370177007173394502909410297416275255903256212718464523886785933921725943413593227953393725708875086623934010263788432463856019007774739451164013105514479212394398624558721665915106093544599451053134247916299069283739708177451792032513504218024010804490702272708201541924485793278079780409192621429195292056433929968130101753140025149367993563392602620731860151653756318696995829547854194130827554030154449871796113026095796211040312201504140119860010887482373020479732163931329684702476310158772407410318309463416208915195887661987910797087951746239772044420889631899253797265684949268203091024916043668064620527554970428467423810399637634013183152436919801699722858938906183643024564330593178824957196888533341233222691789109044588734751381522029973466982709799042584584111561231428810679932557130589429445603138862635353303218124524289967928556138274121457624059232333506246230019135429227032238630995168826229157200637954100303970468820698499519388237293758882226183773876154960862778993129986480500201188251684699993500339320908743245570853158445292136451890939359261455696925092141286872006320267162776347331217313287645570576360487701729145356845560833829294101402783703547507479729647817067420670765214068005538620005998300262686942821221033292788178646529816211893923230248824927687994704673328642886207164335976567929284195979494836908487779137994706222010601973252088102771108964121575507795230424274175564429305502520616423405723373378660671060691634846534365110778465918069929673777475295826161349018538947628865405152113827622720431456831585982753181270258911427969015040974825828374518529804618046540920652098883198021342802085441847737321510137211032159408309945887175837047059183221539440352147766522163752587125095497812890289682231802381559640317621412829824309112984872728075429174690109282987181759818227485435265826622743122203452200564026045052577453723402355766897566207877208757147212860982308164874258422810465387958958022505376997194840161683377721116013014538628392297317639813119714749552539513773001607573763933858564667916944353815489668631396161304460989583986256757527933244354623533152104387839733968667261826202375398125965905085655044463779193561761968601048936480680386834632128509030999498606291211392286706097775579453868210887864111289030178294012985901715261878258596394582466592829770673868510657484392424079166140322328277115651897460481675542577727622617345755438688381922502020262186453829920381137087784905265341242580005449031627583616189955794874728527965862392168013651749394296455324450087349064489828918906621546779442786589104507711852697373477973191650916782990214517814033476422495097847383949233332627514124157128454074804273695534127065301345348136340533070940987824054026544118649955447012989361795217108493672023720355552997197928959658688125204516314827346623027035070369583702560894762836164867179104637752883152495139037123286920171325328670941290339345579236104267126635983836694542966163506327015511278934822214350820259624920883550988275670196374169802490698212509535197701181338933531211250004881999998398126147105745476518181256497628217386211288361203752755273264164037267034126134033383428382146861019538576956842427343768131921686183486894824996650242188865835688699596790686920253024920157694624196236532731421405037957386609313327517207993671746525325673701900911744702624752528499822545290902922817713568232304560351966428749312034558403257063285419628501409609744310164365818616768045605355848645824001953995680619338901552856943818896488303540643640741533046219946900917047583513470872876930681887006787811656783579, 1)))
          (trialStep [("s1", "AB")] (20187124975868560780553724661745557735861729153059206100268838671774938011102366867657002093605826270143221120596155806439570112410620234523176723384830554921049596113888959371476682341701339338596753695820925308727765895807483023047880041589899801702066444890083927533468327868342803086789703341898919325472699609768217659437163760395119566500706730526800470112725979369912022209790162041172820839460807029389405812997791143144731336395968514680924746952055544107265682764121430624875286303285559656338649530207241995406302050957927691406456600737682307593608397502110341396743794221225146407712037002245518091773742604748725700962833866149049200785057558898496940926198880655226161020122671411103749227567682710328280670968319120237057815227929919042684783717392018121361161573351728002872738145357605411482681481484154548300354094431561014438886024647614849098480651362420377212499223616361539165718604191038119840700630245819118834011849488165205755982696136292900367181572504133429654710391374975398695704324296590144662595858812592787571206019316399033201745557178777161239155947274083890439346559032011231779843566737777613803118806973879969547962202173580758856085717103533221515924024523618809777311142255912863405676636784564529778714213312445256391456440432229020218716190229931871896803019335288023539041726695211677935153312923449032287658147630541794061775454858396025856745103826698019443482713576004979230618035822330954466289789602080530660344297600878844805363929770547347557774606678111099750934315095994155524140628749496096518291703231967122428045324026107109365319258498196612200627657279726395982700999895319675194525587809143249332839525062731178216485013604155554996742402090087353532426196783639566677397001695699437149245937937645081614281924576034233546981190449595476555041300064414806737412165850341940882859018474404749788739591464858343465705036778586747738877920190008656292305746939650380854871887969625523946705319083611829114229471088596766408858464039525922936718541285690775389668038310577335470731553032874729409952820029094389479960693263300945457251247100989602942469914409454818820031915094058326643329844836215096216645774501224757729224611454225928616657904997888291551556510706506870994873309511618025251713353944791334035473408262437809484800287760343484117688706803862246876883580506029292461112167230699196109166971100594996170428419522523623159017818989131641609737210617322370177007173394502909410297416275255903256212718464523886785933921725943413593227953393725708875086623934010263788432463856019007774739451164013105514479212394398624558721665915106093544599451053134247916299069283739708177451792032513504218024010804490702272708201541924485793278079780409192621429195292056433929968130101753140025149367993563392602620731860151653756318696995829547854194130827554030154449871796113026095796211040312201504140119860010887482373020479732163931329684702476310158772407410318309463416208915195887661987910797087951746239772044420889631899253797265684949268203091024916043668064620527554970428467423810399637634013183152436919801699722858938906183643024564330593178824957196888533341233222691789109044588734751381522029973466982709799042584584111561231428810679932557130589429445603138862635353303218124524289967928556138274121457624059232333506246230019135429227032238630995168826229157200637954100303970468820698499519388237293758882226183773876154960862778993129986480500201188251684699993500339320908743245570853158445292136451890939359261455696925092141286872006320267162776347331217313287645570576360487701729145356845560833829294101402783703547507479729647817067420670765214068005538620005998300262686942821221033292788178646529816211893923230248824927687994704673328642886207164335976567929284195979494836908487779137994706222010601973252088102771108964121575507795230424274175564429305502520616423405723373378660671060691634846534365110778465918069929673777475295826161349018538947628865405152113827622720431456831585982753181270258911427969015040974825828374518529804618046540920652098883198021342802085441847737321510137211032159408309945887175837047059183221539440352147766522163752587125095497812890289682231802381559640317621412829824309112984872728075429174690109282987181759818227485435265826622743122203452200564026045052577453723402355766897566207877208757147212860982308164874258422810465387958958022505376997194840161683377721116013014538628392297317639813119714749552539513773001607573763933858564667916944353815489668631396161304460989583986256757527933244354623533152104387839733968667261826202375398125965905085655044463779193561761968601048936480680386834632128509030999498606291211392286706097775579453868210887864111289030178294012985901715261878258596394582466592829770673868510657484392424079166140322328277115651897460481675542577727622617345755438688381922502020262186453829920381137087784905265341242580005449031627583616189955794874728527965862392168013651749394296455324450087349064489828918906621546779442786589104507711852697373477973191650916782990214517814033476422495097847383949233332627514124157128454074804273695534127065301345348136340533070940987824054026544118649955447012989361795217108493672023720355552997197928959658688125204516314827346623027035070369583702560894762836164867179104637752883152495139037123286920171325328670941290339345579236104267126635983836694542966163506327015511278934822214350820259624920883550988275670196374169802490698212509535197701181338933531211250004881999998398126147105745476518181256497628217386211288361203752755273264164037267034126134033383428382146861019538576956842427343768131921686183486894824996650242188865835688699596790686920253024920157694624196236532731421405037957386609313327517207993671746525325673701900911744702624752528499822545290902922817713568232304560351966428749312034558403257063285419628501409609744310164365818616768045605355848645824001953995680619338901552856943818896488303540643640741533046219946900917047583513470872876930681887006787811656783579, 1)) from rfl]
    rw [htc2, hts2]
    decide
  have e : run_baseline [("s1", "AB")] cexScanBA 2 (some 7) =
      run_baseline_with [("s1", "AB")] cexScanBA 2 (52839506161007317102949658614648297364742017287431299569114663797159194989118097241479019934633577185168903159570872018663860753952475932412300595952548334423407564414180677572998032268275813727350873038291773660024837810492831076458037479171414750942656523921055242358845559336606057601714362651684730997471576477326408081115159381310424245656482230372801242705078564548585157398045046179987278037498921973144542766434399572915894411823405009650378622176565423837093345255131541552274140824768573584004679562315565657174798123140116073611332542027990251082646623438121063657109608466223140977315295606517204675301107066211803052522341648386462886005149803784180382949855362902196938044618310009517606165246456306188145473724398573755383166888299229571593715584107865323863515437505644301006740244075494647114809453705725166251631897838376961336967207164249181440472806100145403143704132811057188894224649159503941481914875924739934017605053565245805732464584975129234216474483736139811448285031829899266056282982118323054544678076143495623722188654872041131062707407658513919403125661107395884536076598880521729564479345197799033777647350231445853546213000537530502544470712082516923508476675676925863217445718214120117455960259104308558998356037003658469836555723541892459883842656211478582958062928496216745750656670267020308213177737893666238605637080570844567650853683869191373861440129768131859742861371649961834348923264350749039619348019628375467432078901301315145353641580064186979285229647542164893655173527527201047524620917075738882029175025481859197618853946059608556966376079905184559610533213746993348169265225329784743524839720479513843238207415674062408601676751658393791354568705216137818617832940507534649574163014840710573028460874275325046443641695021041885169244426170844442995094754464082099607226306276061067399470275248025856454794982347325433281047724005789731352028419737068911086046537771519503685752190565278456735562095702356248756226171832395920748628660300013156324738188034484672429830126798410527149648678388567371935581495381107651689367753213574065268303962017599043956565843153310584387457375064534547251334850547090955733807486383075676744778170938241487121285106683791201902854754586039522220830066264460236137332289697521580279650840446188786626323255342253229170929697681105266387035465091433959478790483359475350506443589596532854710235285897447547694971656405838370989141786537270501136489943093066297280104171765606076015849465931768002015080158714300751769893812250733800371427067317165755434740031647854623160598565763834614847950379559103706305074951224176496418151538018966168736831099476077857264119680869587637257219355058097076176730654449449804361771497150778081187792784140095594619390194842396566918284008707324762274114053881723842297223150968272335195000566524411159762528043456450437912491775642181081538472104334934237841364605551203215628305912516040995353268955612920501355203971403794103007271830039240418116251324884036209187150471433945652799533192721077704721847795613403695300558940380651263028762979764121611906175710248933506227313209185601060922254022131944020631538926819600743278023309046620465275477024085103346932251264857690429574323489989372014385194026309520305648315251647247501166330252761876487828576695566923465697776612531602126458645289747145737539445855590823588240565206467649219281579201551482256476478874020243152264457686438848516030717391257705290544097465934972055344173226427171409117768485679053926256120170364289912218456828705377387332140525812582485000881762356799582102828526831590376300141311738128721731129115188609178918845072621787648271470002084430815789609641350008214395227205193310897741271177888614330202402508960924061979315178595634294805975584604991293468242338529800947602034235603297427730461081310625679920147649993347830862260311948616239685799790801941824627483070658509894709324316880005797647675834478421797548556775974340573320974601464773750214652595225335027518800695286371170791254431366955056640226623566611541049790636278785762394377428761629174082627799406782859458755445785127543597156932194915989641832162893079275987445855430374877295739203280390058960193937263787138979034632776175858967330116283148938614340153638569260649961719084979709121977749625117036887349727459968956159223547496079280382706320192075821144257518924200856749971644105690171933202697162399496126132864647071522789481785642154217123603617008085424936657798996727153462673884251181875012981498289134215741482409886894433210437235667800931397723509573791494709740928144338955606923650655903971389411680158222178336786988435403454158232366420761298604853827753953905319578001530773038902002987656495033326467004408916478089353161656473279881337748066018435125863861048012742209601947195278261214070589350932688345813432883218452524077683597974331210168541571403699976014084461427914669853596852815233996424682666524251588881065012766391597602871857840213494465395919362692077180529541812865046796724911230617296447445809886586364491113060652873877167073489015970531320567893363473168727777751836043688424072043777785171182281628623735843692940095457692569765076988186556366567269079221593534114598012936898817763863448985595812647876017317131067558000866227891911661471328876182591760854828910335301933786783841776358888590801318914021231766531494354838378987729812243128366663678312047995175208024682108477294198192340632169736010939920296347591781720172411900589530021567258709160386995223159674916141091625738499287140536211239091351899337119112759918916921097355374691942720016408281666513102815794633110267174466966149859048875992065575178901166316799701807440227640666058215112411818073510371612442177344690685505929962918977009466578886628866899782521127185859509280876143684496730295323095098186851834671918739016579575224907047934820271774988597131745151820549599732442059516722530290974920960160294755235506766723260217404442903131793182368557548733519361163734997813309828682563808563594688914738587075870720, 624) := by
    rw [run_baseline, mtSeed7_state]
  have h1 : (run_baseline [("s1", "AB")] cexScanBA 2
      (some 7)).random_counts = [("M", [1])] := by
    rw [e]
    show (runTrials [("s1", "AB")] cexScanBA 2
      ((count_matches_by_motif (cexScanBA [("s1", "AB")])).map
        (fun p => (p.1, ([] : List Int)))) (52839506161007317102949658614648297364742017287431299569114663797159194989118097241479019934633577185168903159570872018663860753952475932412300595952548334423407564414180677572998032268275813727350873038291773660024837810492831076458037479171414750942656523921055242358845559336606057601714362651684730997471576477326408081115159381310424245656482230372801242705078564548585157398045046179987278037498921973144542766434399572915894411823405009650378622176565423837093345255131541552274140824768573584004679562315565657174798123140116073611332542027990251082646623438121063657109608466223140977315295606517204675301107066211803052522341648386462886005149803784180382949855362902196938044618310009517606165246456306188145473724398573755383166888299229571593715584107865323863515437505644301006740244075494647114809453705725166251631897838376961336967207164249181440472806100145403143704132811057188894224649159503941481914875924739934017605053565245805732464584975129234216474483736139811448285031829899266056282982118323054544678076143495623722188654872041131062707407658513919403125661107395884536076598880521729564479345197799033777647350231445853546213000537530502544470712082516923508476675676925863217445718214120117455960259104308558998356037003658469836555723541892459883842656211478582958062928496216745750656670267020308213177737893666238605637080570844567650853683869191373861440129768131859742861371649961834348923264350749039619348019628375467432078901301315145353641580064186979285229647542164893655173527527201047524620917075738882029175025481859197618853946059608556966376079905184559610533213746993348169265225329784743524839720479513843238207415674062408601676751658393791354568705216137818617832940507534649574163014840710573028460874275325046443641695021041885169244426170844442995094754464082099607226306276061067399470275248025856454794982347325433281047724005789731352028419737068911086046537771519503685752190565278456735562095702356248756226171832395920748628660300013156324738188034484672429830126798410527149648678388567371935581495381107651689367753213574065268303962017599043956565843153310584387457375064534547251334850547090955733807486383075676744778170938241487121285106683791201902854754586039522220830066264460236137332289697521580279650840446188786626323255342253229170929697681105266387035465091433959478790483359475350506443589596532854710235285897447547694971656405838370989141786537270501136489943093066297280104171765606076015849465931768002015080158714300751769893812250733800371427067317165755434740031647854623160598565763834614847950379559103706305074951224176496418151538018966168736831099476077857264119680869587637257219355058097076176730654449449804361771497150778081187792784140095594619390194842396566918284008707324762274114053881723842297223150968272335195000566524411159762528043456450437912491775642181081538472104334934237841364605551203215628305912516040995353268955612920501355203971403794103007271830039240418116251324884036209187150471433945652799533192721077704721847795613403695300558940380651263028762979764121611906175710248933506227313209185601060922254022131944020631538926819600743278023309046620465275477024085103346932251264857690429574323489989372014385194026309520305648315251647247501166330252761876487828576695566923465697776612531602126458645289747145737539445855590823588240565206467649219281579201551482256476478874020243152264457686438848516030717391257705290544097465934972055344173226427171409117768485679053926256120170364289912218456828705377387332140525812582485000881762356799582102828526831590376300141311738128721731129115188609178918845072621787648271470002084430815789609641350008214395227205193310897741271177888614330202402508960924061979315178595634294805975584604991293468242338529800947602034235603297427730461081310625679920147649993347830862260311948616239685799790801941824627483070658509894709324316880005797647675834478421797548556775974340573320974601464773750214652595225335027518800695286371170791254431366955056640226623566611541049790636278785762394377428761629174082627799406782859458755445785127543597156932194915989641832162893079275987445855430374877295739203280390058960193937263787138979034632776175858967330116283148938614340153638569260649961719084979709121977749625117036887349727459968956159223547496079280382706320192075821144257518924200856749971644105690171933202697162399496126132864647071522789481785642154217123603617008085424936657798996727153462673884251181875012981498289134215741482409886894433210437235667800931397723509573791494709740928144338955606923650655903971389411680158222178336786988435403454158232366420761298604853827753953905319578001530773038902002987656495033326467004408916478089353161656473279881337748066018435125863861048012742209601947195278261214070589350932688345813432883218452524077683597974331210168541571403699976014084461427914669853596852815233996424682666524251588881065012766391597602871857840213494465395919362692077180529541812865046796724911230617296447445809886586364491113060652873877167073489015970531320567893363473168727777751836043688424072043777785171182281628623735843692940095457692569765076988186556366567269079221593534114598012936898817763863448985595812647876017317131067558000866227891911661471328876182591760854828910335301933786783841776358888590801318914021231766531494354838378987729812243128366663678312047995175208024682108477294198192340632169736010939920296347591781720172411900589530021567258709160386995223159674916141091625738499287140536211239091351899337119112759918916921097355374691942720016408281666513102815794633110267174466966149859048875992065575178901166316799701807440227640666058215112411818073510371612442177344690685505929962918977009466578886628866899782521127185859509280876143684496730295323095098186851834671918739016579575224907047934820271774988597131745151820549599732442059516722530290974920960160294755235506766723260217404442903131793182368557548733519361163734997813309828682563808563594688914738587075870720, 624)).1 = [("M", [1])]
    rw [show (count_matches_by_motif (cexScanBA [("s1", "AB")])).map
        (fun p => (p.1, ([] : List Int))) = ([] : List (String × List Int))
      from by decide]
    exact hrun
  exact ⟨h1, by rw [h1]; decide, by decide⟩

/-- Witness for C2's amended theorem: one trial over `{"s1": "A"}`
with a callback that always reports one hit of motif `"A"`, so `"A"`
is a real-scan motif and `"Z"` is absent everywhere. -/
theorem run_baseline_trial_table_lengths_witness :
    (dget (run_baseline [("s1", "A")] constScanA 1
      (some 0)).real_counts "A").isSome = true ∧
    dget (run_baseline [("s1", "A")] constScanA 1
      (some 0)).real_counts "Z" = none ∧
    (dget (run_baseline [("s1", "A")] constScanA 1 (some 0)).random_counts
        "A" = some (trialTrace [("s1", "A")] constScanA 1
          (randomInit (some 0)) "A") ∧
    (trialTrace [("s1", "A")] constScanA 1
      (randomInit (some 0)) "A").length = 1 ∧
    (∀ k, k < 1 →
      (trialTrace [("s1", "A")] constScanA 1
        (randomInit (some 0)) "A").get? k =
        some (dgetD (trialCounts [("s1", "A")] constScanA
          (stateAt [("s1", "A")] k (randomInit (some 0)))) "A" 0)) ∧
    (∀ k, k < 1 →
      dget (trialCounts [("s1", "A")] constScanA
        (stateAt [("s1", "A")] k (randomInit (some 0)))) "A" = none →
      (trialTrace [("s1", "A")] constScanA 1
        (randomInit (some 0)) "A").get? k = some 0) ∧
    (∀ p ∈ (run_baseline [("s1", "A")] constScanA 1
        (some 0)).random_counts, p.2.length ≤ 1) ∧
    ((dget (run_baseline [("s1", "A")] constScanA 1
        (some 0)).random_counts "Z" = none ∧
      ∀ j, j < 1 → dget (trialCounts [("s1", "A")] constScanA
        (stateAt [("s1", "A")] j (randomInit (some 0)))) "Z" = none) ∨
    (∃ k, k < 1 ∧
      (∀ j, j < k → dget (trialCounts [("s1", "A")] constScanA
        (stateAt [("s1", "A")] j (randomInit (some 0)))) "Z" = none) ∧
      (dget (trialCounts [("s1", "A")] constScanA
        (stateAt [("s1", "A")] k (randomInit (some 0)))) "Z").isSome =
          true ∧
      dget (run_baseline [("s1", "A")] constScanA 1
        (some 0)).random_counts "Z" =
        some (trialTrace [("s1", "A")] constScanA (1 - k)
          (stateAt [("s1", "A")] k (randomInit (some 0))) "Z") ∧
      (trialTrace [("s1", "A")] constScanA (1 - k)
        (stateAt [("s1", "A")] k (randomInit (some 0))) "Z").length =
        1 - k))) :=
  ⟨by decide, by decide,
    run_baseline_trial_table_lengths [("s1", "A")] constScanA 1 (some 0)
      "A" "Z" (by decide) (by decide)⟩

end MotifScan
